import Mathlib

/-!
# OTA update session engine (`ota.c`)

A shallow embedding of the over-the-air update handlers of `ota.c`:
`application_function_ota_read`, `application_function_ota_receive`,
`application_function_ota_write`, `flash_write_verify`,
`application_function_ota_send`, `application_function_ota_finish` and
`application_function_ota_commit`.

Conventions.

* The file-scope variables of `ota.c`, the shared string `buffer_4k`, the flash
  chip and the rboot boot descriptor are gathered in one record, `ota_vars`,
  which every handler receives and returns.
* `unsigned int` variables are natural numbers kept below `2 ^ 32`: every store
  reduces modulo `2 ^ 32` (`u32`).  `int` variables are integers; a parsed
  start address is reduced to the range of `int` (`int32`) when it is stored.
* Bytes are natural numbers.
* Everything the handlers call that is not defined in `ota.c` (CRC, MD5, the
  flash driver, rboot, buffer capacities, the build flag `IMAGE_OTA`) is a field
  of `ota_env`.
* The argument string `src` is represented by what `parse_int`, `parse_string`
  and `string_sep` extract from it (`none` when the helper does not return
  `parse_ok`, respectively returns a negative offset).
* The text put in `dst` is represented by one constructor of `ota_reply` per
  format string, carrying the formatted values.
-/

namespace Ota

/-- The enumeration `ota_state_t`. -/
inductive ota_state_t where
  | ota_inactive
  | ota_reading
  | ota_writing
  | ota_successful
  deriving DecidableEq, Repr

/-- The values of `app_action_t` that `ota.c` returns. -/
inductive app_action_t where
  | app_action_normal
  | app_action_error
  | app_action_ota_commit
  deriving DecidableEq, Repr

/-- The fields of rboot's `rboot_config` that `ota.c` reads. -/
structure rboot_config where
  magic : Nat
  count : Nat
  current_rom : Nat
  roms : List Nat
  deriving DecidableEq, Repr

/-- One call of the flash driver, as recorded in `ota_vars.flash_log`. -/
inductive flash_op where
  | read (address length : Nat)
  | erase_sector (sector : Nat)
  | write (address : Nat) (data : List Nat)
  deriving DecidableEq, Repr

/-- What a handler leaves in `dst`, one constructor per format string of `ota.c`. -/
inductive ota_reply where
  /-- Text "ota-read: string read buffer too small: %d\n" -/
  | read_buffer_too_small (size : Nat)
  /-- Text "ota-read: wlan scan active\n" -/
  | read_wlan_scan_active
  /-- Text "READ\n" -/
  | READ
  /-- Text "ota-receive: flash read not active\n" -/
  | receive_not_active
  /-- Text "ota-read: address required\n" -/
  | receive_address_required
  /-- Text "ota-read: chunk size required\n" -/
  | receive_chunk_size_required
  /-- Text "ota-read: chunk size invalid (> 1024)\n" -/
  | receive_chunk_size_invalid
  /-- Text "DATA %u %u %u @" followed by the bytes read -/
  | DATA (chunk_size data_transferred crc : Nat) (bytes : List Nat)
  /-- Text "ota-write: string write buffer too small: %d\n" -/
  | write_buffer_too_small (size : Nat)
  /-- Text "ota-write: wlan scan active\n" -/
  | write_wlan_scan_active
  /-- Text "ota-write: invalid/missing file length\n" -/
  | write_invalid_file_length
  /-- Text "ota-write: start address required on-OTA image\n" -/
  | write_start_address_required
  /-- Text "ota-write: rboot config invalid\n" -/
  | write_rboot_config_invalid
  /-- Text "ota-write: start address not aligned: %x\n" -/
  | write_start_address_not_aligned (flash_start_address : Int)
  /-- Text "WRITE %d %u\n" -/
  | WRITE (flash_slot : Int) (flash_sector : Nat)
  /-- Text "ota-write: string verify buffer too small: %d\n" -/
  | verify_buffer_too_small (size : Nat)
  /-- Text "ota-write: verify mismatch\n" -/
  | verify_mismatch
  /-- The empty string left by `string_clear(dst)`. -/
  | cleared
  /-- The string `dst` as the caller passed it (the handler wrote nothing). -/
  | unchanged
  /-- Text "ota-send: not active\n" -/
  | send_not_active
  /-- Text "ota-send: missing chunk length\n" -/
  | send_missing_chunk_length
  /-- Text "ota-send: missing crc\n" -/
  | send_missing_crc
  /-- Text "ota-send: missing data chunk\n" -/
  | send_missing_data_chunk
  /-- Text "ota-send: chunk length mismatch: %d != %d\n" -/
  | send_chunk_length_mismatch (remote_chunk_length chunk_length : Int)
  /-- Text "ota-send: CRC mismatch %08x != %08x\n" -/
  | send_crc_mismatch (remote_crc crc : Nat)
  /-- Text "ota-send: unaligned %u\n" -/
  | send_unaligned (length : Nat)
  /-- Text "ACK %d\n" -/
  | ACK (data_transferred : Nat)
  /-- Text "READ_OK %s %u\n" -/
  | READ_OK (local_md5_string : List Char) (data_transferred : Nat)
  /-- Text "ota-finish: missing md5sum string\n" -/
  | finish_missing_md5sum
  /-- Text "ota-finish: file size differs: %u != %u\n" -/
  | finish_file_size_differs (remote_file_length data_transferred : Nat)
  /-- Text "ota-finish: not active\n" -/
  | finish_not_active
  /-- Text "ota-finish: invalid md5sum: \"%s\" != \"%s\"\n" -/
  | finish_invalid_md5sum (local_md5_string remote_md5_string : List Char)
  /-- Text "%s %s %s %d %d\n" with first word "WRITE_OK" -/
  | WRITE_OK (local_md5_string remote_md5_string : List Char)
      (flash_sectors_written flash_sectors_skipped : Nat)
  /-- Text "%s %s %s %d %d\n" with first word "PARTIAL_WRITE_OK" -/
  | PARTIAL_WRITE_OK (local_md5_string remote_md5_string : List Char)
      (flash_sectors_written flash_sectors_skipped : Nat)
  /-- Text "ota-commit: unavailable on non-OTA image\n" -/
  | commit_unavailable
  /-- Text "ota-commit: no candidate for commit\n" -/
  | commit_no_candidate
  /-- Text "ota-commit: set current slot to %d failed\n" -/
  | commit_set_slot_failed (flash_slot : Int)
  deriving DecidableEq, Repr

/-- Everything `ota.c` uses without defining it.  `F` is the state of the flash
chip.

* `IMAGE_OTA`: the build flag (`true` for `IMAGE_OTA == 1`).
* `BOOT_CONFIG_MAGIC`: the constant of `rboot-api.h`.
* `buffer_4k_size`, `dst_size`: `string_size(&buffer_4k)` and `string_size(dst)`.
* `string_crc32`: the CRC of a byte sequence.
* `md5_hex`: `MD5Final` followed by `string_bin_to_hex`, as a function of the
  bytes given to `MD5Update` since `MD5Init`.
* `flash_byte`, `spi_flash_erase_sector`, `spi_flash_write`: the flash driver
  of the SDK (`spi_flash.h`); `flash_byte f a` is the byte `spi_flash_read`
  delivers for address `a`.  The addresses of `spi_flash_read` and
  `spi_flash_write` are `uint32`, the sector of `spi_flash_erase_sector` is
  `uint16`: the callers below convert what they pass accordingly.
* `rboot_set_current_rom`: the new boot descriptor and the returned flag. -/
structure ota_env (F : Type) where
  IMAGE_OTA : Bool
  BOOT_CONFIG_MAGIC : Nat
  buffer_4k_size : Nat
  dst_size : Nat
  string_crc32 : List Nat → Nat
  md5_hex : List Nat → List Char
  flash_byte : F → Nat → Nat
  spi_flash_erase_sector : F → Nat → F
  spi_flash_write : F → Nat → List Nat → F
  rboot_set_current_rom : rboot_config → Int → Bool × rboot_config

/-- The file-scope variables of `ota.c` together with the objects its handlers
act on.

* `md5`: the bytes fed to `MD5Update` since the last `MD5Init`.
* `buffer_4k`: the content of the shared string `buffer_4k` (its length is
  `string_length(&buffer_4k)`).
* `flash`: the flash chip; `rboot`: the boot descriptor `rboot_get_config()` returns.
* `flash_log`, `rboot_log`: the calls made so far to the flash driver and the
  arguments passed so far to `rboot_set_current_rom`, oldest first. -/
structure ota_vars (F : Type) where
  ota_state : ota_state_t
  remote_file_length : Nat
  chunk_size : Nat
  data_transferred : Nat
  flash_sector : Nat
  flash_sectors_written : Nat
  flash_sectors_skipped : Nat
  flash_start_address : Int
  flash_slot : Int
  md5 : List Nat
  buffer_4k : List Nat
  flash : F
  rboot : rboot_config
  flash_log : List flash_op
  rboot_log : List Int

/-- What a handler returns: the `app_action_t`, the content of `dst`, and the
variables after the call. -/
structure ota_result (F : Type) where
  action : app_action_t
  dst : ota_reply
  vars : ota_vars F

/-- Reduction of a value stored in an `unsigned int`. -/
def u32 (n : Nat) : Nat := n % 4294967296

/-- The 32-bit two's complement pattern of an `int`. -/
def int_bits (a : Int) : Nat := Int.toNat (a % 4294967296)

/-- The `int` whose 32-bit pattern is that of the `uint32` value `n`. -/
def int_of_u32 (n : Nat) : Int :=
  if n % 4294967296 < 2147483648 then ((n % 4294967296 : Nat) : Int)
  else ((n % 4294967296 : Nat) : Int) - 4294967296

/-- Reduction of a value stored in an `int`. -/
def int32 (a : Int) : Int := int_of_u32 (int_bits a)

/-- The bytes `spi_flash_read(address, buffer, length)` puts in `buffer`. -/
def spi_flash_read {F : Type} (env : ota_env F) (f : F) (address length : Nat) : List Nat :=
  (List.range length).map (fun i => env.flash_byte f (address + i))

/-- Modelled from the spec: `string_splice` of `util.c`, which `ota.c` calls as
`string_splice(&buffer_4k, src, chunk_offset, chunk_length)` to add the chunk
(the bytes of `src` from `chunk_offset` to its end) to `buffer_4k`: "On
acceptance, payload is appended to the Pending Write Buffer."  The result may
be longer than 4096 bytes, which `application_function_ota_send` then rejects:
"The buffer must never exceed 4096 bytes — exceeding it is a protocol error". -/
def string_splice (dst chunk : List Nat) : List Nat := dst ++ chunk

/-- Modelled from the spec: `string_match_string` of `util.c`: the digest "is
finalized and compared against a caller-supplied reference digest". -/
def string_match_string (s1 s2 : List Char) : Bool := decide (s1 = s2)

open ota_state_t app_action_t

/-- The handler `application_function_ota_read`; `wlan_scan_active` is the value
of `wlan_scan_active()` at the call. -/
def application_function_ota_read {F : Type} (env : ota_env F) (wlan_scan_active : Bool)
    (s : ota_vars F) : ota_result F :=
  if env.buffer_4k_size < 0x1000 then
    ⟨app_action_error, .read_buffer_too_small env.buffer_4k_size, s⟩
  else if wlan_scan_active then
    ⟨app_action_error, .read_wlan_scan_active, s⟩
  else
    ⟨app_action_normal, .READ, { s with ota_state := ota_reading, data_transferred := 0, md5 := [] }⟩

/-- The handler `application_function_ota_receive`; `arg1` and `arg2` are what
`parse_int(1, src, &address, 0)` and `parse_int(2, src, &chunk_size, 0)` deliver. -/
def application_function_ota_receive {F : Type} (env : ota_env F) (arg1 arg2 : Option Nat)
    (s : ota_vars F) : ota_result F :=
  if s.ota_state ≠ ota_reading then
    ⟨app_action_error, .receive_not_active, { s with ota_state := ota_inactive }⟩
  else
    match arg1 with
    | none => ⟨app_action_error, .receive_address_required, s⟩
    | some a =>
      let address := u32 a
      match arg2 with
      | none => ⟨app_action_error, .receive_chunk_size_required, s⟩
      | some c =>
        let s1 := { s with chunk_size := u32 c }
        if s1.chunk_size > 1024 then
          ⟨app_action_error, .receive_chunk_size_invalid, s1⟩
        else
          let read_buffer := spi_flash_read env s1.flash address s1.chunk_size
          let crc := u32 (env.string_crc32 read_buffer)
          let s2 := { s1 with
            flash_log := s1.flash_log ++ [flash_op.read address s1.chunk_size],
            buffer_4k := read_buffer,
            md5 := s1.md5 ++ read_buffer,
            data_transferred := u32 (s1.data_transferred + s1.chunk_size) }
          ⟨app_action_normal, .DATA s2.chunk_size s2.data_transferred crc read_buffer, s2⟩

/-- The end of `application_function_ota_write`, from the alignment test
`(flash_start_address & 0xfff) != 0` on, which both branches of the test
`flash_start_address == -1` reach. -/
def ota_write_start {F : Type} (s : ota_vars F) : ota_result F :=
  if int_bits s.flash_start_address &&& 0xfff ≠ 0 then
    ⟨app_action_error, .write_start_address_not_aligned s.flash_start_address, s⟩
  else
    let s1 := { s with
      ota_state := ota_writing,
      data_transferred := 0,
      flash_sectors_written := 0,
      flash_sectors_skipped := 0,
      flash_sector := int_bits (Int.tdiv s.flash_start_address 0x1000),
      buffer_4k := [],
      md5 := [] }
    ⟨app_action_normal, .WRITE s1.flash_slot s1.flash_sector, s1⟩

/-- The handler `application_function_ota_write`; `arg1` and `arg2` are what
`parse_int(1, src, &remote_file_length, 0)` and
`parse_int(2, src, &flash_start_address, 0)` deliver. -/
def application_function_ota_write {F : Type} (env : ota_env F) (wlan_scan_active : Bool)
    (arg1 : Option Nat) (arg2 : Option Int) (s : ota_vars F) : ota_result F :=
  if env.buffer_4k_size < 0x1000 then
    ⟨app_action_error, .write_buffer_too_small env.buffer_4k_size, s⟩
  else if wlan_scan_active then
    ⟨app_action_error, .write_wlan_scan_active, s⟩
  else
    match arg1 with
    | none => ⟨app_action_error, .write_invalid_file_length, s⟩
    | some len =>
      let s1 := { s with remote_file_length := u32 len }
      let s2 := { s1 with flash_start_address := match arg2 with
                                                 | some a => int32 a
                                                 | none => -1 }
      if s2.flash_start_address = -1 then
        if env.IMAGE_OTA = false then
          ⟨app_action_error, .write_start_address_required, s2⟩
        else
          let rcfg := s2.rboot
          if rcfg.magic ≠ env.BOOT_CONFIG_MAGIC ∨ rcfg.count ≠ 2 ∨ rcfg.current_rom > 1 then
            ⟨app_action_error, .write_rboot_config_invalid, s2⟩
          else
            let s3 := { s2 with flash_slot := if rcfg.current_rom = 0 then 1 else 0 }
            ota_write_start { s3 with
              flash_start_address := int_of_u32 (rcfg.roms.getD s3.flash_slot.toNat 0) }
      else
        ota_write_start { s2 with flash_slot := -1 }

/-- The function `flash_write_verify`: compare the sector at `flash_sector` with
`buffer_4k`, erase and write it when they differ, read it back, feed what was
read to the MD5 context and compare again.  The call
`spi_flash_erase_sector(flash_sector)` converts the `unsigned int` cursor to the
`uint16` parameter of the SDK function: the sector erased is
`flash_sector % 0x10000`. -/
def flash_write_verify {F : Type} (env : ota_env F) (s : ota_vars F) : ota_result F :=
  let write_buffer := s.buffer_4k
  let write_buffer_length := s.buffer_4k.length
  if env.dst_size < 0x1000 then
    ⟨app_action_error, .verify_buffer_too_small env.dst_size, s⟩
  else
    let address := u32 (s.flash_sector * 0x1000)
    let verify_buffer := spi_flash_read env s.flash address write_buffer_length
    let s1 := { s with flash_log := s.flash_log ++ [flash_op.read address write_buffer_length] }
    let s2 :=
      if write_buffer ≠ verify_buffer then
        { s1 with
          flash := env.spi_flash_write
            (env.spi_flash_erase_sector s1.flash (s1.flash_sector % 0x10000))
            address write_buffer,
          flash_log := s1.flash_log ++
            [flash_op.erase_sector (s1.flash_sector % 0x10000),
              flash_op.write address write_buffer],
          flash_sectors_written := u32 (s1.flash_sectors_written + 1) }
      else
        { s1 with flash_sectors_skipped := u32 (s1.flash_sectors_skipped + 1) }
    let verify_buffer := spi_flash_read env s2.flash address write_buffer_length
    let s3 := { s2 with
      flash_log := s2.flash_log ++ [flash_op.read address write_buffer_length],
      md5 := s2.md5 ++ verify_buffer }
    if write_buffer ≠ verify_buffer then
      ⟨app_action_error, .verify_mismatch, s3⟩
    else
      ⟨app_action_normal, .cleared,
        { s3 with
          flash_sector := u32 (s3.flash_sector + 1),
          data_transferred := u32 (s3.data_transferred + write_buffer_length),
          buffer_4k := [] }⟩

/-- The handler `application_function_ota_send`; `arg1` and `arg2` are what
`parse_int(1, src, &remote_chunk_length, 0)` and `parse_int(2, src, &remote_crc, 0)`
deliver, and `chunk` is the part of `src` from the offset `string_sep(src, 0, 3, ' ')`
to its end (`none` when that offset is negative). -/
def application_function_ota_send {F : Type} (env : ota_env F) (arg1 : Option Int)
    (arg2 : Option Nat) (chunk : Option (List Nat)) (s : ota_vars F) : ota_result F :=
  if s.ota_state ≠ ota_writing then
    ⟨app_action_error, .send_not_active, { s with ota_state := ota_inactive }⟩
  else
    match arg1 with
    | none => ⟨app_action_error, .send_missing_chunk_length, { s with ota_state := ota_inactive }⟩
    | some remote_chunk_length =>
      match arg2 with
      | none => ⟨app_action_error, .send_missing_crc, { s with ota_state := ota_inactive }⟩
      | some rcrc =>
        let remote_crc := u32 rcrc
        match chunk with
        | none =>
          ⟨app_action_error, .send_missing_data_chunk, { s with ota_state := ota_inactive }⟩
        | some data =>
          let chunk_length : Int := (data.length : Int)
          if chunk_length ≠ remote_chunk_length then
            ⟨app_action_error, .send_chunk_length_mismatch remote_chunk_length chunk_length,
              { s with ota_state := ota_inactive }⟩
          else
            let crc := u32 (env.string_crc32 data)
            if crc ≠ remote_crc then
              ⟨app_action_error, .send_crc_mismatch remote_crc crc,
                { s with ota_state := ota_inactive }⟩
            else
              let s1 := { s with buffer_4k := string_splice s.buffer_4k data }
              if s1.buffer_4k.length > 0x1000 then
                ⟨app_action_error, .send_unaligned s1.buffer_4k.length,
                  { s1 with ota_state := ota_inactive }⟩
              else if s1.buffer_4k.length = 0x1000 then
                let r := flash_write_verify env s1
                if r.action ≠ app_action_normal then
                  ⟨r.action, r.dst, { r.vars with ota_state := ota_inactive }⟩
                else
                  ⟨app_action_normal, .ACK r.vars.data_transferred, r.vars⟩
              else
                ⟨app_action_normal, .ACK s1.data_transferred, s1⟩

/-- The final flush of `application_function_ota_finish`: the call of
`flash_write_verify` it makes when `string_length(&buffer_4k) > 0`; nothing
happens when `buffer_4k` is empty. -/
def ota_final_flush {F : Type} (env : ota_env F) (s : ota_vars F) : ota_result F :=
  if s.buffer_4k.length > 0 then flash_write_verify env s
  else ⟨app_action_normal, .unchanged, s⟩

/-- The handler `application_function_ota_finish`; `arg1` is what
`parse_string(1, src, &remote_md5_string)` delivers. -/
def application_function_ota_finish {F : Type} (env : ota_env F) (arg1 : Option (List Char))
    (s : ota_vars F) : ota_result F :=
  if s.ota_state = ota_reading then
    let local_md5_string := env.md5_hex s.md5
    ⟨app_action_normal, .READ_OK local_md5_string s.data_transferred,
      { s with ota_state := ota_inactive }⟩
  else if s.ota_state = ota_writing then
    match arg1 with
    | none => ⟨app_action_error, .finish_missing_md5sum, { s with ota_state := ota_inactive }⟩
    | some remote_md5_string =>
      let r := ota_final_flush env s
      if s.buffer_4k.length > 0 ∧ r.action ≠ app_action_normal then
        ⟨r.action, r.dst, { r.vars with ota_state := ota_inactive }⟩
      else
        let s1 := r.vars
        let local_md5_string := env.md5_hex s1.md5
        if s1.remote_file_length ≠ s1.data_transferred then
          ⟨app_action_error, .finish_file_size_differs s1.remote_file_length s1.data_transferred,
            { s1 with ota_state := ota_inactive }⟩
        else if string_match_string local_md5_string remote_md5_string = false then
          ⟨app_action_error, .finish_invalid_md5sum local_md5_string remote_md5_string,
            { s1 with ota_state := ota_inactive }⟩
        else
          ⟨app_action_normal,
            if s1.flash_slot = -1 then
              .PARTIAL_WRITE_OK local_md5_string remote_md5_string
                s1.flash_sectors_written s1.flash_sectors_skipped
            else
              .WRITE_OK local_md5_string remote_md5_string
                s1.flash_sectors_written s1.flash_sectors_skipped,
            { s1 with ota_state := if s1.flash_slot = -1 then ota_inactive else ota_successful }⟩
  else
    ⟨app_action_error, .finish_not_active, { s with ota_state := ota_inactive }⟩

/-- The handler `application_function_ota_commit`. -/
def application_function_ota_commit {F : Type} (env : ota_env F) (s : ota_vars F) :
    ota_result F :=
  if env.IMAGE_OTA = false then
    ⟨app_action_error, .commit_unavailable, s⟩
  else if s.ota_state ≠ ota_successful then
    ⟨app_action_error, .commit_no_candidate, { s with ota_state := ota_inactive }⟩
  else
    let r := env.rboot_set_current_rom s.rboot s.flash_slot
    let s1 := { s with rboot := r.2, rboot_log := s.rboot_log ++ [s.flash_slot] }
    if r.1 = false then
      ⟨app_action_error, .commit_set_slot_failed s1.flash_slot,
        { s1 with ota_state := ota_inactive }⟩
    else
      ⟨app_action_ota_commit, .unchanged, s1⟩

/-- One command as the dispatcher hands it to the handlers, with the arguments
each handler takes in this development. -/
inductive ota_command where
  | ota_read (wlan_scan_active : Bool)
  | ota_receive (arg1 arg2 : Option Nat)
  | ota_write (wlan_scan_active : Bool) (arg1 : Option Nat) (arg2 : Option Int)
  | ota_send (arg1 : Option Int) (arg2 : Option Nat) (chunk : Option (List Nat))
  | ota_finish (arg1 : Option (List Char))
  | ota_commit
  deriving DecidableEq, Repr

/-- The handler a command is dispatched to. -/
def ota_dispatch {F : Type} (env : ota_env F) (c : ota_command) (s : ota_vars F) :
    ota_result F :=
  match c with
  | .ota_read scan => application_function_ota_read env scan s
  | .ota_receive arg1 arg2 => application_function_ota_receive env arg1 arg2 s
  | .ota_write scan arg1 arg2 => application_function_ota_write env scan arg1 arg2 s
  | .ota_send arg1 arg2 chunk => application_function_ota_send env arg1 arg2 chunk s
  | .ota_finish arg1 => application_function_ota_finish env arg1 s
  | .ota_commit => application_function_ota_commit env s

/-- The variables after a sequence of commands, each handled to completion
before the next. -/
def ota_run {F : Type} (env : ota_env F) (cs : List ota_command) (s : ota_vars F) : ota_vars F :=
  cs.foldl (fun v c => (ota_dispatch env c v).vars) s

/-- The variables at start-up: `ota_state` is initialised to `ota_inactive`, the
other file-scope variables are zero-initialised, nothing has been logged. -/
def ota_initial {F : Type} (flash : F) (rboot : rboot_config) : ota_vars F :=
  { ota_state := ota_inactive, remote_file_length := 0, chunk_size := 0, data_transferred := 0,
    flash_sector := 0, flash_sectors_written := 0, flash_sectors_skipped := 0,
    flash_start_address := 0, flash_slot := 0, md5 := [], buffer_4k := [],
    flash := flash, rboot := rboot, flash_log := [], rboot_log := [] }

/-- Modelled from the spec: the flash driver's erase, "assumed synchronous and
correct at the byte level": every byte of the 4096-byte sector becomes `0xff`,
no other byte changes.  The flash chip is a function from addresses to bytes. -/
def ideal_erase_sector (f : Nat → Nat) (sector : Nat) : Nat → Nat :=
  fun a => if sector * 0x1000 ≤ a ∧ a < sector * 0x1000 + 0x1000 then 0xff else f a

/-- Modelled from the spec: the flash driver's write, "assumed synchronous and
correct at the byte level": the bytes given are stored from `address` on, no
other byte changes. -/
def ideal_write (f : Nat → Nat) (address : Nat) (data : List Nat) : Nat → Nat :=
  fun a => if address ≤ a ∧ a < address + data.length then data.getD (a - address) 0 else f a

/-- The flash driver of `env` is correct at the byte level: erasing sets the
bytes of that sector, and no other, to `0xff`; writing stores the given bytes
and changes no other; reading (`flash_byte`) returns what is stored. -/
structure flash_correct {F : Type} (env : ota_env F) : Prop where
  erase : ∀ (f : F) (sector a : Nat),
    env.flash_byte (env.spi_flash_erase_sector f sector) a =
      if sector * 0x1000 ≤ a ∧ a < sector * 0x1000 + 0x1000 then 0xff else env.flash_byte f a
  write : ∀ (f : F) (address : Nat) (data : List Nat) (a : Nat),
    env.flash_byte (env.spi_flash_write f address data) a =
      if address ≤ a ∧ a < address + data.length then data.getD (a - address) 0
      else env.flash_byte f a

/-- An example environment: dual-slot build, 4096-byte buffers, the ideal flash
chip, a byte sum in place of the CRC, the letters `a + b mod 16` of the bytes in
place of the MD5 digest, and a boot store that accepts slots below `count`. -/
def example_env : ota_env (Nat → Nat) :=
  { IMAGE_OTA := true
    BOOT_CONFIG_MAGIC := 0xe1
    buffer_4k_size := 0x1000
    dst_size := 0x1000
    string_crc32 := fun data => data.foldl (fun a b => a + b) 0
    md5_hex := fun data => data.map (fun b => Char.ofNat (97 + b % 16))
    flash_byte := fun f a => f a
    spi_flash_erase_sector := ideal_erase_sector
    spi_flash_write := ideal_write
    rboot_set_current_rom := fun cfg rom =>
      if int_bits rom % 256 < cfg.count then (true, { cfg with current_rom := int_bits rom % 256 })
      else (false, cfg) }

/-- The example environment built without dual-slot support (`IMAGE_OTA == 0`). -/
def example_env_single : ota_env (Nat → Nat) := { example_env with IMAGE_OTA := false }

/-- An example boot descriptor: two slots, slot 0 running. -/
def example_rboot : rboot_config :=
  { magic := 0xe1, count := 2, current_rom := 0, roms := [0x2000, 0x102000] }

/-- An example start-up state: flash all zero, `example_rboot`. -/
def example_initial : ota_vars (Nat → Nat) := ota_initial (fun _ => 0) example_rboot

/-- The variables after a sequence of commands that all return
`app_action_normal`; `none` as soon as one returns something else. -/
def ota_run_normal {F : Type} (env : ota_env F) : List ota_command → ota_vars F →
    Option (ota_vars F)
  | [], s => some s
  | c :: cs, s =>
    if (ota_dispatch env c s).action = app_action_normal then
      ota_run_normal env cs (ota_dispatch env c s).vars
    else none

/-- Whether a command is a send-chunk command. -/
def ota_command.is_send : ota_command → Bool
  | .ota_send _ _ _ => true
  | _ => false

/-- The payload of a send-chunk command: the bytes of its data chunk. -/
def ota_command.payload : ota_command → List Nat
  | .ota_send _ _ (some data) => data
  | _ => []

/-- The payloads of a list of commands, concatenated in order. -/
def ota_payloads (cs : List ota_command) : List Nat :=
  (cs.map ota_command.payload).flatten

/-- An example write session on the inactive slot: three bytes, one chunk. -/
def example_session : List ota_command :=
  [.ota_write false (some 3) none, .ota_send (some 3) (some 6) (some [1, 2, 3]),
    .ota_finish (some ['b', 'c', 'd'])]

/-- The example state after start-write: `ota_writing`, empty `buffer_4k`. -/
def example_writing : ota_vars (Nat → Nat) :=
  ota_run example_env [.ota_write false (some 3) none] example_initial

/-- The example state after start-write and one accepted chunk of three bytes. -/
def example_buffered : ota_vars (Nat → Nat) :=
  ota_run example_env
    [.ota_write false (some 3) none, .ota_send (some 3) (some 6) (some [1, 2, 3])]
    example_initial

/-- The example state after the whole of `example_session`: `ota_successful`. -/
def example_successful : ota_vars (Nat → Nat) :=
  ota_run example_env example_session example_initial

/-- A chunk of 4096 zero bytes. -/
def example_zero_chunk : List Nat := List.replicate 4096 0

/-- The send-chunk command carrying `example_zero_chunk`, with its length and
its CRC in `example_env`. -/
def example_zero_send : ota_command := .ota_send (some 4096) (some 0) (some example_zero_chunk)

/-- The send-chunk commands of a session that transfers `2 ^ 32 + 1` zero bytes:
`2 ^ 20` chunks of 4096 bytes and one chunk of one byte. -/
def example_long_sends : List ota_command :=
  List.replicate 1048576 example_zero_send ++ [.ota_send (some 1) (some 0) (some [0])]

/-- A write session at explicit address 0 that declares a file length of one
byte, transfers `2 ^ 32 + 1` zero bytes and finishes with the digest of the
bytes transferred. -/
def example_long_session : List ota_command :=
  .ota_write false (some 1) (some 0) :: example_long_sends ++
    [.ota_finish (some (example_env.md5_hex (List.replicate 4294967297 0)))]

/-- Invariant of a write session at start address `A` with declared length `N`
after the payload bytes `P` have been accepted: the session is writing, `P` is
what the `k` flushed sectors hold in flash followed by the content of
`buffer_4k`, which is shorter than a sector. -/
def write_inv {F : Type} (env : ota_env F) (A N : Nat) (P : List Nat) (s : ota_vars F) : Prop :=
  s.ota_state = ota_writing ∧ s.flash_start_address = (A : Int) ∧ s.remote_file_length = N ∧
  s.buffer_4k.length < 0x1000 ∧
  ∃ k : Nat, s.flash_sector = A / 0x1000 + k ∧ s.data_transferred = 0x1000 * k ∧
    P = spi_flash_read env s.flash A (0x1000 * k) ++ s.buffer_4k

/-- Invariant of `example_long_session` after `k` chunks of 4096 zero bytes. -/
def zero_inv (k : Nat) (s : ota_vars (Nat → Nat)) : Prop :=
  s.ota_state = ota_writing ∧ s.buffer_4k = [] ∧ s.flash = (fun _ => 0) ∧
  s.data_transferred = u32 (4096 * k) ∧ s.remote_file_length = 1 ∧
  s.flash_start_address = 0 ∧ s.flash_slot = -1 ∧ s.md5 = List.replicate (4096 * k) 0

/-- Invariant of the states reachable from start-up: while the session is
writing, `buffer_4k` holds fewer than 4096 bytes and `data_transferred` is 4096
times the number of sectors written or skipped, modulo `2 ^ 32`. -/
def writing_inv {F : Type} (s : ota_vars F) : Prop :=
  s.ota_state = ota_writing →
    s.buffer_4k.length < 0x1000 ∧
    s.data_transferred = u32 (0x1000 * (s.flash_sectors_written + s.flash_sectors_skipped))

/-- Invariant of a write session after the payload bytes `P` have been
accepted, as long as no counter wraps: the session is writing, `k` sectors have
been written or skipped, `data_transferred` is `4096 * k`, and `P` is those `k`
sectors followed by the content of `buffer_4k`, which is shorter than a sector. -/
def count_inv {F : Type} (P : List Nat) (s : ota_vars F) : Prop :=
  s.ota_state = ota_writing ∧ s.buffer_4k.length < 0x1000 ∧
  ∃ k : Nat, s.flash_sectors_written + s.flash_sectors_skipped = k ∧
    s.data_transferred = 0x1000 * k ∧ P.length = 0x1000 * k + s.buffer_4k.length

/-- Invariant of `example_long_session` after `k` chunks of 4096 zero bytes,
with the sector counters: every sector was skipped. -/
def zero_count_inv (k : Nat) (s : ota_vars (Nat → Nat)) : Prop :=
  zero_inv k s ∧ s.flash_sectors_written = 0 ∧ s.flash_sectors_skipped = u32 k

/-- An example start-up state whose flash holds the byte 1 everywhere. -/
def example_ones_initial : ota_vars (Nat → Nat) := ota_initial (fun _ => 1) example_rboot

/-- The example state after a start-write of 4096 bytes at the explicit address
`0x3000`, over flash holding the byte 1 everywhere. -/
def example_ones_writing : ota_vars (Nat → Nat) :=
  (application_function_ota_write example_env false (some 4096) (some 0x3000)
    example_ones_initial).vars

/-- The flash chip after the write-or-skip step of `flash_write_verify`: erased
and written when the sector differs from `buffer_4k`, untouched otherwise. -/
def flash_after_write_or_skip {F : Type} (env : ota_env F) (s : ota_vars F) : F :=
  if s.buffer_4k ≠
      spi_flash_read env s.flash (u32 (s.flash_sector * 0x1000)) s.buffer_4k.length then
    env.spi_flash_write (env.spi_flash_erase_sector s.flash (s.flash_sector % 0x10000))
      (u32 (s.flash_sector * 0x1000)) s.buffer_4k
  else s.flash

/-- The bytes `flash_write_verify` re-reads from the sector after its
write-or-skip step. -/
def fwv_reread {F : Type} (env : ota_env F) (s : ota_vars F) : List Nat :=
  spi_flash_read env (flash_after_write_or_skip env s) (u32 (s.flash_sector * 0x1000))
    s.buffer_4k.length

/-- The example environment with a faulty flash chip: writes are lost. -/
def example_env_faulty : ota_env (Nat → Nat) :=
  { example_env with spi_flash_write := fun f _ _ => f }

/-- What one call of `flash_write_verify` with buffer `B` at the cursor of `s`
may have done to the flash chip by the time the variables are `v`: nothing but
reads (the chip is unchanged), or, the sector read at the cursor differing from
`B`, one erase of the sector `flash_sector % 0x10000` (the cursor as the `uint16`
argument of the erase) and one write of `B` at the address
`flash_sector * 0x1000` (in `unsigned int` arithmetic), between two reads. -/
def flash_step {F : Type} (env : ota_env F) (s : ota_vars F) (B : List Nat) (v : ota_vars F) :
    Prop :=
  (v.flash = s.flash ∧
    (v.flash_log = s.flash_log ∨
      v.flash_log = s.flash_log ++
        [flash_op.read (u32 (s.flash_sector * 0x1000)) B.length,
          flash_op.read (u32 (s.flash_sector * 0x1000)) B.length])) ∨
  (B ≠ spi_flash_read env s.flash (u32 (s.flash_sector * 0x1000)) B.length ∧
    v.flash =
      env.spi_flash_write (env.spi_flash_erase_sector s.flash (s.flash_sector % 0x10000))
        (u32 (s.flash_sector * 0x1000)) B ∧
    v.flash_log = s.flash_log ++
      [flash_op.read (u32 (s.flash_sector * 0x1000)) B.length,
        flash_op.erase_sector (s.flash_sector % 0x10000),
        flash_op.write (u32 (s.flash_sector * 0x1000)) B,
        flash_op.read (u32 (s.flash_sector * 0x1000)) B.length])

/-- Whether a command is a start-write command. -/
def ota_command.is_write : ota_command → Bool
  | .ota_write _ _ _ => true
  | _ => false

/-- Frame of a write session whose cursor started at `c0`, over the flash chip
`f0`: every byte of a sector whose index is below `c0` or at or above the
cursor, and is not the value modulo `0x10000` of a cursor value from `c0` up to
the cursor, is as in `f0`. -/
def frame_inv {F : Type} (env : ota_env F) (c0 : Nat) (f0 : F) (s : ota_vars F) : Prop :=
  ∀ sector i : Nat, i < 0x1000 → (sector < c0 ∨ s.flash_sector ≤ sector) →
    (∀ c : Nat, c0 ≤ c → c < s.flash_sector → c % 0x10000 ≠ sector) →
    env.flash_byte s.flash (sector * 0x1000 + i) = env.flash_byte f0 (sector * 0x1000 + i)

/-- Invariant of a write session whose cursor started at `c0`, over the flash
chip `f0`, while commands with `R` payload bytes in total are still to come: the
cursor has not gone below `c0`, `frame_inv` holds, and, as long as the session
is writing, `buffer_4k` holds fewer than 4096 bytes and what is buffered and
still to come ends inside the 32-bit address space. -/
def session_inv {F : Type} (env : ota_env F) (c0 : Nat) (f0 : F) (R : Nat) (s : ota_vars F) :
    Prop :=
  c0 ≤ s.flash_sector ∧ frame_inv env c0 f0 s ∧
  (s.ota_state = ota_writing → s.buffer_4k.length < 0x1000 ∧
    s.flash_sector * 0x1000 + s.buffer_4k.length + R ≤ 4294967296)

/-- A write session at the start address `0x10000000`, the first byte of the
sector of index `0x10000`: three bytes, one chunk. -/
def example_high_session : List ota_command :=
  [.ota_write false (some 3) (some 0x10000000), .ota_send (some 3) (some 6) (some [1, 2, 3]),
    .ota_finish (some ['b', 'c', 'd'])]

/-- A chunk of 4096 bytes of value 1. -/
def example_wide_chunk : List Nat := List.replicate 4096 1

/-- The send-chunk command carrying `example_wide_chunk`, with its length and
its CRC in `example_env`. -/
def example_wide_send : ota_command :=
  .ota_send (some 4096) (some 4096) (some example_wide_chunk)

/-- The send-chunk commands of a session that transfers `2 ^ 28 + 1` bytes of
value 1: `0x10000` chunks of 4096 bytes and one chunk of one byte. -/
def example_wide_sends : List ota_command :=
  List.replicate 65536 example_wide_send ++ [.ota_send (some 1) (some 1) (some [1])]

/-- The start-write and the send-chunks of a write session at explicit address
0 that declares and transfers `2 ^ 28 + 1` bytes, one sector more than the
`0x10000` sectors the `uint16` argument of the erase can tell apart. -/
def example_wide_start : List ota_command :=
  .ota_write false (some 268435457) (some 0) :: example_wide_sends

/-- The digest of `2 ^ 28 + 1` bytes of value 1 in `example_env`. -/
def example_wide_digest : List Char := example_env.md5_hex (List.replicate 268435457 1)

/-- The read-chunk commands for `n` chunks of 1024 bytes from address `a` on. -/
def example_reads : Nat → Nat → List ota_command
  | _, 0 => []
  | a, n + 1 => .ota_receive (some a) (some 1024) :: example_reads (a + 1024) n

/-- The write session at explicit address 0 that declares and transfers
`2 ^ 28 + 1` bytes of value 1 and finishes with their digest. -/
def example_wide_session : List ota_command :=
  example_wide_start ++ [.ota_finish (some example_wide_digest)]

/-- The read-chunk commands that cover the `2 ^ 28 + 1` bytes from address 0:
`0x40000` chunks of 1024 bytes and one chunk of one byte. -/
def example_wide_reads : List ota_command :=
  example_reads 0 262144 ++ [.ota_receive (some 268435456) (some 1)]

/-- Invariant of `example_wide_session` after `k` chunks of 4096 bytes of value
1, over flash that held zeros: the session is writing at the cursor `k` with an
empty buffer, the byte at address 0 is 1 once a sector is written, and every
byte from the cursor on is still 0. -/
def wide_inv (k : Nat) (s : ota_vars (Nat → Nat)) : Prop :=
  s.ota_state = ota_writing ∧ s.buffer_4k = [] ∧ s.flash_sector = k ∧
  s.data_transferred = 4096 * k ∧ s.remote_file_length = 268435457 ∧
  s.flash_start_address = 0 ∧ s.flash_slot = -1 ∧ s.md5 = List.replicate (4096 * k) 1 ∧
  (0 < k → s.flash 0 = 1) ∧ ∀ a : Nat, 4096 * k ≤ a → s.flash a = 0


/-- A write session at the start address -4096: three bytes, one chunk. -/
def example_negative_session : List ota_command :=
  [.ota_write false (some 3) (some (-4096)), .ota_send (some 3) (some 6) (some [1, 2, 3]),
    .ota_finish (some ['b', 'c', 'd'])]

/-- Whether the read-chunk commands `reads`, in order, request the flash range
from `a` up to `e` contiguously and in ascending order, each request parsing and
asking for at most 1024 bytes. -/
def ota_reads_cover : Nat → List ota_command → Nat → Bool
  | a, [], e => decide (a = e)
  | a, .ota_receive (some address) (some length) :: rest, e =>
    decide (address = a) && decide (length ≤ 1024) && ota_reads_cover (a + length) rest e
  | _, _ :: _, _ => false

/-- The local digest a finish reports in its reply, if it reports one. -/
def ota_reply.local_digest : ota_reply → Option (List Char)
  | .READ_OK local_md5_string _ => some local_md5_string
  | .WRITE_OK local_md5_string _ _ _ => some local_md5_string
  | .PARTIAL_WRITE_OK local_md5_string _ _ _ => some local_md5_string
  | _ => none

/-- Invariant of a write session after the payload bytes `P` have been
accepted: the bytes fed to the digest followed by the content of `buffer_4k`
are `P`. -/
def digest_inv {F : Type} (P : List Nat) (s : ota_vars F) : Prop :=
  s.md5 ++ s.buffer_4k = P

/-- The commands of `example_long_session` before its finish. -/
def example_long_start : List ota_command :=
  .ota_write false (some 1) (some 0) :: example_long_sends

/-! ## Facts about `flash_write_verify` -/

/-- The function `flash_write_verify` returns `app_action_normal` or `app_action_error`. -/
theorem fwv_action {F : Type} (env : ota_env F) (s : ota_vars F) :
    (flash_write_verify env s).action = app_action_normal ∨
    (flash_write_verify env s).action = app_action_error := by
  unfold flash_write_verify
  dsimp only
  by_cases h0 : env.dst_size < 4096
  · simp [h0]
  · by_cases h1 : s.buffer_4k =
        spi_flash_read env s.flash (u32 (s.flash_sector * 4096)) s.buffer_4k.length
    · simp only [h0, ← h1, ne_eq, not_true_eq_false, ↓reduceIte]
      simp
    · simp only [h0, h1, ne_eq, not_false_eq_true, ↓reduceIte]
      split <;> simp

/-- The variables `flash_write_verify` never assigns. -/
theorem fwv_frame {F : Type} (env : ota_env F) (s : ota_vars F) :
    (flash_write_verify env s).vars.ota_state = s.ota_state ∧
    (flash_write_verify env s).vars.remote_file_length = s.remote_file_length ∧
    (flash_write_verify env s).vars.chunk_size = s.chunk_size ∧
    (flash_write_verify env s).vars.flash_start_address = s.flash_start_address ∧
    (flash_write_verify env s).vars.flash_slot = s.flash_slot ∧
    (flash_write_verify env s).vars.rboot = s.rboot ∧
    (flash_write_verify env s).vars.rboot_log = s.rboot_log := by
  unfold flash_write_verify
  dsimp only
  by_cases h0 : env.dst_size < 4096
  · simp [h0]
  · by_cases h1 : s.buffer_4k =
        spi_flash_read env s.flash (u32 (s.flash_sector * 4096)) s.buffer_4k.length
    · simp only [h0, ← h1, ne_eq, not_true_eq_false, ↓reduceIte]
      simp
    · simp only [h0, h1, ne_eq, not_false_eq_true, ↓reduceIte]
      split <;> simp

/-- The flash chip after `flash_write_verify` is the old one, or the old one
with the sector erased and the buffer written. -/
theorem fwv_flash {F : Type} (env : ota_env F) (s : ota_vars F) :
    (flash_write_verify env s).vars.flash = s.flash ∨
    (flash_write_verify env s).vars.flash =
      env.spi_flash_write (env.spi_flash_erase_sector s.flash (s.flash_sector % 0x10000))
        (u32 (s.flash_sector * 0x1000)) s.buffer_4k := by
  unfold flash_write_verify
  dsimp only
  by_cases h0 : env.dst_size < 4096
  · simp [h0]
  · by_cases h1 : s.buffer_4k =
        spi_flash_read env s.flash (u32 (s.flash_sector * 4096)) s.buffer_4k.length
    · simp only [h0, ← h1, ne_eq, not_true_eq_false, ↓reduceIte]
      simp
    · simp only [h0, h1, ne_eq, not_false_eq_true, ↓reduceIte]
      split <;> simp

/-- What a successful `flash_write_verify` leaves: cursor and byte count
advanced, `buffer_4k` cleared, the buffer fed to the digest, and the sector
reading back as the buffer. -/
theorem fwv_normal {F : Type} (env : ota_env F) (s : ota_vars F)
    (h : (flash_write_verify env s).action = app_action_normal) :
    (flash_write_verify env s).vars.flash_sector = u32 (s.flash_sector + 1) ∧
    (flash_write_verify env s).vars.data_transferred =
      u32 (s.data_transferred + s.buffer_4k.length) ∧
    (flash_write_verify env s).vars.buffer_4k = [] ∧
    (flash_write_verify env s).vars.md5 = s.md5 ++ s.buffer_4k ∧
    spi_flash_read env (flash_write_verify env s).vars.flash (u32 (s.flash_sector * 0x1000))
      s.buffer_4k.length = s.buffer_4k := by
  revert h
  unfold flash_write_verify
  dsimp only
  by_cases h0 : env.dst_size < 4096
  · simp [h0]
  · by_cases h1 : s.buffer_4k =
        spi_flash_read env s.flash (u32 (s.flash_sector * 4096)) s.buffer_4k.length
    · simp only [h0, ← h1, ne_eq, not_true_eq_false, ↓reduceIte]
      simp
    · simp only [h0, h1, ne_eq, not_false_eq_true, ↓reduceIte]
      split
      · simp
      · rename_i h2
        intro _
        simp only [not_not] at h2
        simp [← h2]

/-- The final flush returns `app_action_normal` or `app_action_error`. -/
theorem final_flush_action {F : Type} (env : ota_env F) (s : ota_vars F) :
    (ota_final_flush env s).action = app_action_normal ∨
    (ota_final_flush env s).action = app_action_error := by
  unfold ota_final_flush
  split
  · exact fwv_action env s
  · left; rfl

/-- The variables the final flush never assigns. -/
theorem final_flush_frame {F : Type} (env : ota_env F) (s : ota_vars F) :
    (ota_final_flush env s).vars.ota_state = s.ota_state ∧
    (ota_final_flush env s).vars.remote_file_length = s.remote_file_length ∧
    (ota_final_flush env s).vars.chunk_size = s.chunk_size ∧
    (ota_final_flush env s).vars.flash_start_address = s.flash_start_address ∧
    (ota_final_flush env s).vars.flash_slot = s.flash_slot ∧
    (ota_final_flush env s).vars.rboot = s.rboot ∧
    (ota_final_flush env s).vars.rboot_log = s.rboot_log := by
  unfold ota_final_flush
  split
  · exact fwv_frame env s
  · simp

/-! ## Facts about flash reads -/

/-- A read of `n` bytes delivers `n` bytes. -/
theorem spi_flash_read_length {F : Type} (env : ota_env F) (f : F) (a n : Nat) :
    (spi_flash_read env f a n).length = n := by
  simp [spi_flash_read]

/-- Reads of two chips that agree on the range agree. -/
theorem spi_flash_read_congr {F : Type} (env : ota_env F) (f g : F) (a n : Nat)
    (h : ∀ i, i < n → env.flash_byte f (a + i) = env.flash_byte g (a + i)) :
    spi_flash_read env f a n = spi_flash_read env g a n := by
  unfold spi_flash_read
  apply List.map_congr_left
  intro i hi
  exact h i (List.mem_range.mp hi)

/-- A read of `m + n` bytes is a read of `m` bytes followed by one of `n` bytes. -/
theorem spi_flash_read_append {F : Type} (env : ota_env F) (f : F) (a m n : Nat) :
    spi_flash_read env f a (m + n) =
      spi_flash_read env f a m ++ spi_flash_read env f (a + m) n := by
  unfold spi_flash_read
  rw [List.range_add, List.map_append, List.map_map]
  congr 1
  apply List.map_congr_left
  intro i _
  simp [Nat.add_assoc]

/-- With a correct flash driver, `flash_write_verify` changes no byte outside
the sector at the cursor, where it writes, and the sector whose index is the
cursor modulo `0x10000`, which it erases. -/
theorem fwv_flash_frame {F : Type} (env : ota_env F) (hflash : flash_correct env)
    (s : ota_vars F) (hsec : s.flash_sector * 0x1000 < 4294967296)
    (hlen : s.buffer_4k.length ≤ 0x1000) (a : Nat)
    (ha : a < s.flash_sector * 0x1000 ∨ s.flash_sector * 0x1000 + 0x1000 ≤ a)
    (he : a < s.flash_sector % 0x10000 * 0x1000 ∨
      s.flash_sector % 0x10000 * 0x1000 + 0x1000 ≤ a) :
    env.flash_byte (flash_write_verify env s).vars.flash a = env.flash_byte s.flash a := by
  rcases fwv_flash env s with h | h
  · rw [h]
  · rw [h, hflash.write, hflash.erase]
    have hu : u32 (s.flash_sector * 0x1000) = s.flash_sector * 0x1000 := by
      unfold u32
      exact Nat.mod_eq_of_lt hsec
    rw [hu]
    have h1 : ¬ (s.flash_sector * 0x1000 ≤ a ∧
        a < s.flash_sector * 0x1000 + s.buffer_4k.length) := by
      omega
    have h2 : ¬ (s.flash_sector % 0x10000 * 0x1000 ≤ a ∧
        a < s.flash_sector % 0x10000 * 0x1000 + 0x1000) := by
      omega
    rw [if_neg h1, if_neg h2]

/-- One successful flush of a non-empty buffer, `k` sectors into a session at
the aligned address `A` that stays inside the 32-bit address space and writes
at most `0x10000` sectors: the cursor and the byte count advance without
wrapping, the sector erased is none of the `k` sectors written before, and the
flash region read from `A` grows by the buffer. -/
theorem fwv_extends {F : Type} (env : ota_env F) (hflash : flash_correct env)
    (A k : Nat) (hA : A % 0x1000 = 0) (s : ota_vars F)
    (hsec : s.flash_sector = A / 0x1000 + k) (hdt : s.data_transferred = 0x1000 * k)
    (hpos : 0 < s.buffer_4k.length) (hlen : s.buffer_4k.length ≤ 0x1000)
    (hfit : A + 0x1000 * k + s.buffer_4k.length ≤ 4294967296)
    (hlt : 0x1000 * k + s.buffer_4k.length ≤ 268435456)
    (hok : (flash_write_verify env s).action = app_action_normal) :
    (flash_write_verify env s).vars.flash_sector = A / 0x1000 + (k + 1) ∧
    (flash_write_verify env s).vars.data_transferred = 0x1000 * k + s.buffer_4k.length ∧
    spi_flash_read env (flash_write_verify env s).vars.flash A
      (0x1000 * k + s.buffer_4k.length) =
      spi_flash_read env s.flash A (0x1000 * k) ++ s.buffer_4k := by
  obtain ⟨h1, h2, _, _, h5⟩ := fwv_normal env s hok
  have haddr : s.flash_sector * 0x1000 = A + 0x1000 * k := by
    rw [hsec]
    omega
  have hu : u32 (s.flash_sector * 0x1000) = A + 0x1000 * k := by
    unfold u32
    rw [haddr]
    apply Nat.mod_eq_of_lt
    omega
  refine ⟨?_, ?_, ?_⟩
  · rw [h1, hsec]
    unfold u32
    rw [Nat.mod_eq_of_lt (by omega)]
    omega
  · rw [h2, hdt]
    unfold u32
    apply Nat.mod_eq_of_lt
    omega
  · rw [spi_flash_read_append]
    rw [hu] at h5
    rw [h5]
    congr 1
    apply spi_flash_read_congr
    intro i hi
    apply fwv_flash_frame env hflash s (by omega) hlen
    · left
      omega
    · rw [hsec]
      omega

/-! ## What success of a handler implies -/

/-- When the end of start-write succeeds the address is aligned and the session
variables are reset. -/
theorem ota_write_start_normal {F : Type} (v : ota_vars F)
    (h : (ota_write_start v).action = app_action_normal) :
    int_bits v.flash_start_address &&& 0xfff = 0 ∧
    (ota_write_start v).vars =
      { v with
        ota_state := ota_writing,
        data_transferred := 0,
        flash_sectors_written := 0,
        flash_sectors_skipped := 0,
        flash_sector := int_bits (Int.tdiv v.flash_start_address 0x1000),
        buffer_4k := [],
        md5 := [] } := by
  revert h
  unfold ota_write_start
  split
  · simp
  · rename_i h
    intro _
    exact ⟨by simpa using h, rfl⟩

/-- A value converted from `uint32` to `int` is below `2 ^ 31`. -/
theorem int_of_u32_lt (n : Nat) : int_of_u32 n < 2147483648 := by
  unfold int_of_u32
  split <;> omega

/-- What a successful start-write leaves. -/
theorem ota_write_normal {F : Type} (env : ota_env F) (scan : Bool) (arg1 : Option Nat)
    (arg2 : Option Int) (s : ota_vars F)
    (h : (application_function_ota_write env scan arg1 arg2 s).action = app_action_normal) :
    (application_function_ota_write env scan arg1 arg2 s).vars.ota_state = ota_writing ∧
    (application_function_ota_write env scan arg1 arg2 s).vars.buffer_4k = [] ∧
    (application_function_ota_write env scan arg1 arg2 s).vars.data_transferred = 0 ∧
    (application_function_ota_write env scan arg1 arg2 s).vars.md5 = [] ∧
    (application_function_ota_write env scan arg1 arg2 s).vars.flash_sectors_written = 0 ∧
    (application_function_ota_write env scan arg1 arg2 s).vars.flash_sectors_skipped = 0 ∧
    (application_function_ota_write env scan arg1 arg2 s).vars.flash_sector =
      int_bits (Int.tdiv
        (application_function_ota_write env scan arg1 arg2 s).vars.flash_start_address 0x1000) ∧
    int_bits (application_function_ota_write env scan arg1 arg2 s).vars.flash_start_address
      &&& 0xfff = 0 ∧
    (application_function_ota_write env scan arg1 arg2 s).vars.flash = s.flash ∧
    (application_function_ota_write env scan arg1 arg2 s).vars.flash_log = s.flash_log ∧
    (application_function_ota_write env scan arg1 arg2 s).vars.rboot = s.rboot ∧
    (application_function_ota_write env scan arg1 arg2 s).vars.rboot_log = s.rboot_log ∧
    (application_function_ota_write env scan arg1 arg2 s).vars.flash_start_address <
      2147483648 := by
  revert h
  unfold application_function_ota_write
  split
  · simp
  · split
    · simp
    · cases arg1 with
      | none => simp
      | some len =>
        dsimp only
        split
        · split
          · simp
          · split
            · simp
            · intro h
              obtain ⟨h1, h2⟩ := ota_write_start_normal _ h
              rw [h2]
              exact ⟨rfl, rfl, rfl, rfl, rfl, rfl, rfl, h1, rfl, rfl, rfl, rfl, int_of_u32_lt _⟩
        · intro h
          obtain ⟨h1, h2⟩ := ota_write_start_normal _ h
          rw [h2]
          refine ⟨rfl, rfl, rfl, rfl, rfl, rfl, rfl, h1, rfl, rfl, rfl, rfl, ?_⟩
          cases arg2 with
          | none =>
            show (-1 : Int) < 2147483648
            decide
          | some a => exact int_of_u32_lt _

/-- A send-chunk that succeeds was received while writing, carried a chunk of
the declared length, and either buffered it or flushed a full sector. -/
theorem ota_send_normal {F : Type} (env : ota_env F) (arg1 : Option Int) (arg2 : Option Nat)
    (chunk : Option (List Nat)) (s : ota_vars F)
    (h : (application_function_ota_send env arg1 arg2 chunk s).action = app_action_normal) :
    s.ota_state = ota_writing ∧
    ∃ data, chunk = some data ∧ arg1 = some (data.length : Int) ∧
      ((s.buffer_4k ++ data).length < 0x1000 ∧
        (application_function_ota_send env arg1 arg2 chunk s).vars =
          { s with buffer_4k := s.buffer_4k ++ data } ∨
      (s.buffer_4k ++ data).length = 0x1000 ∧
        (flash_write_verify env { s with buffer_4k := s.buffer_4k ++ data }).action =
          app_action_normal ∧
        (application_function_ota_send env arg1 arg2 chunk s).vars =
          (flash_write_verify env { s with buffer_4k := s.buffer_4k ++ data }).vars) := by
  revert h
  unfold application_function_ota_send
  by_cases hs : s.ota_state = ota_writing
  · cases arg1 with
    | none => simp [hs]
    | some l =>
      cases arg2 with
      | none => simp [hs]
      | some crc =>
        cases chunk with
        | none => simp [hs]
        | some data =>
          simp only [hs, ne_eq, not_true_eq_false, ↓reduceIte, string_splice]
          split
          · simp
          · rename_i hl
            split
            · simp
            · split
              · simp
              · rename_i hgt
                split
                · rename_i heq
                  split
                  · rename_i hne
                    intro h
                    exact absurd h hne
                  · rename_i hn
                    intro _
                    refine ⟨trivial, data, rfl, ?_, Or.inr ⟨heq, ?_, rfl⟩⟩
                    · simp only [not_not] at hl
                      rw [hl]
                    · simpa using hn
                · rename_i hneq
                  intro _
                  refine ⟨trivial, data, rfl, ?_, Or.inl ⟨?_, rfl⟩⟩
                  · simp only [not_not] at hl
                    rw [hl]
                  · omega
  · simp [hs]

/-- A finish that succeeds while writing flushed successfully, found the
byte count equal to the declared length and the digests equal. -/
theorem ota_finish_normal {F : Type} (env : ota_env F) (arg1 : Option (List Char))
    (s : ota_vars F) (hs : s.ota_state = ota_writing)
    (h : (application_function_ota_finish env arg1 s).action = app_action_normal) :
    (ota_final_flush env s).action = app_action_normal ∧
    (ota_final_flush env s).vars.remote_file_length =
      (ota_final_flush env s).vars.data_transferred ∧
    arg1 = some (env.md5_hex (ota_final_flush env s).vars.md5) ∧
    (application_function_ota_finish env arg1 s).vars =
      { (ota_final_flush env s).vars with
        ota_state := if (ota_final_flush env s).vars.flash_slot = -1 then ota_inactive
                     else ota_successful } := by
  revert h
  unfold application_function_ota_finish
  simp only [hs]
  cases arg1 with
  | none => simp
  | some m =>
    by_cases hfl : s.buffer_4k.length > 0 ∧ (ota_final_flush env s).action ≠ app_action_normal
    · simp [hfl]
    · by_cases hsz : (ota_final_flush env s).vars.remote_file_length =
          (ota_final_flush env s).vars.data_transferred
      · by_cases hm : env.md5_hex (ota_final_flush env s).vars.md5 = m
        · intro _
          have hact : (ota_final_flush env s).action = app_action_normal := by
            by_cases hb : s.buffer_4k.length > 0
            · by_contra hcon
              exact hfl ⟨hb, hcon⟩
            · simp [ota_final_flush, hb]
          simp [hfl, hsz, hm, string_match_string, hact]
        · simp [hfl, hsz, string_match_string, hm]
      · simp [hfl, hsz]

/-- When the end of start-write fails the state is not assigned. -/
theorem ota_write_start_error {F : Type} (v : ota_vars F)
    (h : (ota_write_start v).action = app_action_error) :
    (ota_write_start v).vars.ota_state = v.ota_state := by
  revert h
  unfold ota_write_start
  split <;> simp

/-- A run of commands that all succeed ends in the state `ota_run` computes. -/
theorem ota_run_of_normal {F : Type} (env : ota_env F) (cs : List ota_command) :
    ∀ (s s' : ota_vars F), ota_run_normal env cs s = some s' → ota_run env cs s = s' := by
  induction cs with
  | nil =>
    intro s s' h
    simpa [ota_run_normal, ota_run] using h
  | cons c cs ih =>
    intro s s' h
    simp only [ota_run_normal] at h
    split at h
    · simpa [ota_run] using ih _ _ h
    · simp at h

/-- A run of commands that all succeed, in terms of `ota_run`. -/
theorem ota_run_normal_eq {F : Type} (env : ota_env F) (cs : List ota_command) (s : ota_vars F)
    (h : (ota_run_normal env cs s).isSome = true) :
    ota_run_normal env cs s = some (ota_run env cs s) := by
  obtain ⟨s', hs'⟩ := Option.isSome_iff_exists.mp h
  rw [hs', ota_run_of_normal env cs s s' hs']

/-! ## The invariant of a write session -/

/-- A successful send-chunk keeps `write_inv`, the payload growing by the chunk. -/
theorem send_keeps_write_inv {F : Type} (env : ota_env F) (hflash : flash_correct env)
    (A N : Nat) (hA : A % 0x1000 = 0) (P : List Nat) (s : ota_vars F)
    (hinv : write_inv env A N P s) (c : ota_command) (hc : c.is_send = true)
    (hfit : A + (P ++ c.payload).length ≤ 4294967296)
    (hlt : (P ++ c.payload).length ≤ 268435456)
    (hok : (ota_dispatch env c s).action = app_action_normal) :
    write_inv env A N (P ++ c.payload) (ota_dispatch env c s).vars := by
  cases c with
  | ota_send arg1 arg2 chunk =>
    simp only [ota_dispatch] at hok ⊢
    obtain ⟨_, data, hchunk, _, hcase⟩ := ota_send_normal env arg1 arg2 chunk s hok
    subst hchunk
    obtain ⟨hst, hstart, hN, hbuf, k, hsec, hdt, hP⟩ := hinv
    simp only [ota_command.payload] at hfit hlt ⊢
    have hPlen : P.length = 0x1000 * k + s.buffer_4k.length := by
      rw [hP, List.length_append, spi_flash_read_length]
    rcases hcase with ⟨hlt4, hv⟩ | ⟨heq, hfok, hv⟩
    · rw [hv]
      refine ⟨hst, hstart, hN, hlt4, k, hsec, hdt, ?_⟩
      simp [hP]
    · rw [hv]
      have hfr := fwv_frame env { s with buffer_4k := s.buffer_4k ++ data }
      have hfit2 : A + 0x1000 * k + (s.buffer_4k ++ data).length ≤ 4294967296 := by
        simp only [List.length_append] at hfit ⊢
        omega
      have hlt2 : 0x1000 * k + (s.buffer_4k ++ data).length ≤ 268435456 := by
        simp only [List.length_append] at hlt ⊢
        omega
      obtain ⟨e1, e2, e3⟩ := fwv_extends env hflash A k hA
        { s with buffer_4k := s.buffer_4k ++ data } hsec hdt (by rw [heq]; decide)
        (le_of_eq heq) hfit2 hlt2 hfok
      obtain ⟨_, _, n3, _, _⟩ := fwv_normal env _ hfok
      refine ⟨hfr.1.trans hst, hfr.2.2.2.1.trans hstart, hfr.2.1.trans hN, ?_, k + 1, e1, ?_, ?_⟩
      · rw [n3]
        simp
      · rw [e2]
        show 0x1000 * k + (s.buffer_4k ++ data).length = 0x1000 * (k + 1)
        rw [heq]
        omega
      · rw [n3, List.append_nil]
        have e3' : spi_flash_read env
            (flash_write_verify env { s with buffer_4k := s.buffer_4k ++ data }).vars.flash A
            (0x1000 * k + (s.buffer_4k ++ data).length) =
            spi_flash_read env s.flash A (0x1000 * k) ++ (s.buffer_4k ++ data) := e3
        rw [heq] at e3'
        have hk : 0x1000 * (k + 1) = 0x1000 * k + 0x1000 := by omega
        rw [hk, e3', hP, List.append_assoc]
  | _ => simp [ota_command.is_send] at hc

/-- A sequence of successful send-chunks keeps `write_inv`, the payload growing
by their payloads. -/
theorem sends_keep_write_inv {F : Type} (env : ota_env F) (hflash : flash_correct env)
    (A N : Nat) (hA : A % 0x1000 = 0) (sends rest : List ota_command) :
    ∀ (P : List Nat) (s s' : ota_vars F), write_inv env A N P s →
      sends.all ota_command.is_send = true →
      A + (P ++ ota_payloads sends).length ≤ 4294967296 →
      (P ++ ota_payloads sends).length ≤ 268435456 →
      ota_run_normal env (sends ++ rest) s = some s' →
      ∃ s2, write_inv env A N (P ++ ota_payloads sends) s2 ∧
        ota_run_normal env rest s2 = some s' := by
  induction sends with
  | nil =>
    intro P s s' hinv _ _ _ hrun
    exact ⟨s, by simpa [ota_payloads] using hinv, by simpa using hrun⟩
  | cons c cs ih =>
    intro P s s' hinv hall hfit hlt hrun
    simp only [List.all_cons, Bool.and_eq_true] at hall
    have hpay : ota_payloads (c :: cs) = c.payload ++ ota_payloads cs := by
      simp [ota_payloads]
    rw [hpay, ← List.append_assoc] at hfit hlt ⊢
    simp only [List.cons_append, ota_run_normal] at hrun
    split at hrun
    · rename_i hok
      have hfit1 : A + (P ++ c.payload).length ≤ 4294967296 := by
        simp only [List.length_append] at hfit ⊢
        omega
      have hlt1 : (P ++ c.payload).length ≤ 268435456 := by
        simp only [List.length_append] at hlt ⊢
        omega
      exact ih (P ++ c.payload) _ s'
        (send_keeps_write_inv env hflash A N hA P s hinv c hall.1 hfit1 hlt1 hok) hall.2
        hfit hlt hrun
    · simp at hrun

/-- A successful finish of a session satisfying `write_inv`: the declared length
is the payload length and the flash region reads back as the payload. -/
theorem finish_completes_write_inv {F : Type} (env : ota_env F) (hflash : flash_correct env)
    (A N : Nat) (hA : A % 0x1000 = 0) (P : List Nat) (s : ota_vars F)
    (hinv : write_inv env A N P s) (arg1 : Option (List Char))
    (hfit : A + P.length ≤ 4294967296) (hlt : P.length ≤ 268435456)
    (hok : (application_function_ota_finish env arg1 s).action = app_action_normal) :
    (application_function_ota_finish env arg1 s).vars.flash_start_address = (A : Int) ∧
    (application_function_ota_finish env arg1 s).vars.remote_file_length = N ∧
    N = P.length ∧
    spi_flash_read env (application_function_ota_finish env arg1 s).vars.flash A N = P := by
  obtain ⟨hst, hstart, hN, hbuf, k, hsec, hdt, hP⟩ := hinv
  obtain ⟨hfok, hsz, _, hv⟩ := ota_finish_normal env arg1 s hst hok
  have hPlen : P.length = 0x1000 * k + s.buffer_4k.length := by
    rw [hP, List.length_append, spi_flash_read_length]
  rw [hv]
  dsimp only
  by_cases hb : s.buffer_4k.length > 0
  · have hff : ota_final_flush env s = flash_write_verify env s := by
      simp [ota_final_flush, hb]
    rw [hff] at hfok hsz ⊢
    have hfr := fwv_frame env s
    obtain ⟨_, e2, e3⟩ := fwv_extends env hflash A k hA s hsec hdt hb (by omega) (by omega)
      (by omega) hfok
    have hNP : N = P.length := by
      rw [← hN, ← hfr.2.1, hsz, e2, hPlen]
    refine ⟨hfr.2.2.2.1.trans hstart, hfr.2.1.trans hN, hNP, ?_⟩
    rw [hNP, hPlen, e3, ← hP]
  · have hff : ota_final_flush env s = ⟨app_action_normal, .unchanged, s⟩ := by
      simp [ota_final_flush, hb]
    rw [hff] at hsz ⊢
    dsimp only at hsz ⊢
    have hb0 : s.buffer_4k = [] := by
      apply List.eq_nil_of_length_eq_zero
      omega
    have hNP : N = P.length := by
      rw [← hN, hsz, hdt, hPlen, hb0]
      simp
    refine ⟨hstart, hN, hNP, ?_⟩
    rw [hNP, hPlen, hb0]
    simp [hP, hb0]

/-! ## The example environment and the long session -/

/-- The flash driver of `example_env` is correct at the byte level. -/
theorem example_flash_correct : flash_correct example_env := by
  constructor
  · intro f sector a
    rfl
  · intro f address data a
    rfl

/-- All-zero flash reads as zeros. -/
theorem zero_flash_read (a n : Nat) :
    spi_flash_read example_env (fun _ => 0) a n = List.replicate n 0 := by
  unfold spi_flash_read
  apply List.ext_getElem
  · simp
  · intro i h1 h2
    simp [example_env]

/-- The stand-in CRC of zeros is zero. -/
theorem zero_crc (n : Nat) : example_env.string_crc32 (List.replicate n 0) = 0 := by
  induction n with
  | zero => rfl
  | succ n ih =>
    rw [List.replicate_succ]
    simpa [example_env] using ih

/-- A flush over all-zero flash with an all-zero buffer skips the write. -/
theorem zero_fwv (s : ota_vars (Nat → Nat)) (n : Nat) (hf : s.flash = (fun _ => 0))
    (hb : s.buffer_4k = List.replicate n 0) :
    (flash_write_verify example_env s).action = app_action_normal ∧
    (flash_write_verify example_env s).vars.flash = (fun _ => 0) ∧
    (flash_write_verify example_env s).vars.buffer_4k = [] ∧
    (flash_write_verify example_env s).vars.data_transferred = u32 (s.data_transferred + n) ∧
    (flash_write_verify example_env s).vars.md5 = s.md5 ++ List.replicate n 0 := by
  have hd : ¬ example_env.dst_size < 4096 := by decide
  have hlen : s.buffer_4k.length = n := by rw [hb, List.length_replicate]
  have hr : s.buffer_4k = spi_flash_read example_env s.flash (u32 (s.flash_sector * 4096))
      s.buffer_4k.length := by
    rw [hf, zero_flash_read, hlen, hb]
  unfold flash_write_verify
  dsimp only
  simp only [hd, ← hr, ne_eq, not_true_eq_false, ↓reduceIte]
  simp [hf, hb]

/-- One chunk of 4096 zeros over all-zero flash succeeds and keeps `zero_inv`. -/
theorem zero_send_step (k : Nat) (s : ota_vars (Nat → Nat)) (h : zero_inv k s) :
    (ota_dispatch example_env example_zero_send s).action = app_action_normal ∧
    zero_inv (k + 1) (ota_dispatch example_env example_zero_send s).vars := by
  obtain ⟨h1, h2, h3, h4, h5, h6, h7, h8⟩ := h
  have hlen : example_zero_chunk.length = 4096 := List.length_replicate _ _
  have hcrc : example_env.string_crc32 example_zero_chunk = 0 := zero_crc 4096
  have hfr := fwv_frame example_env { s with buffer_4k := example_zero_chunk }
  obtain ⟨z1, z2, z3, z4, z5⟩ := zero_fwv { s with buffer_4k := example_zero_chunk } 4096 h3 rfl
  have hsend : application_function_ota_send example_env (some 4096) (some 0)
      (some example_zero_chunk) s =
      ⟨app_action_normal,
        .ACK (flash_write_verify example_env
          { s with buffer_4k := example_zero_chunk }).vars.data_transferred,
        (flash_write_verify example_env { s with buffer_4k := example_zero_chunk }).vars⟩ := by
    unfold application_function_ota_send
    generalize hz : example_zero_chunk = z at hlen hcrc z1 ⊢
    have c1 : ¬ (s.ota_state ≠ ota_writing) := by simp [h1]
    have c2 : ¬ ((z.length : Int) ≠ 4096) := by simp [hlen]
    have c3 : ¬ (u32 (example_env.string_crc32 z) ≠ u32 0) := by simp [hcrc]
    have c4 : ¬ ((string_splice s.buffer_4k z).length > 0x1000) := by
      simp [string_splice, h2, hlen]
    have c5 : (string_splice s.buffer_4k z).length = 0x1000 := by
      simp [string_splice, h2, hlen]
    have c6 : string_splice s.buffer_4k z = z := by simp [string_splice, h2]
    rw [if_neg c1]
    dsimp only
    rw [if_neg c2, if_neg c3, if_neg c4, if_pos c5]
    rw [c6]
    rw [if_neg (by simp [z1])]
  simp only [ota_dispatch, example_zero_send, hsend]
  refine ⟨trivial, hfr.1.trans h1, z3, z2, ?_, hfr.2.1.trans h5, hfr.2.2.2.1.trans h6,
    hfr.2.2.2.2.1.trans h7, ?_⟩
  · rw [z4]
    show u32 (s.data_transferred + 4096) = u32 (4096 * (k + 1))
    rw [h4]
    unfold u32
    omega
  · rw [z5]
    show s.md5 ++ List.replicate 4096 0 = List.replicate (4096 * (k + 1)) 0
    rw [h8, ← List.replicate_add]
    congr 1

/-- Any number of chunks of 4096 zeros succeed and keep `zero_inv`. -/
theorem zero_sends_run (n : Nat) (rest : List ota_command) :
    ∀ (k : Nat) (s : ota_vars (Nat → Nat)), zero_inv k s →
      ∃ s2, zero_inv (k + n) s2 ∧
        ota_run_normal example_env (List.replicate n example_zero_send ++ rest) s =
          ota_run_normal example_env rest s2 := by
  induction n with
  | zero =>
    intro k s h
    exact ⟨s, h, rfl⟩
  | succ n ih =>
    intro k s h
    obtain ⟨hok, hinv⟩ := zero_send_step k s h
    obtain ⟨s2, h2, hrun⟩ := ih (k + 1) _ hinv
    refine ⟨s2, ?_, ?_⟩
    · have : k + (n + 1) = k + 1 + n := by omega
      rw [this]
      exact h2
    · rw [List.replicate_succ, List.cons_append, ota_run_normal, if_pos hok]
      exact hrun

/-- The payload length of a run of chunks of 4096 zeros. -/
theorem zero_payloads (n : Nat) (rest : List ota_command) :
    (ota_payloads (List.replicate n example_zero_send ++ rest)).length =
      4096 * n + (ota_payloads rest).length := by
  induction n with
  | zero => simp
  | succ n ih =>
    rw [List.replicate_succ, List.cons_append]
    have : ota_payloads (example_zero_send :: (List.replicate n example_zero_send ++ rest)) =
        example_zero_chunk ++ ota_payloads (List.replicate n example_zero_send ++ rest) := by
      simp [ota_payloads, ota_command.payload, example_zero_send]
    rw [this, List.length_append, ih]
    have hlen : example_zero_chunk.length = 4096 := List.length_replicate _ _
    rw [hlen]
    omega

/-- The end of the long session: a last chunk of one zero byte and the finish
succeed once the byte count has wrapped to zero. -/
theorem zero_tail_run (K : Nat) (s : ota_vars (Nat → Nat)) (h : zero_inv K s)
    (hK : u32 (4096 * K) = 0) :
    ∃ s', ota_run_normal example_env
        [.ota_send (some 1) (some 0) (some [0]),
          .ota_finish (some (example_env.md5_hex (List.replicate (4096 * K + 1) 0)))] s =
        some s' ∧
      s'.flash_start_address = 0 ∧ s'.remote_file_length = 1 := by
  obtain ⟨h1, h2, h3, h4, h5, h6, h7, h8⟩ := h
  have hsend : application_function_ota_send example_env (some 1) (some 0) (some [0]) s =
      ⟨app_action_normal, .ACK s.data_transferred, { s with buffer_4k := [0] }⟩ := by
    unfold application_function_ota_send
    have c1 : ¬ (s.ota_state ≠ ota_writing) := by simp [h1]
    have c4 : ¬ ((string_splice s.buffer_4k [0]).length > 0x1000) := by
      simp [string_splice, h2]
    have c5 : ¬ ((string_splice s.buffer_4k [0]).length = 0x1000) := by
      simp [string_splice, h2]
    have c6 : string_splice s.buffer_4k [0] = [0] := by simp [string_splice, h2]
    rw [if_neg c1]
    dsimp only
    rw [if_neg (by decide), if_neg (by decide), if_neg c4, if_neg c5, c6]
  obtain ⟨z1, z2, z3, z4, z5⟩ := zero_fwv { s with buffer_4k := [0] } 1 h3 rfl
  have hfr := fwv_frame example_env { s with buffer_4k := [0] }
  have hflush : ota_final_flush example_env { s with buffer_4k := [0] } =
      flash_write_verify example_env { s with buffer_4k := [0] } := by
    simp [ota_final_flush]
  have hdt : (flash_write_verify example_env { s with buffer_4k := [0] }).vars.data_transferred
      = 1 := by
    rw [z4]
    show u32 (s.data_transferred + 1) = 1
    rw [h4, hK]
    rfl
  have hmd5 : (flash_write_verify example_env { s with buffer_4k := [0] }).vars.md5 =
      List.replicate (4096 * K + 1) 0 := by
    rw [z5]
    show s.md5 ++ List.replicate 1 0 = List.replicate (4096 * K + 1) 0
    rw [h8, ← List.replicate_add]
  have hfin : (application_function_ota_finish example_env
      (some (example_env.md5_hex (List.replicate (4096 * K + 1) 0)))
      { s with buffer_4k := [0] }).action = app_action_normal ∧
      (application_function_ota_finish example_env
      (some (example_env.md5_hex (List.replicate (4096 * K + 1) 0)))
      { s with buffer_4k := [0] }).vars.flash_start_address = 0 ∧
      (application_function_ota_finish example_env
      (some (example_env.md5_hex (List.replicate (4096 * K + 1) 0)))
      { s with buffer_4k := [0] }).vars.remote_file_length = 1 := by
    unfold application_function_ota_finish
    have c1 : ¬ (({ s with buffer_4k := [0] } : ota_vars (Nat → Nat)).ota_state = ota_reading) := by
      simp [h1]
    have c2 : ({ s with buffer_4k := [0] } : ota_vars (Nat → Nat)).ota_state = ota_writing := h1
    rw [if_neg c1, if_pos c2]
    dsimp only
    rw [hflush]
    have c3 : ¬ ((0 < [0].length) ∧
        (flash_write_verify example_env { s with buffer_4k := [0] }).action ≠
          app_action_normal) := by
      simp [z1]
    have c4 : ¬ ((flash_write_verify example_env { s with buffer_4k := [0] }).vars.remote_file_length
        ≠ (flash_write_verify example_env { s with buffer_4k := [0] }).vars.data_transferred) := by
      rw [hdt, hfr.2.1]
      simp [h5]
    have c5 : ¬ (string_match_string
        (example_env.md5_hex (flash_write_verify example_env { s with buffer_4k := [0] }).vars.md5)
        (example_env.md5_hex (List.replicate (4096 * K + 1) 0)) = false) := by
      rw [hmd5]
      simp [string_match_string]
    rw [if_neg c3, if_neg c4, if_neg c5]
    refine ⟨rfl, ?_, ?_⟩
    · exact hfr.2.2.2.1.trans h6
    · exact hfr.2.1.trans h5
  refine ⟨_, ?_, hfin.2.1, hfin.2.2⟩
  simp only [ota_run_normal, ota_dispatch, hsend, ↓reduceIte, hfin.1]
/-- The `int` stored for an in-range parsed value is that value. -/
theorem int32_of_range (a : Int) (hlo : -2147483648 ≤ a) (hhi : a < 2147483648) :
    int32 a = a := by
  unfold int32 int_of_u32 int_bits
  split <;> omega

/-- The test `(a & 0xfff) != 0` on an `int` tests divisibility by 4096. -/
theorem int_bits_and_fff (a : Int) : int_bits a &&& 0xfff = 0 ↔ a % 4096 = 0 := by
  have h := Nat.and_pow_two_sub_one_eq_mod (int_bits a) 12
  norm_num at h
  rw [h]
  unfold int_bits
  omega

/-- The action and the reply of the end of start-write depend only on the start
address and the slot. -/
theorem ota_write_start_state {F : Type} (v w : ota_vars F)
    (ha : w.flash_start_address = v.flash_start_address) (hs : w.flash_slot = v.flash_slot) :
    (ota_write_start w).action = (ota_write_start v).action ∧
    (ota_write_start w).dst = (ota_write_start v).dst ∧
    ((ota_write_start v).action = app_action_normal →
      (ota_write_start v).vars.ota_state = ota_writing) ∧
    ((ota_write_start v).action ≠ app_action_normal →
      (ota_write_start v).action = app_action_error ∧
      (ota_write_start v).vars.ota_state = v.ota_state) := by
  unfold ota_write_start
  dsimp only
  rw [ha, hs]
  split <;> simp


/-! ## Facts used by the reachable-state invariants -/

/-- The sector counters after `flash_write_verify`: untouched when the verify
buffer is too small, otherwise one skip when the sector already holds the
buffer and one write when it does not. -/
theorem fwv_counters {F : Type} (env : ota_env F) (s : ota_vars F) :
    (env.dst_size < 0x1000 →
      (flash_write_verify env s).vars.flash_sectors_written = s.flash_sectors_written ∧
      (flash_write_verify env s).vars.flash_sectors_skipped = s.flash_sectors_skipped) ∧
    (¬ env.dst_size < 0x1000 →
      s.buffer_4k = spi_flash_read env s.flash (u32 (s.flash_sector * 0x1000))
        s.buffer_4k.length →
      (flash_write_verify env s).vars.flash_sectors_written = s.flash_sectors_written ∧
      (flash_write_verify env s).vars.flash_sectors_skipped =
        u32 (s.flash_sectors_skipped + 1)) ∧
    (¬ env.dst_size < 0x1000 →
      s.buffer_4k ≠ spi_flash_read env s.flash (u32 (s.flash_sector * 0x1000))
        s.buffer_4k.length →
      (flash_write_verify env s).vars.flash_sectors_written =
        u32 (s.flash_sectors_written + 1) ∧
      (flash_write_verify env s).vars.flash_sectors_skipped = s.flash_sectors_skipped) := by
  unfold flash_write_verify
  dsimp only
  refine ⟨?_, ?_, ?_⟩
  · intro h0
    simp [h0]
  · intro h0 h1
    simp only [h0, ← h1, ne_eq, not_true_eq_false, ↓reduceIte]
    simp
  · intro h0 h1
    simp only [h0, h1, ne_eq, not_false_eq_true, ↓reduceIte]
    split <;> simp

/-- A successful `flash_write_verify` adds one to exactly one sector counter. -/
theorem fwv_normal_counters {F : Type} (env : ota_env F) (s : ota_vars F)
    (hok : (flash_write_verify env s).action = app_action_normal) :
    ((flash_write_verify env s).vars.flash_sectors_written = s.flash_sectors_written ∧
      (flash_write_verify env s).vars.flash_sectors_skipped =
        u32 (s.flash_sectors_skipped + 1)) ∨
    ((flash_write_verify env s).vars.flash_sectors_written =
        u32 (s.flash_sectors_written + 1) ∧
      (flash_write_verify env s).vars.flash_sectors_skipped = s.flash_sectors_skipped) := by
  have h0 : ¬ env.dst_size < 0x1000 := by
    intro hlt
    revert hok
    unfold flash_write_verify
    simp [hlt]
  by_cases h1 : s.buffer_4k = spi_flash_read env s.flash (u32 (s.flash_sector * 0x1000))
      s.buffer_4k.length
  · exact Or.inl ((fwv_counters env s).2.1 h0 h1)
  · exact Or.inr ((fwv_counters env s).2.2 h0 h1)

/-- A send-chunk that does not succeed returns an error and leaves the state
inactive. -/
theorem ota_send_error {F : Type} (env : ota_env F) (arg1 : Option Int) (arg2 : Option Nat)
    (chunk : Option (List Nat)) (s : ota_vars F)
    (h : (application_function_ota_send env arg1 arg2 chunk s).action ≠ app_action_normal) :
    (application_function_ota_send env arg1 arg2 chunk s).action = app_action_error ∧
    (application_function_ota_send env arg1 arg2 chunk s).vars.ota_state = ota_inactive := by
  revert h
  unfold application_function_ota_send
  by_cases hs : s.ota_state = ota_writing
  · cases arg1 with
    | none => simp [hs]
    | some l =>
      cases arg2 with
      | none => simp [hs]
      | some crc =>
        cases chunk with
        | none => simp [hs]
        | some data =>
          have hs' : ¬ (s.ota_state ≠ ota_writing) := by simp [hs]
          rw [if_neg hs']
          dsimp only
          split
          · simp
          · split
            · simp
            · split
              · simp
              · split
                · split
                  · rename_i hne
                    intro _
                    refine ⟨?_, rfl⟩
                    rcases fwv_action env { s with buffer_4k := string_splice s.buffer_4k data }
                      with h | h
                    · exact absurd h hne
                    · exact h
                  · simp
                · simp
  · simp [hs]

/-- A finish never leaves the state writing. -/
theorem ota_finish_not_writing {F : Type} (env : ota_env F) (arg1 : Option (List Char))
    (s : ota_vars F) :
    (application_function_ota_finish env arg1 s).vars.ota_state ≠ ota_writing := by
  unfold application_function_ota_finish
  split
  · simp
  · split
    · cases arg1 with
      | none => simp
      | some m =>
        dsimp only
        split
        · simp
        · split
          · simp
          · split
            · simp
            · dsimp only
              split <;> simp
    · simp

/-- A start-write that does not succeed returns an error and leaves the state,
`buffer_4k`, the byte count, the cursor, the sector counters, the digest
context, the flash chip and both call logs as they were. -/
theorem ota_write_error {F : Type} (env : ota_env F) (scan : Bool) (arg1 : Option Nat)
    (arg2 : Option Int) (s : ota_vars F)
    (h : (application_function_ota_write env scan arg1 arg2 s).action ≠ app_action_normal) :
    (application_function_ota_write env scan arg1 arg2 s).action = app_action_error ∧
    (application_function_ota_write env scan arg1 arg2 s).vars.ota_state = s.ota_state ∧
    (application_function_ota_write env scan arg1 arg2 s).vars.buffer_4k = s.buffer_4k ∧
    (application_function_ota_write env scan arg1 arg2 s).vars.data_transferred =
      s.data_transferred ∧
    (application_function_ota_write env scan arg1 arg2 s).vars.flash_sector = s.flash_sector ∧
    (application_function_ota_write env scan arg1 arg2 s).vars.flash_sectors_written =
      s.flash_sectors_written ∧
    (application_function_ota_write env scan arg1 arg2 s).vars.flash_sectors_skipped =
      s.flash_sectors_skipped ∧
    (application_function_ota_write env scan arg1 arg2 s).vars.md5 = s.md5 ∧
    (application_function_ota_write env scan arg1 arg2 s).vars.flash = s.flash ∧
    (application_function_ota_write env scan arg1 arg2 s).vars.flash_log = s.flash_log ∧
    (application_function_ota_write env scan arg1 arg2 s).vars.rboot = s.rboot ∧
    (application_function_ota_write env scan arg1 arg2 s).vars.rboot_log = s.rboot_log := by
  have hstart : ∀ v : ota_vars F, (ota_write_start v).action ≠ app_action_normal →
      (ota_write_start v).action = app_action_error ∧ (ota_write_start v).vars = v := by
    intro v
    unfold ota_write_start
    split <;> simp
  revert h
  unfold application_function_ota_write
  split
  · simp
  · split
    · simp
    · cases arg1 with
      | none => simp
      | some len =>
        dsimp only
        split
        · split
          · simp
          · split
            · simp
            · intro h
              obtain ⟨h1, h2⟩ := hstart _ h
              rw [h2]
              exact ⟨h1, rfl, rfl, rfl, rfl, rfl, rfl, rfl, rfl, rfl, rfl, rfl⟩
        · intro h
          obtain ⟨h1, h2⟩ := hstart _ h
          rw [h2]
          exact ⟨h1, rfl, rfl, rfl, rfl, rfl, rfl, rfl, rfl, rfl, rfl, rfl⟩

/-- Every command keeps `writing_inv`. -/
theorem dispatch_keeps_writing_inv {F : Type} (env : ota_env F) (c : ota_command)
    (s : ota_vars F) (hinv : writing_inv s) : writing_inv (ota_dispatch env c s).vars := by
  cases c with
  | ota_read scan =>
    simp only [ota_dispatch, application_function_ota_read]
    split
    · exact hinv
    · split
      · exact hinv
      · intro h
        simp at h
  | ota_receive arg1 arg2 =>
    simp only [ota_dispatch, application_function_ota_receive]
    by_cases hs : s.ota_state = ota_reading
    · intro h
      exfalso
      revert h
      cases arg1 with
      | none => simp [hs]
      | some a =>
        cases arg2 with
        | none => simp [hs]
        | some c =>
          simp only [hs, ne_eq, not_true_eq_false, ↓reduceIte]
          split <;> simp [hs]
    · intro h
      simp [hs] at h
  | ota_write scan arg1 arg2 =>
    simp only [ota_dispatch]
    by_cases hok : (application_function_ota_write env scan arg1 arg2 s).action =
        app_action_normal
    · obtain ⟨_, w2, w3, _, w5, w6, _⟩ := ota_write_normal env scan arg1 arg2 s hok
      intro _
      rw [w2, w3, w5, w6]
      exact ⟨by decide, by decide⟩
    · obtain ⟨_, e2, e3, e4, _, e6, e7, _⟩ := ota_write_error env scan arg1 arg2 s hok
      intro h
      rw [e2] at h
      rw [e3, e4, e6, e7]
      exact hinv h
  | ota_send arg1 arg2 chunk =>
    simp only [ota_dispatch]
    by_cases hok : (application_function_ota_send env arg1 arg2 chunk s).action =
        app_action_normal
    · obtain ⟨hst, data, _, _, hcase⟩ := ota_send_normal env arg1 arg2 chunk s hok
      obtain ⟨_, hdt⟩ := hinv hst
      rcases hcase with ⟨hlt, hv⟩ | ⟨heq, hfok, hv⟩
      · rw [hv]
        intro _
        exact ⟨hlt, hdt⟩
      · rw [hv]
        intro _
        obtain ⟨_, n2, n3, _, _⟩ := fwv_normal env _ hfok
        refine ⟨by rw [n3]; decide, ?_⟩
        rcases fwv_normal_counters env _ hfok with ⟨c1, c2⟩ | ⟨c1, c2⟩
        · rw [n2, c1, c2]
          show u32 (s.data_transferred + (s.buffer_4k ++ data).length) =
            u32 (0x1000 * (s.flash_sectors_written + u32 (s.flash_sectors_skipped + 1)))
          rw [heq, hdt]
          unfold u32
          omega
        · rw [n2, c1, c2]
          show u32 (s.data_transferred + (s.buffer_4k ++ data).length) =
            u32 (0x1000 * (u32 (s.flash_sectors_written + 1) + s.flash_sectors_skipped))
          rw [heq, hdt]
          unfold u32
          omega
    · intro h
      rw [(ota_send_error env arg1 arg2 chunk s hok).2] at h
      simp at h
  | ota_finish arg1 =>
    simp only [ota_dispatch]
    intro h
    exact absurd h (ota_finish_not_writing env arg1 s)
  | ota_commit =>
    simp only [ota_dispatch, application_function_ota_commit]
    split
    · exact hinv
    · split
      · intro h
        simp at h
      · rename_i hs
        simp only [not_not] at hs
        split
        · intro h
          simp at h
        · intro h
          simp [hs] at h

/-- Every state reached from a state satisfying `writing_inv` satisfies it. -/
theorem run_keeps_writing_inv {F : Type} (env : ota_env F) (cs : List ota_command) :
    ∀ s : ota_vars F, writing_inv s → writing_inv (ota_run env cs s) := by
  induction cs with
  | nil =>
    intro s h
    exact h
  | cons c cs ih =>
    intro s h
    exact ih _ (dispatch_keeps_writing_inv env c s h)

/-- The start-up state satisfies `writing_inv`. -/
theorem initial_writing_inv {F : Type} (flash : F) (rboot : rboot_config) :
    writing_inv (ota_initial flash rboot) := by
  intro h
  simp [ota_initial] at h

/-! ## Sector accounting of a write session -/

/-- The reply of a finish that succeeds while writing. -/
theorem ota_finish_normal_dst {F : Type} (env : ota_env F) (arg1 : Option (List Char))
    (s : ota_vars F) (hs : s.ota_state = ota_writing)
    (h : (application_function_ota_finish env arg1 s).action = app_action_normal) :
    ∃ remote_md5_string, arg1 = some remote_md5_string ∧
      (application_function_ota_finish env arg1 s).dst =
        if (ota_final_flush env s).vars.flash_slot = -1 then
          ota_reply.PARTIAL_WRITE_OK (env.md5_hex (ota_final_flush env s).vars.md5)
            remote_md5_string (ota_final_flush env s).vars.flash_sectors_written
            (ota_final_flush env s).vars.flash_sectors_skipped
        else
          ota_reply.WRITE_OK (env.md5_hex (ota_final_flush env s).vars.md5)
            remote_md5_string (ota_final_flush env s).vars.flash_sectors_written
            (ota_final_flush env s).vars.flash_sectors_skipped := by
  revert h
  unfold application_function_ota_finish
  simp only [hs]
  cases arg1 with
  | none => simp
  | some m =>
    by_cases hfl : s.buffer_4k.length > 0 ∧ (ota_final_flush env s).action ≠ app_action_normal
    · simp [hfl]
    · by_cases hsz : (ota_final_flush env s).vars.remote_file_length =
          (ota_final_flush env s).vars.data_transferred
      · by_cases hm : string_match_string (env.md5_hex (ota_final_flush env s).vars.md5) m = false
        · simp [hfl, hsz, hm]
        · intro _
          refine ⟨m, rfl, ?_⟩
          simp only [reduceCtorEq, ↓reduceIte, hfl, hsz, hm, ne_eq, not_true_eq_false]
      · simp [hfl, hsz]

/-- A successful send-chunk keeps `count_inv`, the payload growing by the chunk. -/
theorem send_keeps_count_inv {F : Type} (env : ota_env F) (P : List Nat) (s : ota_vars F)
    (hinv : count_inv P s) (c : ota_command) (hc : c.is_send = true)
    (hlt : (P ++ c.payload).length < 4294967296)
    (hok : (ota_dispatch env c s).action = app_action_normal) :
    count_inv (P ++ c.payload) (ota_dispatch env c s).vars := by
  cases c with
  | ota_send arg1 arg2 chunk =>
    simp only [ota_dispatch] at hok ⊢
    obtain ⟨_, data, hchunk, _, hcase⟩ := ota_send_normal env arg1 arg2 chunk s hok
    subst hchunk
    obtain ⟨hst, hbuf, k, hk, hdt, hP⟩ := hinv
    simp only [ota_command.payload, List.length_append] at hlt ⊢
    rcases hcase with ⟨hlt4, hv⟩ | ⟨heq, hfok, hv⟩
    · rw [hv]
      refine ⟨hst, hlt4, k, hk, hdt, ?_⟩
      show (P ++ data).length = 0x1000 * k + (s.buffer_4k ++ data).length
      rw [List.length_append, List.length_append]
      omega
    · rw [hv]
      have hfr := fwv_frame env { s with buffer_4k := s.buffer_4k ++ data }
      obtain ⟨_, n2, n3, _, _⟩ := fwv_normal env _ hfok
      rw [List.length_append] at heq
      have hn2 : (flash_write_verify env
          { s with buffer_4k := s.buffer_4k ++ data }).vars.data_transferred =
          0x1000 * (k + 1) := by
        rw [n2]
        show u32 (s.data_transferred + (s.buffer_4k ++ data).length) = 0x1000 * (k + 1)
        rw [List.length_append, hdt]
        unfold u32
        omega
      refine ⟨hfr.1.trans hst, by rw [n3]; decide, k + 1, ?_, hn2, ?_⟩
      · rcases fwv_normal_counters env _ hfok with ⟨c1, c2⟩ | ⟨c1, c2⟩
        · rw [c1, c2]
          show s.flash_sectors_written + u32 (s.flash_sectors_skipped + 1) = k + 1
          unfold u32
          omega
        · rw [c1, c2]
          show u32 (s.flash_sectors_written + 1) + s.flash_sectors_skipped = k + 1
          unfold u32
          omega
      · rw [n3]
        show (P ++ data).length = 0x1000 * (k + 1) + 0
        rw [List.length_append]
        omega
  | _ => simp [ota_command.is_send] at hc

/-- A sequence of successful send-chunks keeps `count_inv`. -/
theorem sends_keep_count_inv {F : Type} (env : ota_env F) (sends rest : List ota_command) :
    ∀ (P : List Nat) (s s' : ota_vars F), count_inv P s →
      sends.all ota_command.is_send = true →
      (P ++ ota_payloads sends).length < 4294967296 →
      ota_run_normal env (sends ++ rest) s = some s' →
      ∃ s2, count_inv (P ++ ota_payloads sends) s2 ∧
        ota_run_normal env rest s2 = some s' := by
  induction sends with
  | nil =>
    intro P s s' hinv _ _ hrun
    exact ⟨s, by simpa [ota_payloads] using hinv, by simpa using hrun⟩
  | cons c cs ih =>
    intro P s s' hinv hall hlt hrun
    simp only [List.all_cons, Bool.and_eq_true] at hall
    have hpay : ota_payloads (c :: cs) = c.payload ++ ota_payloads cs := by
      simp [ota_payloads]
    rw [hpay, ← List.append_assoc] at hlt ⊢
    simp only [List.cons_append, ota_run_normal] at hrun
    split at hrun
    · rename_i hok
      have hlt1 : (P ++ c.payload).length < 4294967296 := by
        simp only [List.length_append] at hlt ⊢
        omega
      exact ih (P ++ c.payload) _ s'
        (send_keeps_count_inv env P s hinv c hall.1 hlt1 hok) hall.2 hlt hrun
    · simp at hrun

/-- A successful finish of a session satisfying `count_inv`: the declared length
is the payload length and the sectors written or skipped number the declared
length divided by 4096, rounded up. -/
theorem finish_completes_count_inv {F : Type} (env : ota_env F) (P : List Nat)
    (s : ota_vars F) (hinv : count_inv P s) (arg1 : Option (List Char))
    (hlt : P.length < 4294967296)
    (hok : (application_function_ota_finish env arg1 s).action = app_action_normal) :
    (application_function_ota_finish env arg1 s).vars.remote_file_length = P.length ∧
    (application_function_ota_finish env arg1 s).vars.flash_sectors_written +
      (application_function_ota_finish env arg1 s).vars.flash_sectors_skipped =
      ((application_function_ota_finish env arg1 s).vars.remote_file_length + 4095) / 4096 := by
  obtain ⟨hst, hbuf, k, hk, hdt, hP⟩ := hinv
  obtain ⟨hfok, hsz, _, hv⟩ := ota_finish_normal env arg1 s hst hok
  rw [hv]
  dsimp only
  by_cases hb : s.buffer_4k.length > 0
  · have hff : ota_final_flush env s = flash_write_verify env s := by
      simp [ota_final_flush, hb]
    rw [hff] at hfok hsz ⊢
    obtain ⟨_, n2, _, _, _⟩ := fwv_normal env s hfok
    have hn2 : (flash_write_verify env s).vars.data_transferred = P.length := by
      rw [n2, hdt, hP]
      unfold u32
      omega
    rw [hsz, hn2]
    refine ⟨rfl, ?_⟩
    rcases fwv_normal_counters env s hfok with ⟨c1, c2⟩ | ⟨c1, c2⟩
    · rw [c1, c2]
      unfold u32
      omega
    · rw [c1, c2]
      unfold u32
      omega
  · have hff : ota_final_flush env s = ⟨app_action_normal, .unchanged, s⟩ := by
      simp [ota_final_flush, hb]
    rw [hff] at hsz ⊢
    dsimp only at hsz ⊢
    rw [hsz, hdt]
    refine ⟨by omega, ?_⟩
    omega

/-- One chunk of 4096 zeros over all-zero flash succeeds, keeps `zero_inv` and
skips one sector. -/
theorem zero_send_count (k : Nat) (s : ota_vars (Nat → Nat)) (h : zero_count_inv k s) :
    (ota_dispatch example_env example_zero_send s).action = app_action_normal ∧
    zero_count_inv (k + 1) (ota_dispatch example_env example_zero_send s).vars := by
  obtain ⟨hz, hw, hk⟩ := h
  obtain ⟨hok, hz1⟩ := zero_send_step k s hz
  refine ⟨hok, hz1, ?_⟩
  obtain ⟨_, hb, hf, _⟩ := hz
  simp only [ota_dispatch, example_zero_send] at hok ⊢
  obtain ⟨_, data, hchunk, _, hcase⟩ := ota_send_normal example_env _ _ _ s hok
  simp only [Option.some.injEq] at hchunk
  subst hchunk
  have hlen : example_zero_chunk.length = 4096 := List.length_replicate _ _
  rcases hcase with ⟨hlt, _⟩ | ⟨_, hfok, hv⟩
  · rw [List.length_append, hb, hlen] at hlt
    simp at hlt
  · rw [hv]
    have hd : ¬ example_env.dst_size < 0x1000 := by decide
    have hread : ({ s with buffer_4k := s.buffer_4k ++ example_zero_chunk } :
        ota_vars (Nat → Nat)).buffer_4k =
        spi_flash_read example_env
          ({ s with buffer_4k := s.buffer_4k ++ example_zero_chunk } :
            ota_vars (Nat → Nat)).flash
          (u32 (({ s with buffer_4k := s.buffer_4k ++ example_zero_chunk } :
            ota_vars (Nat → Nat)).flash_sector * 0x1000))
          ({ s with buffer_4k := s.buffer_4k ++ example_zero_chunk } :
            ota_vars (Nat → Nat)).buffer_4k.length := by
      show s.buffer_4k ++ example_zero_chunk =
        spi_flash_read example_env s.flash (u32 (s.flash_sector * 0x1000))
          (s.buffer_4k ++ example_zero_chunk).length
      rw [hf, zero_flash_read, hb, List.nil_append, hlen]
      rfl
    obtain ⟨c1, c2⟩ := (fwv_counters example_env _).2.1 hd hread
    rw [c1, c2]
    refine ⟨hw, ?_⟩
    show u32 (s.flash_sectors_skipped + 1) = u32 (k + 1)
    rw [hk]
    unfold u32
    omega

/-- Any number of chunks of 4096 zeros succeed and keep `zero_count_inv`. -/
theorem zero_sends_count (n : Nat) (rest : List ota_command) :
    ∀ (k : Nat) (s : ota_vars (Nat → Nat)), zero_count_inv k s →
      ∃ s2, zero_count_inv (k + n) s2 ∧
        ota_run_normal example_env (List.replicate n example_zero_send ++ rest) s =
          ota_run_normal example_env rest s2 := by
  induction n with
  | zero =>
    intro k s h
    exact ⟨s, h, rfl⟩
  | succ n ih =>
    intro k s h
    obtain ⟨hok, hinv⟩ := zero_send_count k s h
    obtain ⟨s2, h2, hrun⟩ := ih (k + 1) _ hinv
    refine ⟨s2, ?_, ?_⟩
    · have : k + (n + 1) = k + 1 + n := by omega
      rw [this]
      exact h2
    · rw [List.replicate_succ, List.cons_append, ota_run_normal, if_pos hok]
      exact hrun

/-- The end of the long session with the sector counters: the last chunk of one
zero byte is buffered and the finish skips one more sector. -/
theorem zero_tail_count (K : Nat) (s : ota_vars (Nat → Nat)) (h : zero_count_inv K s)
    (hK : u32 (4096 * K) = 0) :
    ∃ s', ota_run_normal example_env
        [.ota_send (some 1) (some 0) (some [0]),
          .ota_finish (some (example_env.md5_hex (List.replicate (4096 * K + 1) 0)))] s =
        some s' ∧
      s'.remote_file_length = 1 ∧ s'.flash_sectors_written = 0 ∧
      s'.flash_sectors_skipped = u32 (K + 1) := by
  obtain ⟨hz, hw, hk⟩ := h
  obtain ⟨s', hrun, _, hn⟩ := zero_tail_run K s hz hK
  refine ⟨s', hrun, hn, ?_⟩
  obtain ⟨hst, hb, hf, _⟩ := hz
  simp only [ota_run_normal, ota_dispatch] at hrun
  split at hrun
  · rename_i hsok
    split at hrun
    · rename_i hfok
      simp only [Option.some.injEq] at hrun
      subst hrun
      obtain ⟨_, data, hchunk, _, hcase⟩ := ota_send_normal example_env _ _ _ s hsok
      simp only [Option.some.injEq] at hchunk
      subst hchunk
      rcases hcase with ⟨_, hv⟩ | ⟨heq, _, _⟩
      · rw [hv] at hfok ⊢
        obtain ⟨_, _, _, hv2⟩ := ota_finish_normal example_env _
          { s with buffer_4k := s.buffer_4k ++ [0] } hst hfok
        rw [hv2]
        dsimp only
        have hff : ota_final_flush example_env { s with buffer_4k := s.buffer_4k ++ [0] } =
            flash_write_verify example_env { s with buffer_4k := s.buffer_4k ++ [0] } := by
          simp [ota_final_flush]
        rw [hff]
        have hd : ¬ example_env.dst_size < 0x1000 := by decide
        have hread : ({ s with buffer_4k := s.buffer_4k ++ [0] } :
            ota_vars (Nat → Nat)).buffer_4k =
            spi_flash_read example_env
              ({ s with buffer_4k := s.buffer_4k ++ [0] } : ota_vars (Nat → Nat)).flash
              (u32 (({ s with buffer_4k := s.buffer_4k ++ [0] } :
                ota_vars (Nat → Nat)).flash_sector * 0x1000))
              ({ s with buffer_4k := s.buffer_4k ++ [0] } :
                ota_vars (Nat → Nat)).buffer_4k.length := by
          show s.buffer_4k ++ [0] =
            spi_flash_read example_env s.flash (u32 (s.flash_sector * 0x1000))
              (s.buffer_4k ++ [0]).length
          rw [hf, zero_flash_read, hb]
          rfl
        obtain ⟨c1, c2⟩ := (fwv_counters example_env _).2.1 hd hread
        rw [c1, c2]
        refine ⟨hw, ?_⟩
        show u32 (s.flash_sectors_skipped + 1) = u32 (K + 1)
        rw [hk]
        unfold u32
        omega
      · rw [hb] at heq
        simp at heq
    · simp at hrun
  · simp at hrun

/-- Reading back what the ideal flash driver wrote gives the bytes written. -/
theorem ideal_write_read (g : Nat → Nat) (a : Nat) (B : List Nat) :
    spi_flash_read example_env (ideal_write g a B) a B.length = B := by
  unfold spi_flash_read
  apply List.ext_getElem
  · simp
  · intro i h1 h2
    simp only [List.getElem_map, List.getElem_range]
    show ideal_write g a B (a + i) = B[i]
    unfold ideal_write
    have hi : a ≤ a + i ∧ a + i < a + B.length := by omega
    rw [if_pos hi]
    have : a + i - a = i := by omega
    rw [this]
    exact List.getD_eq_getElem B 0 h2

/-- Over the ideal flash driver of `example_env`, `flash_write_verify` succeeds. -/
theorem example_fwv_normal (s : ota_vars (Nat → Nat)) :
    (flash_write_verify example_env s).action = app_action_normal := by
  have hd : ¬ example_env.dst_size < 4096 := by decide
  unfold flash_write_verify
  dsimp only
  by_cases h1 : s.buffer_4k =
      spi_flash_read example_env s.flash (u32 (s.flash_sector * 4096)) s.buffer_4k.length
  · simp only [hd, ← h1, ne_eq, not_true_eq_false, ↓reduceIte]
  · simp only [hd, h1, ne_eq, not_false_eq_true, ↓reduceIte]
    have hw : s.buffer_4k = spi_flash_read example_env
        (example_env.spi_flash_write
          (example_env.spi_flash_erase_sector s.flash (s.flash_sector % 0x10000))
          (u32 (s.flash_sector * 4096)) s.buffer_4k)
        (u32 (s.flash_sector * 4096)) s.buffer_4k.length :=
      (ideal_write_read _ _ _).symm
    rw [if_neg (not_not.mpr hw)]

/-- Flash holding the same byte everywhere reads as that byte repeated. -/
theorem const_flash_read (v a n : Nat) :
    spi_flash_read example_env (fun _ => v) a n = List.replicate n v := by
  unfold spi_flash_read
  apply List.ext_getElem
  · simp
  · intro i h1 h2
    simp [example_env]

/-- A send-chunk received while writing, with matching length and CRC, that
fills `buffer_4k` to 4096 bytes and whose flush succeeds, succeeds and leaves
the variables the flush left. -/
theorem ota_send_flush {F : Type} (env : ota_env F) (s : ota_vars F) (l : Int) (crc : Nat)
    (data : List Nat) (hs : s.ota_state = ota_writing) (hl : (data.length : Int) = l)
    (hcrc : u32 (env.string_crc32 data) = u32 crc)
    (hlen : (s.buffer_4k ++ data).length = 0x1000)
    (hf : (flash_write_verify env { s with buffer_4k := s.buffer_4k ++ data }).action =
      app_action_normal) :
    (application_function_ota_send env (some l) (some crc) (some data) s).action =
      app_action_normal ∧
    (application_function_ota_send env (some l) (some crc) (some data) s).vars =
      (flash_write_verify env { s with buffer_4k := s.buffer_4k ++ data }).vars := by
  unfold application_function_ota_send
  have c1 : ¬ (s.ota_state ≠ ota_writing) := by simp [hs]
  have c2 : ¬ ((data.length : Int) ≠ l) := by simp [hl]
  have c3 : ¬ (u32 (env.string_crc32 data) ≠ u32 crc) := by simp [hcrc]
  have c6 : string_splice s.buffer_4k data = s.buffer_4k ++ data := rfl
  have c4 : ¬ ((s.buffer_4k ++ data).length > 0x1000) := by omega
  rw [if_neg c1]
  dsimp only
  rw [if_neg c2, if_neg c3, c6, if_neg c4, if_pos hlen, if_neg (by simp [hf])]
  exact ⟨rfl, rfl⟩

/-- A finish received while writing with an empty `buffer_4k`, the byte count
equal to the declared length and the reference digest equal to the local one,
succeeds. -/
theorem ota_finish_empty {F : Type} (env : ota_env F) (s : ota_vars F)
    (hs : s.ota_state = ota_writing) (hb : s.buffer_4k = [])
    (hsz : s.remote_file_length = s.data_transferred) :
    (application_function_ota_finish env (some (env.md5_hex s.md5)) s).action =
      app_action_normal := by
  have hff : ota_final_flush env s = ⟨app_action_normal, .unchanged, s⟩ := by
    simp [ota_final_flush, hb]
  unfold application_function_ota_finish
  simp [hs, hff, hb, hsz, string_match_string]

/-- Over the ideal flash driver of `example_env`, a session freshly started with
file length 4096 accepts one chunk of 4096 bytes carrying the right CRC, and
its finish with the digest of the chunk succeeds. -/
theorem example_one_sector_session (w : ota_vars (Nat → Nat)) (hs : w.ota_state = ota_writing)
    (hb : w.buffer_4k = []) (hm : w.md5 = []) (hd : w.data_transferred = 0)
    (hN : w.remote_file_length = 4096) (data : List Nat) (hlen : data.length = 4096)
    (crc : Nat) (hcrc : u32 (example_env.string_crc32 data) = u32 crc) :
    (application_function_ota_send example_env (some 4096) (some crc) (some data) w).action =
      app_action_normal ∧
    (application_function_ota_finish example_env (some (example_env.md5_hex data))
      (application_function_ota_send example_env (some 4096) (some crc) (some data)
        w).vars).action = app_action_normal := by
  have hbd : w.buffer_4k ++ data = data := by rw [hb, List.nil_append]
  have hsend := ota_send_flush example_env w 4096 crc data hs (by rw [hlen]; rfl) hcrc
    (by rw [hbd, hlen]) (example_fwv_normal _)
  rw [hbd] at hsend
  have hfr := fwv_frame example_env { w with buffer_4k := data }
  obtain ⟨_, n2, n3, n4, _⟩ := fwv_normal example_env { w with buffer_4k := data }
    (example_fwv_normal _)
  refine ⟨hsend.1, ?_⟩
  rw [hsend.2]
  have h := ota_finish_empty example_env
    (flash_write_verify example_env { w with buffer_4k := data }).vars (hfr.1.trans hs) n3
    (by
      rw [hfr.2.1, n2]
      show w.remote_file_length = u32 (w.data_transferred + data.length)
      rw [hN, hd, hlen]
      rfl)
  rw [n4] at h
  have hmd : ({ w with buffer_4k := data } : ota_vars (Nat → Nat)).md5 ++
      ({ w with buffer_4k := data } : ota_vars (Nat → Nat)).buffer_4k = data := by
    show w.md5 ++ data = data
    rw [hm, List.nil_append]
  rw [hmd] at h
  exact h

/-- A `flash_write_verify` whose re-read differs from the buffer returns an
error (the verify-mismatch message when the verify buffer is large enough) and
advances neither the cursor nor the byte count. -/
theorem fwv_mismatch {F : Type} (env : ota_env F) (s : ota_vars F)
    (h : fwv_reread env s ≠ s.buffer_4k) :
    (flash_write_verify env s).action = app_action_error ∧
    (flash_write_verify env s).vars.flash_sector = s.flash_sector ∧
    (flash_write_verify env s).vars.data_transferred = s.data_transferred ∧
    (flash_write_verify env s).vars.buffer_4k = s.buffer_4k ∧
    (¬ env.dst_size < 0x1000 → (flash_write_verify env s).dst = ota_reply.verify_mismatch) ∧
    (env.dst_size < 0x1000 →
      (flash_write_verify env s).dst = ota_reply.verify_buffer_too_small env.dst_size) := by
  revert h
  unfold fwv_reread flash_after_write_or_skip flash_write_verify
  dsimp only
  by_cases h0 : env.dst_size < 4096
  · simp [h0]
  · by_cases h1 : s.buffer_4k =
        spi_flash_read env s.flash (u32 (s.flash_sector * 4096)) s.buffer_4k.length
    · simp only [h0, ← h1, ne_eq, not_true_eq_false, ↓reduceIte]
      intro h
      exact h.elim
    · simp only [h0, h1, ne_eq, not_false_eq_true, ↓reduceIte]
      intro h
      have h' : ¬ (s.buffer_4k = spi_flash_read env
          (env.spi_flash_write (env.spi_flash_erase_sector s.flash (s.flash_sector % 0x10000))
            (u32 (s.flash_sector * 4096)) s.buffer_4k)
          (u32 (s.flash_sector * 4096)) s.buffer_4k.length) := fun e => h e.symm
      rw [if_pos h']
      simp


/-! ## The flash frame -/

/-- What `flash_write_verify` does to the flash chip. -/
theorem fwv_flash_step {F : Type} (env : ota_env F) (s : ota_vars F) :
    flash_step env s s.buffer_4k (flash_write_verify env s).vars := by
  unfold flash_step flash_write_verify
  dsimp only
  by_cases h0 : env.dst_size < 4096
  · simp [h0]
  · by_cases h1 : s.buffer_4k =
        spi_flash_read env s.flash (u32 (s.flash_sector * 4096)) s.buffer_4k.length
    · left
      simp only [h0, ← h1, ne_eq, not_true_eq_false, ↓reduceIte]
      simp
    · right
      simp only [h0, h1, ne_eq, not_false_eq_true, ↓reduceIte]
      split <;> simp

/-- What a send-chunk does to the flash chip: nothing, or one
`flash_write_verify` with the buffer extended by the chunk. -/
theorem ota_send_flash_step {F : Type} (env : ota_env F) (arg1 : Option Int)
    (arg2 : Option Nat) (chunk : Option (List Nat)) (s : ota_vars F) :
    flash_step env s (s.buffer_4k ++ chunk.getD [])
      (application_function_ota_send env arg1 arg2 chunk s).vars := by
  have hnone : ∀ v : ota_vars F, v.flash = s.flash → v.flash_log = s.flash_log →
      flash_step env s (s.buffer_4k ++ chunk.getD []) v := by
    intro v h1 h2
    exact Or.inl ⟨h1, Or.inl h2⟩
  unfold application_function_ota_send
  split
  · exact hnone _ rfl rfl
  · cases arg1 with
    | none => exact hnone _ rfl rfl
    | some l =>
      cases arg2 with
      | none => exact hnone _ rfl rfl
      | some crc =>
        cases chunk with
        | none => exact hnone _ rfl rfl
        | some data =>
          dsimp only
          split
          · exact hnone _ rfl rfl
          · split
            · exact hnone _ rfl rfl
            · split
              · exact hnone _ rfl rfl
              · split
                · have h := fwv_flash_step env
                    { s with buffer_4k := string_splice s.buffer_4k data }
                  split
                  · exact h
                  · exact h
                · exact hnone _ rfl rfl

/-- What a finish does to the flash chip: nothing, or one `flash_write_verify`
with `buffer_4k`. -/
theorem ota_finish_flash_step {F : Type} (env : ota_env F) (arg1 : Option (List Char))
    (s : ota_vars F) :
    flash_step env s s.buffer_4k (application_function_ota_finish env arg1 s).vars := by
  have hnone : ∀ v : ota_vars F, v.flash = s.flash → v.flash_log = s.flash_log →
      flash_step env s s.buffer_4k v := by
    intro v h1 h2
    exact Or.inl ⟨h1, Or.inl h2⟩
  have hflush : flash_step env s s.buffer_4k (ota_final_flush env s).vars := by
    unfold ota_final_flush
    split
    · exact fwv_flash_step env s
    · exact hnone _ rfl rfl
  unfold application_function_ota_finish
  split
  · exact hnone _ rfl rfl
  · split
    · cases arg1 with
      | none => exact hnone _ rfl rfl
      | some m =>
        dsimp only
        split
        · exact hflush
        · split
          · exact hflush
          · split
            · exact hflush
            · exact hflush
    · exact hnone _ rfl rfl

/-! ## The digest of a write session and of a read session -/

/-- A run of commands that all succeed, split in two. -/
theorem ota_run_normal_append {F : Type} (env : ota_env F) (cs rest : List ota_command) :
    ∀ s : ota_vars F, ota_run_normal env (cs ++ rest) s =
      (ota_run_normal env cs s).bind (ota_run_normal env rest) := by
  induction cs with
  | nil =>
    intro s
    rfl
  | cons c cs ih =>
    intro s
    simp only [List.cons_append, ota_run_normal]
    split
    · exact ih _
    · rfl

/-- A successful send-chunk keeps `digest_inv`, the payload growing by the chunk. -/
theorem send_keeps_digest_inv {F : Type} (env : ota_env F) (P : List Nat) (s : ota_vars F)
    (hinv : digest_inv P s) (c : ota_command) (hc : c.is_send = true)
    (hok : (ota_dispatch env c s).action = app_action_normal) :
    digest_inv (P ++ c.payload) (ota_dispatch env c s).vars := by
  cases c with
  | ota_send arg1 arg2 chunk =>
    simp only [ota_dispatch] at hok ⊢
    obtain ⟨_, data, hchunk, _, hcase⟩ := ota_send_normal env arg1 arg2 chunk s hok
    subst hchunk
    unfold digest_inv at hinv ⊢
    simp only [ota_command.payload]
    rcases hcase with ⟨_, hv⟩ | ⟨_, hfok, hv⟩
    · rw [hv]
      show s.md5 ++ (s.buffer_4k ++ data) = P ++ data
      rw [← List.append_assoc, hinv]
    · rw [hv]
      obtain ⟨_, _, n3, n4, _⟩ := fwv_normal env _ hfok
      rw [n3, n4, List.append_nil]
      show s.md5 ++ (s.buffer_4k ++ data) = P ++ data
      rw [← List.append_assoc, hinv]
  | _ => simp [ota_command.is_send] at hc

/-- A sequence of successful send-chunks keeps `digest_inv`. -/
theorem sends_keep_digest_inv {F : Type} (env : ota_env F) (sends : List ota_command) :
    ∀ (P : List Nat) (s s' : ota_vars F), digest_inv P s →
      sends.all ota_command.is_send = true →
      ota_run_normal env sends s = some s' →
      digest_inv (P ++ ota_payloads sends) s' := by
  induction sends with
  | nil =>
    intro P s s' hinv _ hrun
    simp only [ota_run_normal, Option.some.injEq] at hrun
    subst hrun
    simpa [ota_payloads] using hinv
  | cons c cs ih =>
    intro P s s' hinv hall hrun
    simp only [List.all_cons, Bool.and_eq_true] at hall
    have hpay : ota_payloads (c :: cs) = c.payload ++ ota_payloads cs := by
      simp [ota_payloads]
    rw [hpay, ← List.append_assoc]
    simp only [ota_run_normal] at hrun
    split at hrun
    · rename_i hok
      exact ih (P ++ c.payload) _ s' (send_keeps_digest_inv env P s hinv c hall.1 hok) hall.2 hrun
    · simp at hrun

/-- The local digest reported by a successful finish of a session satisfying
`digest_inv` is the digest of the payload. -/
theorem finish_reports_digest {F : Type} (env : ota_env F) (P : List Nat) (s : ota_vars F)
    (hst : s.ota_state = ota_writing) (hinv : digest_inv P s) (arg1 : Option (List Char))
    (hok : (application_function_ota_finish env arg1 s).action = app_action_normal) :
    (application_function_ota_finish env arg1 s).dst.local_digest = some (env.md5_hex P) := by
  obtain ⟨hfok, _, _, _⟩ := ota_finish_normal env arg1 s hst hok
  obtain ⟨r, _, hdst⟩ := ota_finish_normal_dst env arg1 s hst hok
  have hmd5 : (ota_final_flush env s).vars.md5 = P := by
    unfold digest_inv at hinv
    by_cases hb : s.buffer_4k.length > 0
    · have hff : ota_final_flush env s = flash_write_verify env s := by
        simp [ota_final_flush, hb]
      rw [hff] at hfok ⊢
      rw [(fwv_normal env s hfok).2.2.2.1, hinv]
    · have hff : ota_final_flush env s = ⟨app_action_normal, .unchanged, s⟩ := by
        simp [ota_final_flush, hb]
      have hb0 : s.buffer_4k = [] := by
        apply List.eq_nil_of_length_eq_zero
        omega
      rw [hff]
      rw [hb0, List.append_nil] at hinv
      exact hinv
  rw [hdst, hmd5]
  split <;> rfl

/-- A start-write that succeeds found the scratch buffer large enough. -/
theorem ota_write_buffer_ok {F : Type} (env : ota_env F) (scan : Bool) (arg1 : Option Nat)
    (arg2 : Option Int) (s : ota_vars F)
    (h : (application_function_ota_write env scan arg1 arg2 s).action = app_action_normal) :
    ¬ env.buffer_4k_size < 0x1000 := by
  intro hlt
  revert h
  unfold application_function_ota_write
  simp [hlt]

/-- A read-chunk of at most 1024 bytes received in the reading state succeeds,
feeds the digest with the bytes read and adds the length to the byte count. -/
theorem ota_receive_normal {F : Type} (env : ota_env F) (a len : Nat) (s : ota_vars F)
    (hs : s.ota_state = ota_reading) (hlen : len ≤ 1024) :
    (application_function_ota_receive env (some a) (some len) s).action = app_action_normal ∧
    (application_function_ota_receive env (some a) (some len) s).vars.ota_state =
      ota_reading ∧
    (application_function_ota_receive env (some a) (some len) s).vars.flash = s.flash ∧
    (application_function_ota_receive env (some a) (some len) s).vars.md5 =
      s.md5 ++ spi_flash_read env s.flash (u32 a) len ∧
    (application_function_ota_receive env (some a) (some len) s).vars.data_transferred =
      u32 (s.data_transferred + len) := by
  have hu : u32 len = len := by
    unfold u32
    omega
  have hc : ¬ (u32 len > 1024) := by
    rw [hu]
    omega
  unfold application_function_ota_receive
  rw [if_neg (by simp [hs])]
  dsimp only
  rw [if_neg hc, hu]
  exact ⟨rfl, hs, rfl, rfl, rfl⟩

/-- The read-chunk commands covering the range from `a` to `e`, received in the
reading state, all succeed; they feed the digest with the flash bytes of the
range and add its length to the byte count. -/
theorem reads_cover_run {F : Type} (env : ota_env F) (e : Nat) (he : e ≤ 4294967296)
    (rest : List ota_command) (reads : List ota_command) :
    ∀ (a n : Nat) (s : ota_vars F), s.ota_state = ota_reading →
      s.data_transferred = u32 n → ota_reads_cover a reads e = true →
      a ≤ e ∧
      ∃ s2, ota_run_normal env (reads ++ rest) s = ota_run_normal env rest s2 ∧
        s2.ota_state = ota_reading ∧ s2.flash = s.flash ∧
        s2.md5 = s.md5 ++ spi_flash_read env s.flash a (e - a) ∧
        s2.data_transferred = u32 (n + (e - a)) := by
  induction reads with
  | nil =>
    intro a n s hs hd hc
    simp only [ota_reads_cover, decide_eq_true_eq] at hc
    subst hc
    refine ⟨le_refl _, s, rfl, hs, rfl, ?_, ?_⟩
    · simp [spi_flash_read]
    · simpa using hd
  | cons c cs ih =>
    intro a n s hs hd hc
    cases c with
    | ota_receive arg1 arg2 =>
      cases arg1 with
      | none => simp [ota_reads_cover] at hc
      | some address =>
        cases arg2 with
        | none => simp [ota_reads_cover] at hc
        | some len =>
          simp only [ota_reads_cover, Bool.and_eq_true, decide_eq_true_eq] at hc
          obtain ⟨⟨haddr, hlen⟩, hrest⟩ := hc
          subst haddr
          obtain ⟨r1, r2, r3, r4, r5⟩ := ota_receive_normal env address len s hs hlen
          have hd' : (application_function_ota_receive env (some address) (some len)
              s).vars.data_transferred = u32 (n + len) := by
            rw [r5, hd]
            unfold u32
            omega
          obtain ⟨hle, s2, hrun, q1, q2, q3, q4⟩ := ih (address + len) (n + len) _ r2 hd' hrest
          refine ⟨by omega, s2, ?_, q1, q2.trans r3, ?_, ?_⟩
          · simp only [List.cons_append, ota_run_normal, ota_dispatch]
            rw [if_pos r1]
            exact hrun
          · rw [q3, r4, r3, List.append_assoc]
            congr 1
            have hsplit : e - address = len + (e - (address + len)) := by omega
            rw [hsplit, spi_flash_read_append]
            congr 1
            by_cases h0 : len = 0
            · subst h0
              simp [spi_flash_read]
            · have : u32 address = address := by
                unfold u32
                omega
              rw [this]
          · rw [q4]
            congr 1
            omega
    | _ => simp [ota_reads_cover] at hc
/-- A start-write that succeeds at the non-negative start address `A` found `A`
aligned and establishes `write_inv` and `digest_inv` with an empty payload. -/
theorem write_start_inv {F : Type} (env : ota_env F) (scan : Bool) (arg1 : Option Nat)
    (arg2 : Option Int) (s0 : ota_vars F) (A : Nat)
    (hwok : (application_function_ota_write env scan arg1 arg2 s0).action = app_action_normal)
    (hAeq : (application_function_ota_write env scan arg1 arg2 s0).vars.flash_start_address =
      (A : Int)) :
    A % 0x1000 = 0 ∧
    write_inv env A (application_function_ota_write env scan arg1 arg2 s0).vars.remote_file_length
      [] (application_function_ota_write env scan arg1 arg2 s0).vars ∧
    digest_inv [] (application_function_ota_write env scan arg1 arg2 s0).vars := by
  obtain ⟨w1, w2, w3, w4, _, _, w7, w8, _, _, _, _, w13⟩ :=
    ota_write_normal env scan arg1 arg2 s0 hwok
  generalize (application_function_ota_write env scan arg1 arg2 s0).vars = w
    at hAeq w1 w2 w3 w4 w7 w8 w13 ⊢
  rw [hAeq] at w7 w8 w13
  have hbits : int_bits (A : Int) = A := by
    unfold int_bits
    omega
  have hA : A % 0x1000 = 0 := by
    rw [hbits] at w8
    have := Nat.and_pow_two_sub_one_eq_mod A 12
    norm_num at this
    rw [← this]
    exact w8
  have hdiv : Int.tdiv (A : Int) 0x1000 = ((A / 0x1000 : Nat) : Int) := rfl
  have hsec : w.flash_sector = A / 0x1000 + 0 := by
    rw [w7, hdiv]
    unfold int_bits
    omega
  refine ⟨hA, ⟨w1, hAeq, rfl, ?_, 0, hsec, ?_, ?_⟩, ?_⟩
  · rw [w2]
    decide
  · rw [w3]
  · rw [w2]
    simp [spi_flash_read]
  · unfold digest_inv
    rw [w2, w4]
    rfl

/-- A read session over the range of `N` bytes from `A`: start-read, read-chunks
covering the range, finish.  Every command succeeds and the finish reports the
digest of the flash bytes of the range and the byte count `N`. -/
theorem read_session_reply {F : Type} (env : ota_env F) (t : ota_vars F) (A N : Nat)
    (reads : List ota_command) (md5 : Option (List Char))
    (hbuf : ¬ env.buffer_4k_size < 0x1000) (hfit : A + N ≤ 4294967296)
    (hlt : N < 4294967296) (hcover : ota_reads_cover A reads (A + N) = true) :
    ∃ t1, ota_run_normal env (.ota_read false :: reads) t = some t1 ∧
      (application_function_ota_finish env md5 t1).action = app_action_normal ∧
      (application_function_ota_finish env md5 t1).dst =
        .READ_OK (env.md5_hex (spi_flash_read env t.flash A N)) N := by
  have hread : application_function_ota_read env false t =
      ⟨app_action_normal, .READ,
        { t with ota_state := ota_reading, data_transferred := 0, md5 := [] }⟩ := by
    unfold application_function_ota_read
    rw [if_neg hbuf]
    simp
  obtain ⟨_, t1, hrun, q1, q2, q3, q4⟩ := reads_cover_run env (A + N) hfit [] reads A 0
    { t with ota_state := ota_reading, data_transferred := 0, md5 := [] } rfl rfl hcover
  refine ⟨t1, ?_, ?_, ?_⟩
  · simp only [ota_run_normal, ota_dispatch, hread, ↓reduceIte]
    rw [List.append_nil] at hrun
    rw [hrun]
    rfl
  · unfold application_function_ota_finish
    rw [if_pos q1]
  · unfold application_function_ota_finish
    rw [if_pos q1]
    dsimp only
    rw [q3, q4]
    have h1 : A + N - A = N := by omega
    have h2 : u32 (0 + N) = N := by
      unfold u32
      omega
    rw [h1, h2]
    rfl

/-- The end of the long session with its digest: the last chunk of one zero byte
is buffered, the finish succeeds and reports the digest of all the bytes sent,
over flash that is still all zero. -/
theorem zero_tail_digest (K : Nat) (s : ota_vars (Nat → Nat)) (h : zero_inv K s)
    (hK : u32 (4096 * K) = 0) :
    ∃ s1, ota_run_normal example_env [.ota_send (some 1) (some 0) (some [0])] s = some s1 ∧
      (application_function_ota_finish example_env
        (some (example_env.md5_hex (List.replicate (4096 * K + 1) 0))) s1).action =
        app_action_normal ∧
      (application_function_ota_finish example_env
        (some (example_env.md5_hex (List.replicate (4096 * K + 1) 0))) s1).dst.local_digest =
        some (example_env.md5_hex (List.replicate (4096 * K + 1) 0)) ∧
      (application_function_ota_finish example_env
        (some (example_env.md5_hex (List.replicate (4096 * K + 1) 0))) s1).vars.flash =
        (fun _ => 0) ∧
      (application_function_ota_finish example_env
        (some (example_env.md5_hex (List.replicate (4096 * K + 1) 0)))
          s1).vars.flash_start_address = 0 ∧
      (application_function_ota_finish example_env
        (some (example_env.md5_hex (List.replicate (4096 * K + 1) 0)))
          s1).vars.remote_file_length = 1 := by
  obtain ⟨s', hrun, ha, hn⟩ := zero_tail_run K s h hK
  obtain ⟨h1, h2, h3, h4, h5, h6, h7, h8⟩ := h
  simp only [ota_run_normal, ota_dispatch] at hrun
  split at hrun
  · rename_i hsok
    split at hrun
    · rename_i hfok
      simp only [Option.some.injEq] at hrun
      subst hrun
      refine ⟨_, ?_, hfok, ?_, ?_, ha, hn⟩
      · simp only [ota_run_normal, ota_dispatch]
        rw [if_pos hsok]
      · obtain ⟨_, data, hchunk, _, hcase⟩ := ota_send_normal example_env _ _ _ s hsok
        simp only [Option.some.injEq] at hchunk
        subst hchunk
        rcases hcase with ⟨_, hv⟩ | ⟨heq, _, _⟩
        · have hst : (application_function_ota_send example_env (some 1) (some 0) (some [0])
              s).vars.ota_state = ota_writing := by
            rw [hv]
            exact h1
          have hdig : digest_inv (List.replicate (4096 * K + 1) 0)
              (application_function_ota_send example_env (some 1) (some 0) (some [0])
                s).vars := by
            unfold digest_inv
            rw [hv]
            show s.md5 ++ (s.buffer_4k ++ [0]) = _
            rw [h8, h2, List.nil_append]
            exact (List.replicate_add (4096 * K) 1 0).symm
          exact finish_reports_digest example_env _ _ hst hdig _ hfok
        · rw [h2] at heq
          simp at heq
      · obtain ⟨_, data, hchunk, _, hcase⟩ := ota_send_normal example_env _ _ _ s hsok
        simp only [Option.some.injEq] at hchunk
        subst hchunk
        rcases hcase with ⟨_, hv⟩ | ⟨heq, _, _⟩
        · have hst : (application_function_ota_send example_env (some 1) (some 0) (some [0])
              s).vars.ota_state = ota_writing := by
            rw [hv]
            exact h1
          obtain ⟨_, _, _, hv2⟩ := ota_finish_normal example_env _ _ hst hfok
          rw [hv2]
          dsimp only
          rw [hv]
          have hff : ota_final_flush example_env { s with buffer_4k := s.buffer_4k ++ [0] } =
              flash_write_verify example_env { s with buffer_4k := s.buffer_4k ++ [0] } := by
            simp [ota_final_flush]
          rw [hff]
          exact (zero_fwv { s with buffer_4k := s.buffer_4k ++ [0] } 1 h3 (by
            show s.buffer_4k ++ [0] = _
            rw [h2]
            rfl)).2.1
        · rw [h2] at heq
          simp at heq
    · simp at hrun
  · simp at hrun

/-- Every command of `example_long_sends` is a send-chunk. -/
theorem example_long_sends_all : example_long_sends.all ota_command.is_send = true := by
  rw [List.all_eq_true]
  intro c hc
  unfold example_long_sends at hc
  rw [List.mem_append] at hc
  rcases hc with hc | hc
  · rw [List.eq_of_mem_replicate hc]
    rfl
  · rw [List.mem_singleton] at hc
    rw [hc]
    rfl

/-- The example digest has one letter for each byte. -/
theorem example_md5_hex_length (data : List Nat) :
    (example_env.md5_hex data).length = data.length :=
  List.length_map _ _

/-! ## A flash chip that loses writes -/

/-- Over the chip that loses writes, holding zeros, the flush of a buffer that
is not all zero re-reads the erased sector. -/
theorem faulty_reread (s : ota_vars (Nat → Nat)) (hf : s.flash = (fun _ => 0))
    (hsec : s.flash_sector < 65536) (hlen : s.buffer_4k.length ≤ 0x1000)
    (hne : s.buffer_4k ≠ List.replicate s.buffer_4k.length 0) :
    fwv_reread example_env_faulty s = List.replicate s.buffer_4k.length 255 := by
  have hu : u32 (s.flash_sector * 0x1000) = s.flash_sector * 0x1000 := by
    unfold u32
    omega
  have hread : spi_flash_read example_env_faulty s.flash (s.flash_sector * 0x1000)
      s.buffer_4k.length = List.replicate s.buffer_4k.length 0 := by
    rw [hf]
    exact const_flash_read 0 (s.flash_sector * 0x1000) s.buffer_4k.length
  unfold fwv_reread flash_after_write_or_skip
  rw [hu, hread, if_pos hne]
  show spi_flash_read example_env_faulty
    (ideal_erase_sector s.flash (s.flash_sector % 0x10000)) _ _ = _
  unfold spi_flash_read
  apply List.ext_getElem
  · simp
  · intro i h1 h2
    simp only [List.length_map, List.length_range] at h1
    simp only [List.getElem_map, List.getElem_range, List.getElem_replicate]
    show ideal_erase_sector s.flash (s.flash_sector % 0x10000)
      (s.flash_sector * 0x1000 + i) = 255
    unfold ideal_erase_sector
    rw [if_pos (by omega)]

/-- Over the chip that loses writes, holding zeros, the flush of a buffer that
is neither all zero nor all `0xff` re-reads bytes that differ from the buffer. -/
theorem faulty_reread_ne (s : ota_vars (Nat → Nat)) (B : List Nat)
    (hf : s.flash = (fun _ => 0)) (hsec : s.flash_sector < 65536) (hB : s.buffer_4k = B)
    (hlen : B.length ≤ 0x1000) (h0 : B ≠ List.replicate B.length 0)
    (h255 : B ≠ List.replicate B.length 255) :
    fwv_reread example_env_faulty s ≠ s.buffer_4k := by
  subst hB
  rw [faulty_reread s hf hsec hlen h0]
  exact fun h => h255 h.symm

/-- The example buffer filled up to 4096 bytes with ones is neither all zero nor
all `0xff`. -/
theorem example_filled_buffer :
    ([1, 2, 3] ++ List.replicate 4093 1 : List Nat).length = 0x1000 ∧
    ([1, 2, 3] ++ List.replicate 4093 1 : List Nat) ≠
      List.replicate ([1, 2, 3] ++ List.replicate 4093 1 : List Nat).length 0 ∧
    ([1, 2, 3] ++ List.replicate 4093 1 : List Nat) ≠
      List.replicate ([1, 2, 3] ++ List.replicate 4093 1 : List Nat).length 255 := by
  have hlen : ([1, 2, 3] ++ List.replicate 4093 1 : List Nat).length = 4095 + 1 := by
    rw [List.length_append, List.length_replicate]
    rfl
  refine ⟨hlen, ?_, ?_⟩
  · rw [hlen, List.replicate_succ]
    intro hcon
    have := List.head_eq_of_cons_eq hcon
    omega
  · rw [hlen, List.replicate_succ]
    intro hcon
    have := List.head_eq_of_cons_eq hcon
    omega


/-! ## The frame of a write session, whatever its commands return -/

/-- With a correct flash driver, the bytes written read back. -/
theorem flash_correct_write_read {F : Type} (env : ota_env F) (hflash : flash_correct env)
    (g : F) (a : Nat) (B : List Nat) :
    spi_flash_read env (env.spi_flash_write g a B) a B.length = B := by
  unfold spi_flash_read
  apply List.ext_getElem
  · simp
  · intro i h1 h2
    simp only [List.getElem_map, List.getElem_range]
    rw [hflash.write]
    have hi : a ≤ a + i ∧ a + i < a + B.length := by omega
    rw [if_pos hi]
    simp [List.getD_eq_getElem?_getD, List.getElem?_eq_getElem h2]

/-- With a correct flash driver and a verify buffer of 4096 bytes,
`flash_write_verify` succeeds. -/
theorem fwv_verifies {F : Type} (env : ota_env F) (hflash : flash_correct env)
    (hd : ¬ env.dst_size < 0x1000) (s : ota_vars F) :
    (flash_write_verify env s).action = app_action_normal := by
  unfold flash_write_verify
  dsimp only
  by_cases h1 : s.buffer_4k =
      spi_flash_read env s.flash (u32 (s.flash_sector * 4096)) s.buffer_4k.length
  · simp only [hd, ← h1, ne_eq, not_true_eq_false, ↓reduceIte]
  · simp only [hd, h1, ne_eq, not_false_eq_true, ↓reduceIte]
    have hw : s.buffer_4k = spi_flash_read env
        (env.spi_flash_write
          (env.spi_flash_erase_sector s.flash (s.flash_sector % 65536))
          (u32 (s.flash_sector * 4096)) s.buffer_4k)
        (u32 (s.flash_sector * 4096)) s.buffer_4k.length :=
      (flash_correct_write_read env hflash _ _ _).symm
    simp only [← hw, not_true_eq_false, ↓reduceIte]

/-- With a verify buffer of fewer than 4096 bytes, `flash_write_verify` returns
an error and leaves every variable as it was. -/
theorem fwv_small_dst {F : Type} (env : ota_env F) (hd : env.dst_size < 0x1000)
    (s : ota_vars F) :
    (flash_write_verify env s).action = app_action_error ∧
    (flash_write_verify env s).vars = s := by
  unfold flash_write_verify
  simp [hd]

/-- The frame `frame_inv` depends on the flash chip and the cursor only. -/
theorem frame_inv_congr {F : Type} (env : ota_env F) (c0 : Nat) (f0 : F) (s v : ota_vars F)
    (hf : v.flash = s.flash) (hc : v.flash_sector = s.flash_sector)
    (h : frame_inv env c0 f0 s) : frame_inv env c0 f0 v := by
  unfold frame_inv at h ⊢
  rw [hf, hc]
  exact h

/-- With a correct flash driver, one `flash_write_verify` of a non-empty buffer
that ends inside the 32-bit address space keeps the cursor at or above `c0` and
keeps `frame_inv`; when it succeeds the buffer is empty and the cursor has
advanced by one. -/
theorem fwv_keeps_session {F : Type} (env : ota_env F) (hflash : flash_correct env)
    (c0 : Nat) (f0 : F) (s : ota_vars F) (hc0 : c0 ≤ s.flash_sector)
    (hfr : frame_inv env c0 f0 s) (hpos : 0 < s.buffer_4k.length)
    (hlen : s.buffer_4k.length ≤ 0x1000)
    (hfit : s.flash_sector * 0x1000 + s.buffer_4k.length ≤ 4294967296) :
    c0 ≤ (flash_write_verify env s).vars.flash_sector ∧
    frame_inv env c0 f0 (flash_write_verify env s).vars ∧
    ((flash_write_verify env s).action = app_action_normal →
      (flash_write_verify env s).vars.buffer_4k = [] ∧
      (flash_write_verify env s).vars.flash_sector = s.flash_sector + 1) := by
  by_cases hd : env.dst_size < 0x1000
  · obtain ⟨ha, hv⟩ := fwv_small_dst env hd s
    rw [hv, ha]
    exact ⟨hc0, hfr, by simp⟩
  · have hok := fwv_verifies env hflash hd s
    obtain ⟨n1, _, n3, _, _⟩ := fwv_normal env s hok
    have hcur : (flash_write_verify env s).vars.flash_sector = s.flash_sector + 1 := by
      rw [n1]
      unfold u32
      omega
    refine ⟨by omega, ?_, fun _ => ⟨n3, hcur⟩⟩
    intro sector i hi hout hmod
    rw [hcur] at hout hmod
    have hne : s.flash_sector % 0x10000 ≠ sector := hmod s.flash_sector hc0 (by omega)
    rw [fwv_flash_frame env hflash s (by omega) hlen (sector * 0x1000 + i) (by omega)
      (by omega)]
    exact hfr sector i hi (by omega) (fun c h1 h2 => hmod c h1 (by omega))

/-- What a send-chunk does to the session: it leaves the chip and the cursor as
they were, the state being inactive afterwards or the buffer of the writing
session extended by the payload to fewer than 4096 bytes; or the buffer extended by the payload holds
4096 bytes and is flushed, the state being that left by a successful flush or
inactive. -/
theorem ota_send_cases {F : Type} (env : ota_env F) (arg1 : Option Int) (arg2 : Option Nat)
    (chunk : Option (List Nat)) (s : ota_vars F) :
    ((application_function_ota_send env arg1 arg2 chunk s).vars.flash = s.flash ∧
      (application_function_ota_send env arg1 arg2 chunk s).vars.flash_sector =
        s.flash_sector ∧
      ((application_function_ota_send env arg1 arg2 chunk s).vars.ota_state = ota_inactive ∨
        s.ota_state = ota_writing ∧
        (application_function_ota_send env arg1 arg2 chunk s).vars.buffer_4k =
          s.buffer_4k ++ chunk.getD [] ∧
        (application_function_ota_send env arg1 arg2 chunk s).vars.buffer_4k.length <
          0x1000)) ∨
    (s.ota_state = ota_writing ∧ (s.buffer_4k ++ chunk.getD []).length = 0x1000 ∧
      (application_function_ota_send env arg1 arg2 chunk s).vars.flash =
        (flash_write_verify env
          { s with buffer_4k := s.buffer_4k ++ chunk.getD [] }).vars.flash ∧
      (application_function_ota_send env arg1 arg2 chunk s).vars.flash_sector =
        (flash_write_verify env
          { s with buffer_4k := s.buffer_4k ++ chunk.getD [] }).vars.flash_sector ∧
      ((application_function_ota_send env arg1 arg2 chunk s).vars.ota_state = ota_inactive ∨
        (flash_write_verify env
          { s with buffer_4k := s.buffer_4k ++ chunk.getD [] }).action = app_action_normal ∧
        (application_function_ota_send env arg1 arg2 chunk s).vars.buffer_4k =
          (flash_write_verify env
            { s with buffer_4k := s.buffer_4k ++ chunk.getD [] }).vars.buffer_4k)) := by
  unfold application_function_ota_send
  by_cases hs : s.ota_state = ota_writing
  · have hs' : ¬ (s.ota_state ≠ ota_writing) := by simp [hs]
    rw [if_neg hs']
    cases arg1 with
    | none => exact Or.inl ⟨rfl, rfl, Or.inl rfl⟩
    | some l =>
      cases arg2 with
      | none => exact Or.inl ⟨rfl, rfl, Or.inl rfl⟩
      | some crc =>
        cases chunk with
        | none => exact Or.inl ⟨rfl, rfl, Or.inl rfl⟩
        | some data =>
          dsimp only
          split
          · exact Or.inl ⟨rfl, rfl, Or.inl rfl⟩
          · split
            · exact Or.inl ⟨rfl, rfl, Or.inl rfl⟩
            · split
              · exact Or.inl ⟨rfl, rfl, Or.inl rfl⟩
              · split
                · rename_i heq
                  right
                  refine ⟨hs, heq, ?_⟩
                  split
                  · exact ⟨rfl, rfl, Or.inl rfl⟩
                  · rename_i hok
                    exact ⟨rfl, rfl, Or.inr ⟨not_not.mp hok, rfl⟩⟩
                · rename_i hgt heq
                  left
                  refine ⟨rfl, rfl, Or.inr ⟨hs, rfl, ?_⟩⟩
                  show (string_splice s.buffer_4k data).length < 0x1000
                  have h1 : ¬ ((string_splice s.buffer_4k data).length > 0x1000) := hgt
                  have h2 : ¬ ((string_splice s.buffer_4k data).length = 0x1000) := heq
                  omega
  · have hs' : s.ota_state ≠ ota_writing := hs
    rw [if_pos hs']
    exact Or.inl ⟨rfl, rfl, Or.inl rfl⟩

/-- What a finish does to the session: the state is not writing afterwards, and
it leaves the chip and the cursor as they were or as the flush of the non-empty
buffer of a writing session left them. -/
theorem ota_finish_cases {F : Type} (env : ota_env F) (arg1 : Option (List Char))
    (s : ota_vars F) :
    (application_function_ota_finish env arg1 s).vars.flash = s.flash ∧
      (application_function_ota_finish env arg1 s).vars.flash_sector = s.flash_sector ∨
    s.ota_state = ota_writing ∧ 0 < s.buffer_4k.length ∧
      (application_function_ota_finish env arg1 s).vars.flash =
        (flash_write_verify env s).vars.flash ∧
      (application_function_ota_finish env arg1 s).vars.flash_sector =
        (flash_write_verify env s).vars.flash_sector := by
  by_cases hb : s.buffer_4k.length > 0
  · have hff : ota_final_flush env s = flash_write_verify env s := by
      simp [ota_final_flush, hb]
    unfold application_function_ota_finish
    rw [hff]
    split
    · exact Or.inl ⟨rfl, rfl⟩
    · split
      · rename_i hw
        cases arg1 with
        | none => exact Or.inl ⟨rfl, rfl⟩
        | some m =>
          dsimp only
          right
          refine ⟨hw, hb, ?_⟩
          split
          · exact ⟨rfl, rfl⟩
          · split
            · exact ⟨rfl, rfl⟩
            · split
              · exact ⟨rfl, rfl⟩
              · exact ⟨rfl, rfl⟩
      · exact Or.inl ⟨rfl, rfl⟩
  · have hff : ota_final_flush env s = ⟨app_action_normal, .unchanged, s⟩ := by
      simp [ota_final_flush, hb]
    unfold application_function_ota_finish
    rw [hff]
    left
    split
    · exact ⟨rfl, rfl⟩
    · split
      · cases arg1 with
        | none => exact ⟨rfl, rfl⟩
        | some m =>
          dsimp only
          split
          · exact ⟨rfl, rfl⟩
          · split
            · exact ⟨rfl, rfl⟩
            · split
              · exact ⟨rfl, rfl⟩
              · exact ⟨rfl, rfl⟩
      · exact ⟨rfl, rfl⟩

/-- A start-read, a read-chunk and a commit leave the flash chip and the cursor
as they were; if the state is writing afterwards it was so before, and
`buffer_4k` is as it was. -/
theorem other_keeps_session {F : Type} (env : ota_env F) (s : ota_vars F) :
    (∀ scan : Bool,
      (application_function_ota_read env scan s).vars.flash = s.flash ∧
      (application_function_ota_read env scan s).vars.flash_sector = s.flash_sector ∧
      ((application_function_ota_read env scan s).vars.ota_state = ota_writing →
        s.ota_state = ota_writing ∧
        (application_function_ota_read env scan s).vars.buffer_4k = s.buffer_4k)) ∧
    (∀ arg1 arg2 : Option Nat,
      (application_function_ota_receive env arg1 arg2 s).vars.flash = s.flash ∧
      (application_function_ota_receive env arg1 arg2 s).vars.flash_sector = s.flash_sector ∧
      ((application_function_ota_receive env arg1 arg2 s).vars.ota_state = ota_writing →
        s.ota_state = ota_writing ∧
        (application_function_ota_receive env arg1 arg2 s).vars.buffer_4k = s.buffer_4k)) ∧
    ((application_function_ota_commit env s).vars.flash = s.flash ∧
      (application_function_ota_commit env s).vars.flash_sector = s.flash_sector ∧
      ((application_function_ota_commit env s).vars.ota_state = ota_writing →
        s.ota_state = ota_writing ∧
        (application_function_ota_commit env s).vars.buffer_4k = s.buffer_4k)) := by
  refine ⟨?_, ?_, ?_⟩
  · intro scan
    unfold application_function_ota_read
    split
    · exact ⟨rfl, rfl, fun h => ⟨h, rfl⟩⟩
    · split
      · exact ⟨rfl, rfl, fun h => ⟨h, rfl⟩⟩
      · exact ⟨rfl, rfl, fun h => absurd h (by simp)⟩
  · intro arg1 arg2
    unfold application_function_ota_receive
    split
    · exact ⟨rfl, rfl, fun h => absurd h (by simp)⟩
    · rename_i hs
      have hr : s.ota_state = ota_reading := not_not.mp hs
      have hnw : s.ota_state ≠ ota_writing := by simp [hr]
      cases arg1 with
      | none => exact ⟨rfl, rfl, fun h => absurd h hnw⟩
      | some a =>
        cases arg2 with
        | none => exact ⟨rfl, rfl, fun h => absurd h hnw⟩
        | some c =>
          dsimp only
          split
          · exact ⟨rfl, rfl, fun h => absurd h hnw⟩
          · exact ⟨rfl, rfl, fun h => absurd h hnw⟩
  · unfold application_function_ota_commit
    split
    · exact ⟨rfl, rfl, fun h => ⟨h, rfl⟩⟩
    · split
      · exact ⟨rfl, rfl, fun h => absurd h (by simp)⟩
      · rename_i hs
        have hr : s.ota_state = ota_successful := not_not.mp hs
        have hnw : s.ota_state ≠ ota_writing := by simp [hr]
        dsimp only
        split
        · exact ⟨rfl, rfl, fun h => absurd h (by simp)⟩
        · exact ⟨rfl, rfl, fun h => absurd h hnw⟩

/-- With a correct flash driver, a command other than start-write, whatever it
returns, keeps `session_inv`, the payload still to come shrinking by that of
the command. -/
theorem dispatch_keeps_session_inv {F : Type} (env : ota_env F) (hflash : flash_correct env)
    (c0 : Nat) (f0 : F) (R : Nat) (c : ota_command) (s : ota_vars F)
    (hc : c.is_write = false)
    (hinv : session_inv env c0 f0 (c.payload.length + R) s) :
    session_inv env c0 f0 R (ota_dispatch env c s).vars := by
  obtain ⟨hc0, hfr, hw⟩ := hinv
  have hother : ∀ v : ota_vars F, v.flash = s.flash → v.flash_sector = s.flash_sector →
      (v.ota_state = ota_writing → s.ota_state = ota_writing ∧ v.buffer_4k = s.buffer_4k) →
      session_inv env c0 f0 R v := by
    intro v h1 h2 h3
    refine ⟨by rw [h2]; exact hc0, frame_inv_congr env c0 f0 s v h1 h2 hfr, ?_⟩
    intro hst
    obtain ⟨hs, hb⟩ := h3 hst
    obtain ⟨hl, hfit⟩ := hw hs
    rw [h2, hb]
    exact ⟨hl, by omega⟩
  cases c with
  | ota_read scan =>
    obtain ⟨h1, h2, h3⟩ := (other_keeps_session env s).1 scan
    exact hother _ h1 h2 h3
  | ota_receive arg1 arg2 =>
    obtain ⟨h1, h2, h3⟩ := (other_keeps_session env s).2.1 arg1 arg2
    exact hother _ h1 h2 h3
  | ota_commit =>
    obtain ⟨h1, h2, h3⟩ := (other_keeps_session env s).2.2
    exact hother _ h1 h2 h3
  | ota_send arg1 arg2 chunk =>
    have hpay : (ota_command.ota_send arg1 arg2 chunk).payload = chunk.getD [] := by
      cases chunk <;> rfl
    rw [hpay] at hw
    simp only [ota_dispatch]
    rcases ota_send_cases env arg1 arg2 chunk s with ⟨h1, h2, h3⟩ | ⟨hs, heq, h1, h2, h3⟩
    · refine ⟨by rw [h2]; exact hc0, frame_inv_congr env c0 f0 s _ h1 h2 hfr, ?_⟩
      intro hst
      rcases h3 with h3 | ⟨hs, hb, hl⟩
      · rw [h3] at hst
        exact absurd hst (by decide)
      · obtain ⟨_, hfit⟩ := hw hs
        refine ⟨hl, ?_⟩
        rw [h2, hb, List.length_append]
        omega
    · obtain ⟨_, hfit⟩ := hw hs
      rw [List.length_append] at heq
      obtain ⟨k1, k2, k3⟩ := fwv_keeps_session env hflash c0 f0
        { s with buffer_4k := s.buffer_4k ++ chunk.getD [] } hc0
        (frame_inv_congr env c0 f0 s _ rfl rfl hfr)
        (by show 0 < (s.buffer_4k ++ chunk.getD []).length; rw [List.length_append]; omega)
        (by show (s.buffer_4k ++ chunk.getD []).length ≤ 0x1000
            rw [List.length_append]; omega)
        (by show s.flash_sector * 0x1000 + (s.buffer_4k ++ chunk.getD []).length ≤ 4294967296
            rw [List.length_append]; omega)
      refine ⟨by rw [h2]; exact k1, frame_inv_congr env c0 f0 _ _ h1 h2 k2, ?_⟩
      intro hst
      rcases h3 with h3 | ⟨hok, hb⟩
      · rw [h3] at hst
        exact absurd hst (by decide)
      · obtain ⟨e1, e2⟩ := k3 hok
        rw [hb, e1, h2, e2]
        refine ⟨by simp, ?_⟩
        show (s.flash_sector + 1) * 0x1000 + 0 + R ≤ 4294967296
        omega
  | ota_finish arg1 =>
    simp only [ota_dispatch]
    have hnw := ota_finish_not_writing env arg1 s
    rcases ota_finish_cases env arg1 s with ⟨h1, h2⟩ | ⟨hs, hb, h1, h2⟩
    · exact ⟨by rw [h2]; exact hc0, frame_inv_congr env c0 f0 s _ h1 h2 hfr,
        fun hst => absurd hst hnw⟩
    · obtain ⟨hl, hfit⟩ := hw hs
      obtain ⟨k1, k2, _⟩ := fwv_keeps_session env hflash c0 f0 s hc0 hfr hb (by omega)
        (by omega)
      exact ⟨by rw [h2]; exact k1, frame_inv_congr env c0 f0 _ _ h1 h2 k2,
        fun hst => absurd hst hnw⟩
  | ota_write scan arg1 arg2 => simp [ota_command.is_write] at hc

/-- With a correct flash driver, a sequence of commands other than start-write,
whatever each returns, keeps `session_inv`. -/
theorem run_keeps_session_inv {F : Type} (env : ota_env F) (hflash : flash_correct env)
    (c0 : Nat) (f0 : F) (cs : List ota_command) :
    ∀ s : ota_vars F, cs.all (fun c => !c.is_write) = true →
      session_inv env c0 f0 (ota_payloads cs).length s →
      session_inv env c0 f0 0 (ota_run env cs s) := by
  induction cs with
  | nil =>
    intro s _ hinv
    exact hinv
  | cons c cs ih =>
    intro s hall hinv
    simp only [List.all_cons, Bool.and_eq_true, Bool.not_eq_true'] at hall
    have hpay : ota_payloads (c :: cs) = c.payload ++ ota_payloads cs := by
      simp [ota_payloads]
    rw [hpay, List.length_append] at hinv
    have hrun : ota_run env (c :: cs) s = ota_run env cs (ota_dispatch env c s).vars := rfl
    rw [hrun]
    exact ih _ (by simpa using hall.2)
      (dispatch_keeps_session_inv env hflash c0 f0 _ c s hall.1 hinv)

/-- A start-write that succeeds at a start address that is not negative
establishes `session_inv` for the commands to come, when their payloads end
inside the 32-bit address space. -/
theorem write_start_session_inv {F : Type} (env : ota_env F) (scan : Bool)
    (arg1 : Option Nat) (arg2 : Option Int) (s0 : ota_vars F) (R : Nat)
    (hwok : (application_function_ota_write env scan arg1 arg2 s0).action = app_action_normal)
    (hnonneg : 0 ≤ (application_function_ota_write env scan arg1 arg2
      s0).vars.flash_start_address)
    (hfit : (application_function_ota_write env scan arg1 arg2
      s0).vars.flash_start_address.toNat + R ≤ 4294967296) :
    session_inv env (application_function_ota_write env scan arg1 arg2 s0).vars.flash_sector
      s0.flash R (application_function_ota_write env scan arg1 arg2 s0).vars := by
  obtain ⟨A, hAeq⟩ := Int.eq_ofNat_of_zero_le hnonneg
  obtain ⟨hA, hinv, _⟩ := write_start_inv env scan arg1 arg2 s0 A hwok hAeq
  obtain ⟨_, _, _, _, _, _, _, _, w9, _⟩ := ota_write_normal env scan arg1 arg2 s0 hwok
  rw [hAeq] at hfit
  simp only [Int.toNat_ofNat] at hfit
  obtain ⟨_, _, _, hbuf, k, hsec, hdt, hP⟩ := hinv
  have hlen := congrArg List.length hP
  rw [List.length_append, spi_flash_read_length, List.length_nil] at hlen
  refine ⟨le_refl _, ?_, fun _ => ⟨hbuf, ?_⟩⟩
  · intro sector i _ _ _
    rw [w9]
  · rw [hsec]
    omega

/-! ## The session of one sector more than the erase can tell apart -/

/-- The byte at offset `i` of a read. -/
theorem spi_flash_read_get {F : Type} (env : ota_env F) (f : F) (a n i : Nat) (h : i < n) :
    (spi_flash_read env f a n)[i]? = some (env.flash_byte f (a + i)) := by
  unfold spi_flash_read
  rw [List.getElem?_map, List.getElem?_range h]
  rfl

/-- The example flash chip is the function from addresses to bytes. -/
theorem example_flash_byte (f : Nat → Nat) (a : Nat) : example_env.flash_byte f a = f a :=
  rfl

/-- The stand-in CRC of `n` bytes of value 1 is `n`. -/
theorem wide_crc (n : Nat) : example_env.string_crc32 (List.replicate n 1) = n := by
  have h : ∀ (m a : Nat), List.foldl (fun a b => a + b) a (List.replicate m 1) = a + m := by
    intro m
    induction m with
    | zero =>
      intro a
      rfl
    | succ m ih =>
      intro a
      rw [List.replicate_succ, List.foldl_cons, ih]
      omega
  show List.foldl (fun a b => a + b) 0 (List.replicate n 1) = n
  rw [h]
  omega

/-- One chunk of 4096 bytes of value 1 at a cursor below `0x10000`, over flash
still zero from the cursor on, is written and keeps `wide_inv`. -/
theorem wide_send_step (k : Nat) (hk : k < 65536) (s : ota_vars (Nat → Nat))
    (h : wide_inv k s) :
    (ota_dispatch example_env example_wide_send s).action = app_action_normal ∧
    wide_inv (k + 1) (ota_dispatch example_env example_wide_send s).vars := by
  obtain ⟨h1, h2, h3, h4, h5, h6, h7, h8, h9, h10⟩ := h
  have hlen : example_wide_chunk.length = 4096 := List.length_replicate _ _
  have hB : s.buffer_4k ++ example_wide_chunk = example_wide_chunk := by
    rw [h2, List.nil_append]
  have hBlen : (s.buffer_4k ++ example_wide_chunk).length = 0x1000 := by
    rw [hB, hlen]
  have hf := example_fwv_normal { s with buffer_4k := s.buffer_4k ++ example_wide_chunk }
  obtain ⟨a1, a2⟩ := ota_send_flush example_env s 4096 4096 example_wide_chunk h1
    (by rw [hlen]; rfl) (by rw [show example_wide_chunk = List.replicate 4096 1 from rfl,
      wide_crc]) hBlen hf
  obtain ⟨n1, n2, n3, n4, n5⟩ := fwv_normal example_env _ hf
  have hfr := fwv_frame example_env { s with buffer_4k := s.buffer_4k ++ example_wide_chunk }
  have hframe := fwv_flash_frame example_env example_flash_correct
    { s with buffer_4k := s.buffer_4k ++ example_wide_chunk }
    (by show s.flash_sector * 0x1000 < 4294967296; omega) (le_of_eq hBlen)
  simp only [ota_dispatch, example_wide_send]
  refine ⟨a1, ?_⟩
  rw [a2]
  refine ⟨hfr.1.trans h1, n3, ?_, ?_, hfr.2.1.trans h5, hfr.2.2.2.1.trans h6,
    hfr.2.2.2.2.1.trans h7, ?_, ?_, ?_⟩
  · rw [n1]
    show u32 (s.flash_sector + 1) = k + 1
    rw [h3]
    unfold u32
    omega
  · rw [n2]
    show u32 (s.data_transferred + (s.buffer_4k ++ example_wide_chunk).length) = 4096 * (k + 1)
    rw [h4, hBlen]
    unfold u32
    omega
  · rw [n4]
    show s.md5 ++ (s.buffer_4k ++ example_wide_chunk) = List.replicate (4096 * (k + 1)) 1
    rw [hB, h8]
    exact (List.replicate_add (4096 * k) 4096 1).symm
  · intro _
    by_cases hk0 : k = 0
    · have hget := congrArg (fun l => l[0]?) n5
      simp only at hget
      rw [spi_flash_read_get example_env _ _ _ 0
        (by show 0 < (s.buffer_4k ++ example_wide_chunk).length; omega)] at hget
      have haddr : u32 (s.flash_sector * 0x1000) + 0 = 0 := by
        rw [h3, hk0]
        rfl
      have hb0 : (s.buffer_4k ++ example_wide_chunk)[0]? = some 1 := by
        rw [hB]
        show (List.replicate 4096 1)[0]? = some 1
        rw [List.getElem?_replicate]
        rfl
      have hget' : some ((flash_write_verify example_env
          { s with buffer_4k := s.buffer_4k ++ example_wide_chunk }).vars.flash
          (u32 (s.flash_sector * 0x1000) + 0)) = (s.buffer_4k ++ example_wide_chunk)[0]? := hget
      rw [haddr, hb0] at hget'
      exact Option.some.inj hget'
    · have := hframe 0 (by left; show 0 < s.flash_sector * 0x1000; omega)
        (by left; show 0 < s.flash_sector % 0x10000 * 0x1000; omega)
      exact this.trans (h9 (by omega))
  · intro a ha
    have := hframe a (by right; show s.flash_sector * 0x1000 + 0x1000 ≤ a; omega)
      (by right; show s.flash_sector % 0x10000 * 0x1000 + 0x1000 ≤ a; omega)
    exact this.trans (h10 a (by omega))

/-- Chunks of 4096 bytes of value 1 up to the cursor `0x10000` succeed and keep
`wide_inv`. -/
theorem wide_sends_run (n : Nat) (rest : List ota_command) :
    ∀ (k : Nat) (s : ota_vars (Nat → Nat)), wide_inv k s → k + n ≤ 65536 →
      ∃ s2, wide_inv (k + n) s2 ∧
        ota_run_normal example_env (List.replicate n example_wide_send ++ rest) s =
          ota_run_normal example_env rest s2 := by
  induction n with
  | zero =>
    intro k s h _
    exact ⟨s, h, rfl⟩
  | succ n ih =>
    intro k s h hk
    obtain ⟨hok, hinv⟩ := wide_send_step k (by omega) s h
    obtain ⟨s2, h2, hrun⟩ := ih (k + 1) _ hinv (by omega)
    refine ⟨s2, ?_, ?_⟩
    · have : k + (n + 1) = k + 1 + n := by omega
      rw [this]
      exact h2
    · rw [List.replicate_succ, List.cons_append, ota_run_normal, if_pos hok]
      exact hrun

/-- The payloads of chunks of 4096 bytes of value 1. -/
theorem wide_payloads (n : Nat) (rest : List ota_command) :
    ota_payloads (List.replicate n example_wide_send ++ rest) =
      List.replicate (4096 * n) 1 ++ ota_payloads rest := by
  induction n with
  | zero => simp
  | succ n ih =>
    rw [List.replicate_succ, List.cons_append]
    have : ota_payloads (example_wide_send :: (List.replicate n example_wide_send ++ rest)) =
        example_wide_chunk ++ ota_payloads (List.replicate n example_wide_send ++ rest) := by
      simp [ota_payloads, example_wide_send, ota_command.payload]
    have hn : 4096 * (n + 1) = 4096 + 4096 * n := by omega
    rw [this, ih, ← List.append_assoc, hn, List.replicate_add]
    rfl

/-- The payloads of `example_wide_sends` are `2 ^ 28 + 1` bytes of value 1. -/
theorem example_wide_payloads :
    ota_payloads example_wide_sends = List.replicate 268435457 1 := by
  unfold example_wide_sends
  rw [wide_payloads]
  exact (List.replicate_add (4096 * 65536) 1 1).symm

/-- Every command of `example_wide_sends` is a send-chunk. -/
theorem example_wide_sends_all : example_wide_sends.all ota_command.is_send = true := by
  rw [List.all_eq_true]
  intro c hc
  unfold example_wide_sends at hc
  rw [List.mem_append] at hc
  rcases hc with hc | hc
  · rw [List.eq_of_mem_replicate hc]
    rfl
  · rw [List.mem_singleton] at hc
    rw [hc]
    rfl

/-- A finish received while writing with a non-empty `buffer_4k` whose flush
succeeds, leaves the byte count equal to the declared length and the digest
equal to the reference digest, succeeds. -/
theorem ota_finish_flush {F : Type} (env : ota_env F) (s : ota_vars F)
    (hs : s.ota_state = ota_writing) (hb : s.buffer_4k.length > 0)
    (hf : (flash_write_verify env s).action = app_action_normal)
    (hsz : (flash_write_verify env s).vars.remote_file_length =
      (flash_write_verify env s).vars.data_transferred) :
    (application_function_ota_finish env
      (some (env.md5_hex (flash_write_verify env s).vars.md5)) s).action =
      app_action_normal := by
  have hff : ota_final_flush env s = flash_write_verify env s := by
    simp [ota_final_flush, hb]
  unfold application_function_ota_finish
  have c1 : ¬ (s.ota_state = ota_reading) := by simp [hs]
  rw [if_neg c1, if_pos hs]
  dsimp only
  rw [hff]
  have c3 : ¬ (s.buffer_4k.length > 0 ∧
      (flash_write_verify env s).action ≠ app_action_normal) := by
    simp [hf]
  have c4 : ¬ ((flash_write_verify env s).vars.remote_file_length ≠
      (flash_write_verify env s).vars.data_transferred) := by
    simp [hsz]
  have c5 : ¬ (string_match_string (env.md5_hex (flash_write_verify env s).vars.md5)
      (env.md5_hex (flash_write_verify env s).vars.md5) = false) := by
    simp [string_match_string]
  rw [if_neg c3, if_neg c4, if_neg c5]

/-- The end of the wide session: at the cursor `0x10000` the last chunk of one
byte is buffered, and the finish flushes it at the address `0x10000000`, erasing
sector 0, and succeeds, reporting the digest of all the bytes sent. -/
theorem wide_tail (s : ota_vars (Nat → Nat)) (h : wide_inv 65536 s) :
    ∃ s1, ota_run_normal example_env [.ota_send (some 1) (some 1) (some [1])] s = some s1 ∧
      (application_function_ota_finish example_env (some example_wide_digest) s1).action =
        app_action_normal ∧
      (application_function_ota_finish example_env (some example_wide_digest)
        s1).dst.local_digest = some example_wide_digest ∧
      (application_function_ota_finish example_env (some example_wide_digest)
        s1).vars.flash 0 = 0xff ∧
      (application_function_ota_finish example_env (some example_wide_digest)
        s1).vars.flash_start_address = 0 ∧
      (application_function_ota_finish example_env (some example_wide_digest)
        s1).vars.remote_file_length = 268435457 := by
  obtain ⟨h1, h2, h3, h4, h5, h6, h7, h8, h9, h10⟩ := h
  have hsend : application_function_ota_send example_env (some 1) (some 1) (some [1]) s =
      ⟨app_action_normal, .ACK s.data_transferred, { s with buffer_4k := [1] }⟩ := by
    unfold application_function_ota_send
    have c1 : ¬ (s.ota_state ≠ ota_writing) := by simp [h1]
    have c4 : ¬ ((string_splice s.buffer_4k [1]).length > 0x1000) := by
      simp [string_splice, h2]
    have c5 : ¬ ((string_splice s.buffer_4k [1]).length = 0x1000) := by
      simp [string_splice, h2]
    have c6 : string_splice s.buffer_4k [1] = [1] := by simp [string_splice, h2]
    rw [if_neg c1]
    dsimp only
    rw [if_neg (by decide), if_neg (by decide), if_neg c4, if_neg c5, c6]
  have hf := example_fwv_normal { s with buffer_4k := [1] }
  obtain ⟨n1, n2, n3, n4, n5⟩ := fwv_normal example_env _ hf
  have hfr := fwv_frame example_env { s with buffer_4k := [1] }
  have hdt : (flash_write_verify example_env { s with buffer_4k := [1] }).vars.data_transferred
      = 268435457 := by
    rw [n2]
    show u32 (s.data_transferred + 1) = 268435457
    rw [h4]
    rfl
  have hmd5 : (flash_write_verify example_env { s with buffer_4k := [1] }).vars.md5 =
      List.replicate 268435457 1 := by
    rw [n4]
    show s.md5 ++ [1] = List.replicate 268435457 1
    rw [h8]
    exact (List.replicate_add (4096 * 65536) 1 1).symm
  have hdig : example_wide_digest = example_env.md5_hex
      (flash_write_verify example_env { s with buffer_4k := [1] }).vars.md5 := by
    rw [hmd5]
    rfl
  have hfok : (application_function_ota_finish example_env (some example_wide_digest)
      { s with buffer_4k := [1] }).action = app_action_normal := by
    rw [hdig]
    exact ota_finish_flush example_env ({ s with buffer_4k := [1] } : ota_vars (Nat → Nat))
      h1 (show ([1] : List Nat).length > 0 by decide) hf (by rw [hdt, hfr.2.1]; exact h5)
  obtain ⟨_, _, _, hv⟩ := ota_finish_normal example_env _ { s with buffer_4k := [1] } h1 hfok
  have hff : ota_final_flush example_env { s with buffer_4k := [1] } =
      flash_write_verify example_env { s with buffer_4k := [1] } := by
    simp [ota_final_flush]
  rw [hff] at hv
  refine ⟨{ s with buffer_4k := [1] }, ?_, hfok, ?_, ?_, ?_, ?_⟩
  · simp only [ota_run_normal, ota_dispatch, hsend, ↓reduceIte]
  · have hd : digest_inv (List.replicate 268435457 1)
        ({ s with buffer_4k := [1] } : ota_vars (Nat → Nat)) := by
      unfold digest_inv
      show s.md5 ++ [1] = List.replicate 268435457 1
      rw [h8]
      exact (List.replicate_add (4096 * 65536) 1 1).symm
    exact finish_reports_digest example_env (List.replicate 268435457 1)
      ({ s with buffer_4k := [1] } : ota_vars (Nat → Nat)) h1 hd _ hfok
  · rw [hv]
    show (flash_write_verify example_env { s with buffer_4k := [1] }).vars.flash 0 = 0xff
    rcases fwv_flash example_env { s with buffer_4k := [1] } with hfl | hfl
    · exfalso
      have hget := congrArg (fun l => l[0]?) n5
      simp only at hget
      rw [spi_flash_read_get example_env _ _ _ 0 (by decide), hfl] at hget
      have haddr : u32 (({ s with buffer_4k := [1] } : ota_vars (Nat → Nat)).flash_sector *
          0x1000) + 0 = 268435456 := by
        show u32 (s.flash_sector * 0x1000) + 0 = 268435456
        rw [h3]
        rfl
      rw [haddr] at hget
      have hz : s.flash 268435456 = 0 := h10 268435456 (by omega)
      have hget' : some (s.flash 268435456) = some 1 := hget
      rw [hz] at hget'
      exact absurd hget' (by decide)
    · rw [hfl]
      show ideal_write (ideal_erase_sector s.flash (s.flash_sector % 0x10000))
        (u32 (s.flash_sector * 0x1000)) [1] 0 = 0xff
      rw [h3]
      unfold ideal_write ideal_erase_sector
      rw [if_neg (by decide), if_pos (by decide)]
  · rw [hv]
    exact hfr.2.2.2.1.trans h6
  · rw [hv]
    exact hfr.2.1.trans h5

/-- The wide session up to its finish: the start-write and all the send-chunks
succeed, and the finish succeeds, reports the digest of the bytes sent and
leaves `0xff` at address 0. -/
theorem wide_session_run :
    ∃ s1, ota_run_normal example_env example_wide_start example_initial = some s1 ∧
      (application_function_ota_finish example_env (some example_wide_digest) s1).action =
        app_action_normal ∧
      (application_function_ota_finish example_env (some example_wide_digest)
        s1).dst.local_digest = some example_wide_digest ∧
      (application_function_ota_finish example_env (some example_wide_digest)
        s1).vars.flash 0 = 0xff ∧
      (application_function_ota_finish example_env (some example_wide_digest)
        s1).vars.flash_start_address = 0 ∧
      (application_function_ota_finish example_env (some example_wide_digest)
        s1).vars.remote_file_length = 268435457 := by
  have hw : (application_function_ota_write example_env false (some 268435457) (some 0)
      example_initial).action = app_action_normal := by decide
  have hinv0 : wide_inv 0 (application_function_ota_write example_env false (some 268435457)
      (some 0) example_initial).vars := by
    refine ⟨by decide, by decide, by decide, by decide, by decide, by decide, by decide,
      by decide, fun h => absurd h (by decide), fun a _ => rfl⟩
  obtain ⟨s2, hinv2, hrun2⟩ := wide_sends_run 65536
    [.ota_send (some 1) (some 1) (some [1])] 0 _ hinv0 (by decide)
  obtain ⟨s1, hrun3, rest⟩ := wide_tail s2 hinv2
  refine ⟨s1, ?_, rest⟩
  unfold example_wide_start example_wide_sends
  rw [ota_run_normal]
  simp only [ota_dispatch]
  rw [if_pos hw, hrun2]
  exact hrun3

/-- The read-chunks `example_reads a n` cover `1024 * n` bytes from `a` on. -/
theorem example_reads_cover (n : Nat) (rest : List ota_command) (e : Nat) :
    ∀ a : Nat, ota_reads_cover a (example_reads a n ++ rest) e =
      ota_reads_cover (a + 1024 * n) rest e := by
  induction n with
  | zero =>
    intro a
    rfl
  | succ n ih =>
    intro a
    rw [example_reads, List.cons_append, ota_reads_cover, ih]
    have h : a + 1024 + 1024 * n = a + 1024 * (n + 1) := by omega
    rw [h]
    simp

/-- The read-chunks `example_wide_reads` cover the `2 ^ 28 + 1` bytes from
address 0. -/
theorem example_wide_reads_cover :
    ota_reads_cover 0 example_wide_reads (0 + 268435457) = true := by
  unfold example_wide_reads
  rw [example_reads_cover]
  decide

/-- The first letter of the example digest comes from the first byte. -/
theorem example_md5_hex_head (data : List Nat) :
    (example_env.md5_hex data)[0]? =
      data[0]?.map (fun b => Char.ofNat (97 + b % 16)) :=
  List.getElem?_map _ _ _

/-- The whole wide session succeeds and leaves `0xff` at address 0, the start
address 0 and the declared length `2 ^ 28 + 1`. -/
theorem wide_session_final :
    ota_run_normal example_env example_wide_session example_initial =
      some (ota_run example_env example_wide_session example_initial) ∧
    (ota_run example_env example_wide_session example_initial).flash 0 = 0xff ∧
    (ota_run example_env example_wide_session example_initial).flash_start_address = 0 ∧
    (ota_run example_env example_wide_session example_initial).remote_file_length =
      268435457 := by
  obtain ⟨s1, hrun, hfok, _, hfl, ha, hn⟩ := wide_session_run
  have hall : ota_run_normal example_env example_wide_session example_initial =
      some (application_function_ota_finish example_env (some example_wide_digest) s1).vars := by
    unfold example_wide_session
    rw [ota_run_normal_append, hrun]
    show ota_run_normal example_env [.ota_finish (some example_wide_digest)] s1 = _
    simp only [ota_run_normal, ota_dispatch]
    rw [if_pos hfok]
  have hrun' := ota_run_of_normal example_env _ _ _ hall
  rw [hrun']
  exact ⟨hall, hfl, ha, hn⟩


/-! ## The claims -/

/-- C1, counterexample to the claim as stated.  With the correct flash driver of
`example_env` and start address 0, the session `example_long_session` starts
successfully, sends `2 ^ 20` chunks of 4096 zero bytes and one chunk of one zero
byte, all accepted, and finishes successfully although it declared a file length
of one byte: the 32-bit counter `data_transferred` has wrapped from `2 ^ 32 + 1`
to 1.  The flash bytes in `[flash_start_address, flash_start_address +
remote_file_length)` are one byte, the concatenation of the accepted payloads
is `2 ^ 32 + 1` bytes.  The session `example_wide_session`, also at start
address 0, declares and sends `2 ^ 28 + 1` bytes of value 1 in `0x10000` chunks
of 4096 bytes and one chunk of one byte, all accepted, and finishes
successfully, no counter having wrapped.  Its last flush, at the cursor value
`0x10000`, erases the sector `0x10000 % 0x10000`, that is sector 0, which the
session had written first: the byte at the start address reads `0xff` and the
flash bytes in `[flash_start_address, flash_start_address +
remote_file_length)` are not the payloads. -/
theorem C1_long_session_wraps :
    flash_correct example_env ∧
    example_long_sends.all ota_command.is_send = true ∧
    ota_run_normal example_env example_long_session example_initial =
      some (ota_run example_env example_long_session example_initial) ∧
    (ota_run example_env example_long_session example_initial).flash_start_address = 0 ∧
    (ota_run example_env example_long_session example_initial).remote_file_length = 1 ∧
    (ota_payloads example_long_sends).length = 4294967297 ∧
    spi_flash_read example_env
      (ota_run example_env example_long_session example_initial).flash 0 1 ≠
      ota_payloads example_long_sends ∧
    example_wide_sends.all ota_command.is_send = true ∧
    ota_run_normal example_env example_wide_session example_initial =
      some (ota_run example_env example_wide_session example_initial) ∧
    (ota_run example_env example_wide_session example_initial).flash_start_address = 0 ∧
    (ota_run example_env example_wide_session example_initial).remote_file_length =
      268435457 ∧
    ota_payloads example_wide_sends = List.replicate 268435457 1 ∧
    (ota_run example_env example_wide_session example_initial).flash 0 = 0xff ∧
    spi_flash_read example_env
      (ota_run example_env example_wide_session example_initial).flash 0 268435457 ≠
      ota_payloads example_wide_sends := by
  have hw : (application_function_ota_write example_env false (some 1) (some 0)
      example_initial).action = app_action_normal := by decide
  have hinv0 : zero_inv 0 (application_function_ota_write example_env false (some 1) (some 0)
      example_initial).vars := by
    refine ⟨by decide, by decide, rfl, by decide, by decide, by decide, by decide, by decide⟩
  obtain ⟨s2, hinv2, hrun2⟩ := zero_sends_run 1048576
    [.ota_send (some 1) (some 0) (some [0]),
      .ota_finish (some (example_env.md5_hex (List.replicate 4294967297 0)))] 0 _ hinv0
  obtain ⟨s', hrun3, ha, hn⟩ := zero_tail_run (0 + 1048576) s2 hinv2 (by decide)
  have hrun : ota_run_normal example_env example_long_session example_initial = some s' := by
    unfold example_long_session example_long_sends
    rw [List.cons_append, ota_run_normal]
    simp only [ota_dispatch]
    rw [if_pos hw, List.append_assoc]
    simp only [List.singleton_append]
    rw [hrun2]
    exact hrun3
  have hlen : (ota_payloads example_long_sends).length = 4294967297 := by
    unfold example_long_sends
    rw [zero_payloads]
    rfl
  have hrun' := ota_run_of_normal example_env _ _ _ hrun
  refine ⟨example_flash_correct, ?_, ?_, ?_, ?_, hlen, ?_, ?_⟩
  · rw [List.all_eq_true]
    intro c hc
    unfold example_long_sends at hc
    rw [List.mem_append] at hc
    rcases hc with hc | hc
    · rw [List.eq_of_mem_replicate hc]
      rfl
    · rw [List.mem_singleton] at hc
      rw [hc]
      rfl
  · rw [hrun']
    exact hrun
  · rw [hrun']
    exact ha
  · rw [hrun']
    exact hn
  · intro hcon
    have := congrArg List.length hcon
    rw [spi_flash_read_length, hlen] at this
    omega
  · obtain ⟨w1, w2, w3, w4⟩ := wide_session_final
    refine ⟨example_wide_sends_all, w1, w3, w4, example_wide_payloads, w2, ?_⟩
    intro hcon
    have hget := congrArg (fun l => l[0]?) hcon
    simp only at hget
    rw [spi_flash_read_get example_env _ _ _ 0 (by decide), example_wide_payloads,
      List.getElem?_replicate] at hget
    rw [example_flash_byte, Nat.add_zero, w2] at hget
    exact absurd hget (by decide)

/-- C1, as amended.  With a correct flash driver, take a session made of a
start-write that returns success and leaves a non-negative start address
(aligned, since start-write succeeded), send-chunk commands that all return
success, and a finish that returns success.  If the payloads together are at
most `2 ^ 28` bytes, that is at most `0x10000` sectors, so that the sector
index modulo `0x10000` which the erase receives never names a sector the
session has already written, and the region from the start address over their
total length lies inside the 32-bit address space, then the start address and
the declared length are still those of the start-write, the declared length is
the total payload length, and the flash bytes in `[flash_start_address,
flash_start_address + remote_file_length)` are the payloads of the chunks,
concatenated in order. -/
theorem C1_write_session_flash {F : Type} (env : ota_env F) (hflash : flash_correct env)
    (s0 s' : ota_vars F) (wlan_scan_active : Bool) (arg1 : Option Nat) (arg2 : Option Int)
    (sends : List ota_command) (md5 : Option (List Char))
    (hsends : sends.all ota_command.is_send = true)
    (hrun : ota_run_normal env
      (.ota_write wlan_scan_active arg1 arg2 :: sends ++ [.ota_finish md5]) s0 = some s')
    (hnonneg : 0 ≤ (application_function_ota_write env wlan_scan_active arg1 arg2
      s0).vars.flash_start_address)
    (hfit : (application_function_ota_write env wlan_scan_active arg1 arg2
      s0).vars.flash_start_address.toNat + (ota_payloads sends).length ≤ 4294967296)
    (hlt : (ota_payloads sends).length ≤ 268435456) :
    s'.flash_start_address =
      (application_function_ota_write env wlan_scan_active arg1 arg2 s0).vars.flash_start_address ∧
    s'.remote_file_length =
      (application_function_ota_write env wlan_scan_active arg1 arg2 s0).vars.remote_file_length ∧
    s'.remote_file_length = (ota_payloads sends).length ∧
    spi_flash_read env s'.flash s'.flash_start_address.toNat s'.remote_file_length =
      ota_payloads sends := by
  simp only [List.cons_append, ota_run_normal, ota_dispatch] at hrun
  split at hrun
  · rename_i hwok
    obtain ⟨w1, w2, w3, _, _, _, w7, w8, _, _, _, _, w13⟩ :=
      ota_write_normal env wlan_scan_active arg1 arg2 s0 hwok
    generalize (application_function_ota_write env wlan_scan_active arg1 arg2 s0).vars = w
      at hrun hnonneg hfit w1 w2 w3 w7 w8 w13 ⊢
    obtain ⟨A, hAeq⟩ := Int.eq_ofNat_of_zero_le hnonneg
    rw [hAeq] at hfit w7 w8 w13 ⊢
    simp only [Int.toNat_ofNat] at hfit ⊢
    have hbits : int_bits (A : Int) = A := by
      unfold int_bits
      omega
    have hA : A % 0x1000 = 0 := by
      rw [hbits] at w8
      have := Nat.and_pow_two_sub_one_eq_mod A 12
      norm_num at this
      rw [← this]
      exact w8
    have hdiv : Int.tdiv (A : Int) 0x1000 = ((A / 0x1000 : Nat) : Int) := rfl
    have hsec : w.flash_sector = A / 0x1000 + 0 := by
      rw [w7, hdiv]
      unfold int_bits
      omega
    have hinv : write_inv env A w.remote_file_length [] w := by
      refine ⟨w1, hAeq, rfl, ?_, 0, hsec, ?_, ?_⟩
      · rw [w2]
        decide
      · rw [w3]
      · rw [w2]
        simp [spi_flash_read]
    obtain ⟨s2, hinv2, hrun2⟩ := sends_keep_write_inv env hflash A w.remote_file_length hA
      sends [.ota_finish md5] [] w s' hinv hsends (by simpa using hfit) (by simpa using hlt) hrun
    simp only [ota_run_normal, ota_dispatch] at hrun2
    split at hrun2
    · rename_i hfok
      simp only [Option.some.injEq] at hrun2
      subst hrun2
      simp only [List.nil_append] at hinv2
      obtain ⟨f1, f2, f3, f4⟩ := finish_completes_write_inv env hflash A w.remote_file_length hA
        (ota_payloads sends) s2 hinv2 md5 hfit hlt hfok
      refine ⟨f1, f2, f2.trans f3, ?_⟩
      rw [f1, f2]
      simpa using f4
    · simp at hrun2
  · simp at hrun

/-- C1, witness: the amended claim at `example_session`, which writes the three
bytes 1, 2, 3 to the inactive slot at `0x102000`. -/
theorem C1_write_session_flash_witness :
    flash_correct example_env ∧
    ota_run_normal example_env example_session example_initial = some example_successful ∧
    example_successful.flash_start_address = 0x102000 ∧
    example_successful.remote_file_length = 3 ∧
    spi_flash_read example_env example_successful.flash 0x102000 3 = [1, 2, 3] :=
  have h := C1_write_session_flash example_env example_flash_correct example_initial
    example_successful false (some 3) none [.ota_send (some 3) (some 6) (some [1, 2, 3])]
    (some ['b', 'c', 'd']) (by decide)
    (ota_run_normal_eq example_env example_session example_initial (by decide))
    (by decide) (by decide) (by decide)
  ⟨example_flash_correct,
    ota_run_normal_eq example_env example_session example_initial (by decide),
    h.1.trans (by decide), h.2.1.trans (by decide),
    (by
      have h4 := h.2.2.2
      have e1 : example_successful.flash_start_address.toNat = 0x102000 := by decide
      have e2 : example_successful.remote_file_length = 3 := by decide
      rw [e1, e2] at h4
      exact h4)⟩

/-- C2.  A send-chunk received while writing whose declared length, declared CRC
and payload all parse, and whose payload length differs from the declared
length or whose computed CRC differs from the declared CRC, returns an error,
sets the state to inactive and leaves `buffer_4k` as it was; a 10-byte payload
declaring length 12 is answered with the chunk-length-mismatch message. -/
theorem C2_send_mismatch_rejected {F : Type} (env : ota_env F) (s : ota_vars F)
    (remote_chunk_length : Int) (remote_crc : Nat) (data : List Nat)
    (hs : s.ota_state = ota_writing)
    (hbad : (data.length : Int) ≠ remote_chunk_length ∨
      u32 (env.string_crc32 data) ≠ u32 remote_crc) :
    (application_function_ota_send env (some remote_chunk_length) (some remote_crc)
        (some data) s).action = app_action_error ∧
    (application_function_ota_send env (some remote_chunk_length) (some remote_crc)
        (some data) s).vars.ota_state = ota_inactive ∧
    (application_function_ota_send env (some remote_chunk_length) (some remote_crc)
        (some data) s).vars.buffer_4k = s.buffer_4k ∧
    (data.length = 10 → remote_chunk_length = 12 →
      (application_function_ota_send env (some remote_chunk_length) (some remote_crc)
        (some data) s).dst = ota_reply.send_chunk_length_mismatch 12 10) := by
  unfold application_function_ota_send
  by_cases hlen : (data.length : Int) = remote_chunk_length
  · have hcrc : u32 (env.string_crc32 data) ≠ u32 remote_crc := by
      rcases hbad with h | h
      · exact absurd hlen h
      · exact h
    simp [hs, hlen, hcrc]
    intro h10 h12
    omega
  · simp [hs, hlen]
    intro h10 h12
    simp [h10, h12]

/-- C2, witness: a 10-byte payload declaring length 12, received after one
accepted chunk of three bytes. -/
theorem C2_send_mismatch_rejected_witness :
    example_buffered.ota_state = ota_writing ∧
    (application_function_ota_send example_env (some 12) (some 45)
      (some [0, 1, 2, 3, 4, 5, 6, 7, 8, 9]) example_buffered).action = app_action_error ∧
    (application_function_ota_send example_env (some 12) (some 45)
      (some [0, 1, 2, 3, 4, 5, 6, 7, 8, 9]) example_buffered).vars.ota_state = ota_inactive ∧
    (application_function_ota_send example_env (some 12) (some 45)
      (some [0, 1, 2, 3, 4, 5, 6, 7, 8, 9]) example_buffered).vars.buffer_4k = [1, 2, 3] ∧
    (application_function_ota_send example_env (some 12) (some 45)
      (some [0, 1, 2, 3, 4, 5, 6, 7, 8, 9]) example_buffered).dst =
      ota_reply.send_chunk_length_mismatch 12 10 :=
  have h := C2_send_mismatch_rejected example_env example_buffered 12 45
    [0, 1, 2, 3, 4, 5, 6, 7, 8, 9] (by decide) (Or.inl (by decide))
  ⟨by decide, h.1, h.2.1, h.2.2.1.trans (by decide), h.2.2.2 rfl rfl⟩

/-- C3.  For a finish received while writing: if it returns success then, after
the final flush, `data_transferred` equals `remote_file_length`; and if the
reference digest parses, the final flush succeeds and `data_transferred` then
differs from `remote_file_length`, finish returns an error with the
file-size-differs message and the state becomes inactive. -/
theorem C3_finish_file_size {F : Type} (env : ota_env F) (s : ota_vars F)
    (arg1 : Option (List Char)) (hs : s.ota_state = ota_writing) :
    ((application_function_ota_finish env arg1 s).action = app_action_normal →
      (ota_final_flush env s).vars.data_transferred =
        (ota_final_flush env s).vars.remote_file_length ∧
      (application_function_ota_finish env arg1 s).vars.data_transferred =
        (application_function_ota_finish env arg1 s).vars.remote_file_length) ∧
    (∀ remote_md5_string : List Char, arg1 = some remote_md5_string →
      (ota_final_flush env s).action = app_action_normal →
      (ota_final_flush env s).vars.data_transferred ≠
        (ota_final_flush env s).vars.remote_file_length →
      (application_function_ota_finish env arg1 s).action = app_action_error ∧
      (application_function_ota_finish env arg1 s).dst =
        ota_reply.finish_file_size_differs (ota_final_flush env s).vars.remote_file_length
          (ota_final_flush env s).vars.data_transferred ∧
      (application_function_ota_finish env arg1 s).vars.ota_state = ota_inactive) := by
  unfold application_function_ota_finish
  simp only [hs]
  refine ⟨?_, ?_⟩
  · intro h
    cases arg1 with
    | none => simp at h
    | some m =>
      by_cases hfl : s.buffer_4k.length > 0 ∧ (ota_final_flush env s).action ≠ app_action_normal
      · simp [hfl] at h
      · by_cases hsz : (ota_final_flush env s).vars.remote_file_length =
            (ota_final_flush env s).vars.data_transferred
        · by_cases hm : string_match_string (env.md5_hex (ota_final_flush env s).vars.md5) m = false
          · simp [hfl, hsz, hm] at h
          · simp [hfl, hsz, hm]
        · simp [hfl, hsz] at h
  · intro m hm hflush hne
    subst hm
    simp [hflush, hne, Ne.symm hne]

/-- C3, witness: the successful finish of `example_session` (three bytes
declared, three transferred), and the finish of a session that declared five
bytes and transferred three. -/
theorem C3_finish_file_size_witness :
    example_buffered.ota_state = ota_writing ∧
    (application_function_ota_finish example_env (some ['b', 'c', 'd'])
      example_buffered).vars.data_transferred = 3 ∧
    (application_function_ota_finish example_env (some ['b', 'c', 'd'])
      example_buffered).vars.remote_file_length = 3 ∧
    (application_function_ota_finish example_env (some ['b', 'c', 'd'])
      (ota_run example_env
        [.ota_write false (some 5) none, .ota_send (some 3) (some 6) (some [1, 2, 3])]
        example_initial)).dst = ota_reply.finish_file_size_differs 5 3 ∧
    (application_function_ota_finish example_env (some ['b', 'c', 'd'])
      (ota_run example_env
        [.ota_write false (some 5) none, .ota_send (some 3) (some 6) (some [1, 2, 3])]
        example_initial)).vars.ota_state = ota_inactive :=
  have h1 := (C3_finish_file_size example_env example_buffered (some ['b', 'c', 'd'])
    (by decide)).1 (by decide)
  have h2 := (C3_finish_file_size example_env
    (ota_run example_env
      [.ota_write false (some 5) none, .ota_send (some 3) (some 6) (some [1, 2, 3])]
      example_initial) (some ['b', 'c', 'd']) (by decide)).2 ['b', 'c', 'd'] rfl
    (by decide) (by decide)
  ⟨by decide, h1.2.trans (by decide), h1.2.symm.trans (h1.2.trans (by decide)),
    h2.2.1.trans (by decide), h2.2.2⟩

/-- C4.  For a finish received while writing: if no reference digest is
supplied, or the reference digest differs from the hexadecimal digest of the
bytes re-read from flash (the digest context after the final flush), finish
returns an error and the state becomes inactive; the state becomes successful
only when the reference digest is that local digest. -/
theorem C4_finish_digest {F : Type} (env : ota_env F) (s : ota_vars F)
    (arg1 : Option (List Char)) (hs : s.ota_state = ota_writing) :
    (arg1 = none →
      (application_function_ota_finish env arg1 s).action = app_action_error ∧
      (application_function_ota_finish env arg1 s).vars.ota_state = ota_inactive) ∧
    (∀ remote_md5_string : List Char, arg1 = some remote_md5_string →
      env.md5_hex (ota_final_flush env s).vars.md5 ≠ remote_md5_string →
      (application_function_ota_finish env arg1 s).action = app_action_error ∧
      (application_function_ota_finish env arg1 s).vars.ota_state = ota_inactive) ∧
    ((application_function_ota_finish env arg1 s).vars.ota_state = ota_successful →
      arg1 = some (env.md5_hex (ota_final_flush env s).vars.md5)) := by
  unfold application_function_ota_finish
  simp only [hs]
  refine ⟨?_, ?_, ?_⟩
  · intro h
    subst h
    simp
  · intro m hm hne
    subst hm
    by_cases hfl : s.buffer_4k.length > 0 ∧ (ota_final_flush env s).action ≠ app_action_normal
    · rcases final_flush_action env s with h | h
      · exact absurd h hfl.2
      · simp [hfl, h]
    · by_cases hsz : (ota_final_flush env s).vars.remote_file_length =
          (ota_final_flush env s).vars.data_transferred
      · simp [hfl, hsz, string_match_string, hne]
      · simp [hfl, hsz]
  · intro h
    cases arg1 with
    | none => simp at h
    | some m =>
      by_cases hfl : s.buffer_4k.length > 0 ∧ (ota_final_flush env s).action ≠ app_action_normal
      · simp [hfl] at h
      · by_cases hsz : (ota_final_flush env s).vars.remote_file_length =
            (ota_final_flush env s).vars.data_transferred
        · by_cases hm : env.md5_hex (ota_final_flush env s).vars.md5 = m
          · simp [hm]
          · simp [hfl, hsz, string_match_string, hm] at h
        · simp [hfl, hsz] at h

/-- C4, witness: after one accepted chunk 1, 2, 3 (local digest "bcd"), a finish
without digest and a finish with digest "bcx" are rejected, and the finish with
digest "bcd" reaches the successful state. -/
theorem C4_finish_digest_witness :
    example_buffered.ota_state = ota_writing ∧
    (application_function_ota_finish example_env none example_buffered).action =
      app_action_error ∧
    (application_function_ota_finish example_env none example_buffered).vars.ota_state =
      ota_inactive ∧
    (application_function_ota_finish example_env (some ['b', 'c', 'x'])
      example_buffered).action = app_action_error ∧
    (application_function_ota_finish example_env (some ['b', 'c', 'x'])
      example_buffered).vars.ota_state = ota_inactive ∧
    (application_function_ota_finish example_env (some ['b', 'c', 'd'])
      example_buffered).vars.ota_state = ota_successful ∧
    some ['b', 'c', 'd'] =
      some (example_env.md5_hex (ota_final_flush example_env example_buffered).vars.md5) :=
  have h1 := (C4_finish_digest example_env example_buffered none (by decide)).1 rfl
  have h2 := (C4_finish_digest example_env example_buffered (some ['b', 'c', 'x'])
    (by decide)).2.1 ['b', 'c', 'x'] rfl (by decide)
  have h3 := (C4_finish_digest example_env example_buffered (some ['b', 'c', 'd'])
    (by decide)).2.2 (by decide)
  ⟨by decide, h1.1, h1.2, h2.1, h2.2, by decide, h3⟩

/-- C5.  For a finish received while writing that returns success: if
`flash_slot` is -1 (explicit address) the reply is PARTIAL_WRITE_OK and the
state becomes inactive; if `flash_slot` is 0 or 1 (managed slot) the reply is
WRITE_OK and the state becomes successful; the resulting state is inactive or
successful in every case. -/
theorem C5_finish_outcome {F : Type} (env : ota_env F) (s : ota_vars F)
    (arg1 : Option (List Char)) (hs : s.ota_state = ota_writing)
    (hok : (application_function_ota_finish env arg1 s).action = app_action_normal) :
    (s.flash_slot = -1 →
      (∃ l r w k, (application_function_ota_finish env arg1 s).dst =
        ota_reply.PARTIAL_WRITE_OK l r w k) ∧
      (application_function_ota_finish env arg1 s).vars.ota_state = ota_inactive) ∧
    (s.flash_slot = 0 ∨ s.flash_slot = 1 →
      (∃ l r w k, (application_function_ota_finish env arg1 s).dst =
        ota_reply.WRITE_OK l r w k) ∧
      (application_function_ota_finish env arg1 s).vars.ota_state = ota_successful) ∧
    ((application_function_ota_finish env arg1 s).vars.ota_state = ota_inactive ∨
      (application_function_ota_finish env arg1 s).vars.ota_state = ota_successful) := by
  have hslot := (final_flush_frame env s).2.2.2.2.1
  revert hok
  unfold application_function_ota_finish
  simp only [hs]
  intro hok
  cases arg1 with
  | none => simp at hok
  | some m =>
    by_cases hfl : s.buffer_4k.length > 0 ∧ (ota_final_flush env s).action ≠ app_action_normal
    · simp [hfl] at hok
    · by_cases hsz : (ota_final_flush env s).vars.remote_file_length =
          (ota_final_flush env s).vars.data_transferred
      · by_cases hm : string_match_string (env.md5_hex (ota_final_flush env s).vars.md5) m = false
        · simp [hfl, hsz, hm] at hok
        · simp only [reduceCtorEq, ↓reduceIte, hfl, hsz, hm, hslot, ne_eq, not_true_eq_false]
          refine ⟨?_, ?_, ?_⟩
          · intro h1
            simp [h1]
          · intro h01
            have hne : s.flash_slot ≠ -1 := by rcases h01 with h | h <;> omega
            simp [hne]
          · by_cases h1 : s.flash_slot = -1 <;> simp [h1]
      · simp [hfl, hsz] at hok

/-- C5, witness: the finish of a session on slot 1 and the finish of a session
at the explicit address `0x1000`. -/
theorem C5_finish_outcome_witness :
    example_buffered.ota_state = ota_writing ∧ example_buffered.flash_slot = 1 ∧
    (application_function_ota_finish example_env (some ['b', 'c', 'd'])
      example_buffered).action = app_action_normal ∧
    (application_function_ota_finish example_env (some ['b', 'c', 'd'])
      example_buffered).dst = ota_reply.WRITE_OK ['b', 'c', 'd'] ['b', 'c', 'd'] 1 0 ∧
    (application_function_ota_finish example_env (some ['b', 'c', 'd'])
      example_buffered).vars.ota_state = ota_successful ∧
    (application_function_ota_finish example_env (some ['b', 'c', 'd'])
      (ota_run example_env
        [.ota_write false (some 3) (some 0x1000), .ota_send (some 3) (some 6) (some [1, 2, 3])]
        example_initial)).dst = ota_reply.PARTIAL_WRITE_OK ['b', 'c', 'd'] ['b', 'c', 'd'] 1 0 ∧
    (application_function_ota_finish example_env (some ['b', 'c', 'd'])
      (ota_run example_env
        [.ota_write false (some 3) (some 0x1000), .ota_send (some 3) (some 6) (some [1, 2, 3])]
        example_initial)).vars.ota_state = ota_inactive :=
  have h1 := (C5_finish_outcome example_env example_buffered (some ['b', 'c', 'd'])
    (by decide) (by decide)).2.1 (Or.inr (by decide))
  have h2 := (C5_finish_outcome example_env
    (ota_run example_env
      [.ota_write false (some 3) (some 0x1000), .ota_send (some 3) (some 6) (some [1, 2, 3])]
      example_initial) (some ['b', 'c', 'd']) (by decide) (by decide)).1 (by decide)
  ⟨by decide, by decide, by decide, by decide, h1.2, by decide, h2.2⟩

/-- C6.  For a start-write that passes the buffer, scan and file-length checks
and supplies no address.  Dual-slot build: if the boot descriptor has the boot
magic, a count of 2 and `current_rom` 0 or 1, then `flash_slot` becomes
`1 - current_rom`, which is not the running slot, and `flash_start_address`
becomes `roms[flash_slot]` (converted to `int`); if one of the three fields is
malformed the command returns an error with the rboot-config-invalid message and
leaves the state as it was.  Non-dual-slot build: a start-write without address
returns an error, whatever its other arguments. -/
theorem C6_write_slot_selection {F : Type} (env : ota_env F) (s : ota_vars F) (len : Nat)
    (hbuf : ¬ env.buffer_4k_size < 0x1000) :
    (env.IMAGE_OTA = true →
      (s.rboot.magic = env.BOOT_CONFIG_MAGIC ∧ s.rboot.count = 2 ∧
          (s.rboot.current_rom = 0 ∨ s.rboot.current_rom = 1) →
        (application_function_ota_write env false (some len) none s).vars.flash_slot =
          1 - (s.rboot.current_rom : Int) ∧
        (application_function_ota_write env false (some len) none s).vars.flash_slot ≠
          (s.rboot.current_rom : Int) ∧
        (application_function_ota_write env false (some len) none s).vars.flash_start_address =
          int_of_u32 (s.rboot.roms.getD (1 - s.rboot.current_rom) 0) ∧
        (s.rboot.roms.getD (1 - s.rboot.current_rom) 0 < 2147483648 →
          (application_function_ota_write env false (some len) none s).vars.flash_start_address =
            (s.rboot.roms.getD (1 - s.rboot.current_rom) 0 : Int))) ∧
      (¬ (s.rboot.magic = env.BOOT_CONFIG_MAGIC ∧ s.rboot.count = 2 ∧
          (s.rboot.current_rom = 0 ∨ s.rboot.current_rom = 1)) →
        (application_function_ota_write env false (some len) none s).action = app_action_error ∧
        (application_function_ota_write env false (some len) none s).dst =
          ota_reply.write_rboot_config_invalid ∧
        (application_function_ota_write env false (some len) none s).vars.ota_state =
          s.ota_state)) ∧
    (env.IMAGE_OTA = false →
      ∀ (wlan_scan_active : Bool) (arg1 : Option Nat),
        (application_function_ota_write env wlan_scan_active arg1 none s).action =
          app_action_error) := by
  refine ⟨?_, ?_⟩
  · intro hota
    refine ⟨?_, ?_⟩
    · rintro ⟨hm, hc, hr⟩
      have hvalid : ¬ (s.rboot.magic ≠ env.BOOT_CONFIG_MAGIC ∨ s.rboot.count ≠ 2 ∨
          s.rboot.current_rom > 1) := by
        rcases hr with h | h <;> simp [hm, hc, h]
      have hstart : ∀ v : ota_vars F, (ota_write_start v).vars.flash_slot = v.flash_slot ∧
          (ota_write_start v).vars.flash_start_address = v.flash_start_address := by
        intro v
        unfold ota_write_start
        split <;> simp
      unfold application_function_ota_write
      simp only [hbuf, hota, hvalid, ↓reduceIte, Bool.false_eq_true, reduceCtorEq]
      rw [(hstart _).1, (hstart _).2]
      rcases hr with h | h
      · simp [h]
        intro hlt
        simp [int_of_u32]
        omega
      · simp [h]
        intro hlt
        simp [int_of_u32]
        omega
    · intro hbad
      have hinvalid : s.rboot.magic ≠ env.BOOT_CONFIG_MAGIC ∨ s.rboot.count ≠ 2 ∨
          s.rboot.current_rom > 1 := by
        by_contra hcon
        apply hbad
        simp only [not_or, ne_eq, not_not, not_lt] at hcon
        refine ⟨hcon.1, hcon.2.1, ?_⟩
        omega
      unfold application_function_ota_write
      simp [hbuf, hota, hinvalid]
  · intro hota scan arg1
    unfold application_function_ota_write
    by_cases h0 : env.buffer_4k_size < 0x1000
    · simp [h0]
    · cases scan
      · cases arg1 <;> simp [h0, hota]
      · simp [h0]

/-- C6, witness: with slot 0 running, start-write without address selects slot 1
at `0x102000`; with a wrong boot magic it is rejected and the state stays
inactive; in the build without dual-slot support it is rejected. -/
theorem C6_write_slot_selection_witness :
    ¬ example_env.buffer_4k_size < 0x1000 ∧
    (application_function_ota_write example_env false (some 3) none
      example_initial).vars.flash_slot = 1 ∧
    (application_function_ota_write example_env false (some 3) none
      example_initial).vars.flash_start_address = 0x102000 ∧
    (application_function_ota_write example_env false (some 3) none
      (ota_initial (fun _ => 0) { example_rboot with magic := 0 })).dst =
      ota_reply.write_rboot_config_invalid ∧
    (application_function_ota_write example_env false (some 3) none
      (ota_initial (fun _ => 0) { example_rboot with magic := 0 })).vars.ota_state =
      ota_inactive ∧
    (application_function_ota_write example_env_single false (some 3) none
      example_initial).action = app_action_error :=
  have h1 := (C6_write_slot_selection example_env example_initial 3 (by decide)).1 rfl
  have h2 := (C6_write_slot_selection example_env
    (ota_initial (fun _ => 0) { example_rboot with magic := 0 }) 3 (by decide)).1 rfl
  have h3 := (C6_write_slot_selection example_env_single example_initial 3 (by decide)).2 rfl
    false (some 3)
  ⟨by decide, (h1.1 (by decide)).1.trans (by decide),
    ((h1.1 (by decide)).2.2.2 (by decide)).trans (by decide),
    (h2.2 (by decide)).2.1, (h2.2 (by decide)).2.2.trans (by decide), h3⟩

/-- C7, the code at the failing input.  After `example_session` the state is
successful with `flash_slot` 1, the slot whose sector `0x102` the session
erased and wrote.  A start-write with the unaligned address `0x1001` then
returns an error and leaves the state successful, but it has already set
`flash_slot` to -1; the commit that follows passes -1 to
`rboot_set_current_rom`, not the slot written. -/
theorem C7_commit_slot_clobbered :
    (ota_run example_env example_session example_initial).ota_state = ota_successful ∧
    (ota_run example_env example_session example_initial).flash_slot = 1 ∧
    (ota_run example_env example_session example_initial).flash_log =
      [flash_op.read 0x102000 3, flash_op.erase_sector 0x102,
        flash_op.write 0x102000 [1, 2, 3], flash_op.read 0x102000 3] ∧
    (ota_dispatch example_env (.ota_write false (some 3) (some 0x1001))
      (ota_run example_env example_session example_initial)).action = app_action_error ∧
    (ota_run example_env (example_session ++ [.ota_write false (some 3) (some 0x1001)])
      example_initial).ota_state = ota_successful ∧
    (ota_run example_env (example_session ++ [.ota_write false (some 3) (some 0x1001)])
      example_initial).flash_slot = -1 ∧
    (ota_run example_env
      (example_session ++ [.ota_write false (some 3) (some 0x1001), .ota_commit])
      example_initial).rboot_log = [-1] := by
  decide

/-- C8, counterexample to the claim as stated.  In the dual-slot build, a commit
received in the successful state reached by `example_session`, with a slot
switch that succeeds, returns `app_action_ota_commit` and the state after the
command is not inactive. -/
theorem C8_commit_success_stays_successful :
    example_env.IMAGE_OTA = true ∧
    example_successful.ota_state = ota_successful ∧
    (example_env.rboot_set_current_rom example_successful.rboot
      example_successful.flash_slot).1 = true ∧
    (application_function_ota_commit example_env example_successful).action =
      app_action_ota_commit ∧
    (application_function_ota_commit example_env example_successful).vars.ota_state ≠
      ota_inactive := by
  decide

/-- C8, as amended.  In the dual-slot build, for a commit received in the
successful state: if the slot switch fails, the command returns an error and
the state becomes inactive; if the slot switch succeeds, the handler returns
`app_action_ota_commit` and leaves the state successful. -/
theorem C8_commit_outcome {F : Type} (env : ota_env F) (s : ota_vars F)
    (hota : env.IMAGE_OTA = true) (hs : s.ota_state = ota_successful) :
    ((env.rboot_set_current_rom s.rboot s.flash_slot).1 = false →
      (application_function_ota_commit env s).action = app_action_error ∧
      (application_function_ota_commit env s).vars.ota_state = ota_inactive) ∧
    ((env.rboot_set_current_rom s.rboot s.flash_slot).1 = true →
      (application_function_ota_commit env s).action = app_action_ota_commit ∧
      (application_function_ota_commit env s).vars.ota_state = ota_successful) := by
  unfold application_function_ota_commit
  refine ⟨?_, ?_⟩
  · intro h
    simp [hota, hs, h]
  · intro h
    simp [hota, hs, h]

/-- C8, witness: a commit whose slot switch succeeds (slot 1) and a commit whose
slot switch fails (the boot store rejects slot 1 when its count is 1). -/
theorem C8_commit_outcome_witness :
    example_env.IMAGE_OTA = true ∧ example_successful.ota_state = ota_successful ∧
    (application_function_ota_commit example_env example_successful).action =
      app_action_ota_commit ∧
    (application_function_ota_commit example_env example_successful).vars.ota_state =
      ota_successful ∧
    (application_function_ota_commit example_env
      { example_successful with rboot := { example_rboot with count := 1 } }).action =
      app_action_error ∧
    (application_function_ota_commit example_env
      { example_successful with rboot := { example_rboot with count := 1 } }).vars.ota_state =
      ota_inactive :=
  have h1 := (C8_commit_outcome example_env example_successful rfl (by decide)).2 (by decide)
  have h2 := (C8_commit_outcome example_env
    { example_successful with rboot := { example_rboot with count := 1 } } rfl
    (by decide)).1 (by decide)
  ⟨rfl, by decide, h1.1, h1.2, h2.1, h2.2⟩

/-- C9.  Out-of-sequence commands: a read-chunk received in a state other than
reading, a send-chunk received in a state other than writing, a finish received
in a state that is neither reading nor writing, and (dual-slot build) a commit
received in a state other than successful each return an error and leave the
state inactive, whatever their arguments; the rejected commit does not call
`rboot_set_current_rom` and leaves the boot descriptor unchanged. -/
theorem C9_out_of_sequence {F : Type} (env : ota_env F) (s : ota_vars F) :
    (s.ota_state ≠ ota_reading → ∀ arg1 arg2 : Option Nat,
      (application_function_ota_receive env arg1 arg2 s).action = app_action_error ∧
      (application_function_ota_receive env arg1 arg2 s).vars.ota_state = ota_inactive) ∧
    (s.ota_state ≠ ota_writing →
      ∀ (arg1 : Option Int) (arg2 : Option Nat) (chunk : Option (List Nat)),
      (application_function_ota_send env arg1 arg2 chunk s).action = app_action_error ∧
      (application_function_ota_send env arg1 arg2 chunk s).vars.ota_state = ota_inactive) ∧
    (s.ota_state ≠ ota_reading → s.ota_state ≠ ota_writing → ∀ arg1 : Option (List Char),
      (application_function_ota_finish env arg1 s).action = app_action_error ∧
      (application_function_ota_finish env arg1 s).vars.ota_state = ota_inactive) ∧
    (env.IMAGE_OTA = true → s.ota_state ≠ ota_successful →
      (application_function_ota_commit env s).action = app_action_error ∧
      (application_function_ota_commit env s).vars.ota_state = ota_inactive ∧
      (application_function_ota_commit env s).vars.rboot_log = s.rboot_log ∧
      (application_function_ota_commit env s).vars.rboot = s.rboot) := by
  refine ⟨?_, ?_, ?_, ?_⟩
  · intro h arg1 arg2
    simp [application_function_ota_receive, h]
  · intro h arg1 arg2 chunk
    simp [application_function_ota_send, h]
  · intro h1 h2 arg1
    simp [application_function_ota_finish, h1, h2]
  · intro hota h
    simp [application_function_ota_commit, hota, h]

/-- C9, witness: read-chunk, send-chunk and finish received in the successful
state, and commit received while writing. -/
theorem C9_out_of_sequence_witness :
    (application_function_ota_receive example_env (some 0) (some 16)
      example_successful).action = app_action_error ∧
    (application_function_ota_receive example_env (some 0) (some 16)
      example_successful).vars.ota_state = ota_inactive ∧
    (application_function_ota_send example_env (some 3) (some 6) (some [1, 2, 3])
      example_successful).action = app_action_error ∧
    (application_function_ota_send example_env (some 3) (some 6) (some [1, 2, 3])
      example_successful).vars.ota_state = ota_inactive ∧
    (application_function_ota_finish example_env (some ['b', 'c', 'd'])
      example_successful).action = app_action_error ∧
    (application_function_ota_finish example_env (some ['b', 'c', 'd'])
      example_successful).vars.ota_state = ota_inactive ∧
    (application_function_ota_commit example_env example_writing).action = app_action_error ∧
    (application_function_ota_commit example_env example_writing).vars.ota_state =
      ota_inactive ∧
    (application_function_ota_commit example_env example_writing).vars.rboot_log = [] ∧
    (application_function_ota_commit example_env example_writing).vars.rboot = example_rboot :=
  have h1 := (C9_out_of_sequence example_env example_successful).1 (by decide) (some 0) (some 16)
  have h2 := (C9_out_of_sequence example_env example_successful).2.1 (by decide) (some 3)
    (some 6) (some [1, 2, 3])
  have h3 := (C9_out_of_sequence example_env example_successful).2.2.1 (by decide) (by decide)
    (some ['b', 'c', 'd'])
  have h4 := (C9_out_of_sequence example_env example_writing).2.2.2 rfl (by decide)
  ⟨h1.1, h1.2, h2.1, h2.2, h3.1, h3.2, h4.1, h4.2.1, h4.2.2.1.trans (by decide),
    h4.2.2.2.trans (by decide)⟩

/-- C10, counterexample to the claim as stated.  A start-write received while a
radio scan is in progress, in the writing state, returns an error and the state
after the command is not inactive. -/
theorem C10_error_keeps_state :
    example_writing.ota_state = ota_writing ∧
    (ota_dispatch example_env (.ota_write true (some 3) none) example_writing).action =
      app_action_error ∧
    (ota_dispatch example_env (.ota_write true (some 3) none) example_writing).vars.ota_state ≠
      ota_inactive := by
  decide

/-- C10, as amended.  When a handler returns an error: after send-chunk, after
finish, and after commit in the dual-slot build the state is inactive; after a
read-chunk received outside the reading state the state is inactive, and after a
read-chunk rejected in the reading state (missing address or size, chunk too
large) the state is still reading; after start-read, after start-write, and
after commit in the build without dual-slot support the state is what it was
before the command. -/
theorem C10_error_state {F : Type} (env : ota_env F) (c : ota_command) (s : ota_vars F)
    (herr : (ota_dispatch env c s).action = app_action_error) :
    match c with
    | .ota_send _ _ _ => (ota_dispatch env c s).vars.ota_state = ota_inactive
    | .ota_finish _ => (ota_dispatch env c s).vars.ota_state = ota_inactive
    | .ota_commit =>
      (env.IMAGE_OTA = true → (ota_dispatch env c s).vars.ota_state = ota_inactive) ∧
      (env.IMAGE_OTA = false → (ota_dispatch env c s).vars.ota_state = s.ota_state)
    | .ota_receive _ _ =>
      (s.ota_state ≠ ota_reading → (ota_dispatch env c s).vars.ota_state = ota_inactive) ∧
      (s.ota_state = ota_reading → (ota_dispatch env c s).vars.ota_state = ota_reading)
    | .ota_read _ => (ota_dispatch env c s).vars.ota_state = s.ota_state
    | .ota_write _ _ _ => (ota_dispatch env c s).vars.ota_state = s.ota_state := by
  cases c with
  | ota_read scan =>
    revert herr
    simp only [ota_dispatch, application_function_ota_read]
    split
    · simp
    · split <;> simp
  | ota_receive arg1 arg2 =>
    revert herr
    simp only [ota_dispatch, application_function_ota_receive]
    by_cases hs : s.ota_state = ota_reading
    · cases arg1 with
      | none => simp [hs]
      | some a =>
        cases arg2 with
        | none => simp [hs]
        | some c =>
          simp only [hs, ne_eq, not_true_eq_false, ↓reduceIte]
          split <;> simp
    · simp [hs]
  | ota_write scan arg1 arg2 =>
    revert herr
    simp only [ota_dispatch, application_function_ota_write]
    split
    · simp
    · split
      · simp
      · cases arg1 with
        | none => simp
        | some len =>
          dsimp only
          split
          · split
            · simp
            · split
              · simp
              · intro h
                rw [ota_write_start_error _ h]
          · intro h
            rw [ota_write_start_error _ h]
  | ota_send arg1 arg2 chunk =>
    revert herr
    simp only [ota_dispatch, application_function_ota_send]
    by_cases hs : s.ota_state = ota_writing
    · cases arg1 with
      | none => simp [hs]
      | some l =>
        cases arg2 with
        | none => simp [hs]
        | some crc =>
          cases chunk with
          | none => simp [hs]
          | some data =>
            simp only [hs, ne_eq, not_true_eq_false, ↓reduceIte]
            split
            · simp
            · split
              · simp
              · split
                · simp
                · split
                  · split
                    · simp
                    · simp
                  · simp
    · simp [hs]
  | ota_finish arg1 =>
    revert herr
    simp only [ota_dispatch, application_function_ota_finish]
    split
    · simp
    · split
      · cases arg1 with
        | none => simp
        | some m =>
          dsimp only
          split
          · simp
          · split
            · simp
            · split
              · simp
              · simp
      · simp
  | ota_commit =>
    revert herr
    simp only [ota_dispatch, application_function_ota_commit]
    split
    · rename_i h
      simp [h]
    · rename_i h
      have h1 : env.IMAGE_OTA = true := by simpa using h
      split
      · simp [h1]
      · split
        · simp [h1]
        · simp

/-- C10, witness: a send-chunk with a wrong CRC received while writing returns an
error and leaves the state inactive; a read-chunk of 1025 bytes received while
reading returns an error and leaves the state reading. -/
theorem C10_error_state_witness :
    (ota_dispatch example_env (.ota_send (some 3) (some 7) (some [1, 2, 3]))
      example_writing).action = app_action_error ∧
    (ota_dispatch example_env (.ota_send (some 3) (some 7) (some [1, 2, 3]))
      example_writing).vars.ota_state = ota_inactive ∧
    (ota_dispatch example_env (.ota_receive (some 0) (some 1025))
      (ota_run example_env [.ota_read false] example_initial)).action = app_action_error ∧
    (ota_dispatch example_env (.ota_receive (some 0) (some 1025))
      (ota_run example_env [.ota_read false] example_initial)).vars.ota_state = ota_reading :=
  ⟨by decide,
    C10_error_state example_env (.ota_send (some 3) (some 7) (some [1, 2, 3])) example_writing
      (by decide),
    by decide,
    (C10_error_state example_env (.ota_receive (some 0) (some 1025))
      (ota_run example_env [.ota_read false] example_initial) (by decide)).2 (by decide)⟩
/-- C11, counterexample to the claim as stated.  A start-read received in the
writing state, and a start-write received in the successful state, both return
success and enter the reading, respectively the writing state. -/
theorem C11_start_accepted_in_session :
    example_writing.ota_state = ota_writing ∧
    (application_function_ota_read example_env false example_writing).action =
      app_action_normal ∧
    (application_function_ota_read example_env false example_writing).vars.ota_state =
      ota_reading ∧
    example_successful.ota_state = ota_successful ∧
    (application_function_ota_write example_env false (some 3) none
      example_successful).action = app_action_normal ∧
    (application_function_ota_write example_env false (some 3) none
      example_successful).vars.ota_state = ota_writing := by
  decide

/-- C11, as amended.  The start handlers do not look at the session state: for
every state `st` the command would be received in, start-read and start-write
return the same action (and start-write the same reply) as in any other state.
Start-read succeeds exactly when the scratch buffer holds 4096 bytes and no
scan is in progress.  A start command that succeeds enters the reading,
respectively the writing state, whatever the state was; one that fails returns
an error and leaves the state as it was. -/
theorem C11_start_ignores_state {F : Type} (env : ota_env F) (s : ota_vars F)
    (st : ota_state_t) :
    (∀ scan : Bool,
      (application_function_ota_read env scan { s with ota_state := st }).action =
        (application_function_ota_read env scan s).action ∧
      ((application_function_ota_read env scan s).action = app_action_normal ↔
        ¬ env.buffer_4k_size < 0x1000 ∧ scan = false) ∧
      ((application_function_ota_read env scan s).action = app_action_normal →
        (application_function_ota_read env scan s).vars.ota_state = ota_reading) ∧
      ((application_function_ota_read env scan s).action ≠ app_action_normal →
        (application_function_ota_read env scan s).action = app_action_error ∧
        (application_function_ota_read env scan s).vars.ota_state = s.ota_state)) ∧
    (∀ (scan : Bool) (arg1 : Option Nat) (arg2 : Option Int),
      (application_function_ota_write env scan arg1 arg2 { s with ota_state := st }).action =
        (application_function_ota_write env scan arg1 arg2 s).action ∧
      (application_function_ota_write env scan arg1 arg2 { s with ota_state := st }).dst =
        (application_function_ota_write env scan arg1 arg2 s).dst ∧
      ((application_function_ota_write env scan arg1 arg2 s).action = app_action_normal →
        (application_function_ota_write env scan arg1 arg2 s).vars.ota_state = ota_writing) ∧
      ((application_function_ota_write env scan arg1 arg2 s).action ≠ app_action_normal →
        (application_function_ota_write env scan arg1 arg2 s).action = app_action_error ∧
        (application_function_ota_write env scan arg1 arg2 s).vars.ota_state = s.ota_state)) := by
  refine ⟨?_, ?_⟩
  · intro scan
    unfold application_function_ota_read
    by_cases h0 : env.buffer_4k_size < 0x1000
    · simp [h0]
    · cases scan <;> simp [h0]
  · intro scan arg1 arg2
    unfold application_function_ota_write
    by_cases h0 : env.buffer_4k_size < 0x1000
    · simp [h0]
    · cases scan
      · cases arg1 with
        | none => simp [h0]
        | some len =>
          simp only [h0, ↓reduceIte, Bool.false_eq_true]
          split
          · split
            · simp
            · split
              · simp
              · exact ota_write_start_state _ _ rfl rfl
          · exact ota_write_start_state _ _ rfl rfl
      · simp [h0]

/-- C11, witness: start-read and start-write received in the writing state of
the example session. -/
theorem C11_start_ignores_state_witness :
    (application_function_ota_read example_env false
      { example_initial with ota_state := ota_writing }).action =
      (application_function_ota_read example_env false example_initial).action ∧
    (application_function_ota_read example_env false example_writing).vars.ota_state =
      ota_reading ∧
    (application_function_ota_write example_env false (some 3) (some 0x2000)
      example_writing).vars.ota_state = ota_writing ∧
    (application_function_ota_write example_env true (some 3) (some 0x2000)
      example_writing).vars.ota_state = ota_writing :=
  ⟨((C11_start_ignores_state example_env example_initial ota_writing).1 false).1,
    ((C11_start_ignores_state example_env example_writing ota_inactive).1 false).2.2.1
      (by decide),
    ((C11_start_ignores_state example_env example_writing ota_inactive).2 false (some 3)
      (some 0x2000)).2.2.1 (by decide),
    (((C11_start_ignores_state example_env example_writing ota_inactive).2 true (some 3)
      (some 0x2000)).2.2.2 (by decide)).2.trans (by decide)⟩


/-- C12.  For a read-chunk received in the reading state whose address and
length both parse (the length being an `unsigned int`): the command succeeds
if and only if the length is at most 1024; length 1024 succeeds and length
1025 fails with the chunk-size-invalid message; on success `data_transferred`
has grown by the length modulo `2 ^ 32` and the state is still reading. -/
theorem C12_receive_chunk_limit {F : Type} (env : ota_env F) (s : ota_vars F)
    (address chunk : Nat) (hs : s.ota_state = ota_reading) (hc : chunk < 4294967296) :
    ((application_function_ota_receive env (some address) (some chunk) s).action =
      app_action_normal ↔ chunk ≤ 1024) ∧
    (chunk = 1024 →
      (application_function_ota_receive env (some address) (some chunk) s).action =
        app_action_normal) ∧
    (chunk = 1025 →
      (application_function_ota_receive env (some address) (some chunk) s).action =
        app_action_error ∧
      (application_function_ota_receive env (some address) (some chunk) s).dst =
        ota_reply.receive_chunk_size_invalid) ∧
    ((application_function_ota_receive env (some address) (some chunk) s).action =
      app_action_normal →
      (application_function_ota_receive env (some address) (some chunk) s).vars.data_transferred
        = (s.data_transferred + chunk) % 4294967296 ∧
      (application_function_ota_receive env (some address) (some chunk) s).vars.ota_state =
        ota_reading) := by
  have hu : u32 chunk = chunk := Nat.mod_eq_of_lt hc
  unfold application_function_ota_receive
  simp only [hs, ne_eq, not_true_eq_false, ↓reduceIte, hu]
  by_cases h : chunk > 1024
  · simp only [h, ↓reduceIte]
    refine ⟨?_, ?_, ?_, ?_⟩
    · constructor
      · intro h1
        simp at h1
      · intro h1
        omega
    · intro h1
      omega
    · intro _
      simp
    · intro h1
      simp at h1
  · simp only [h, ↓reduceIte]
    refine ⟨?_, ?_, ?_, ?_⟩
    · constructor
      · intro _
        omega
      · intro _
        trivial
    · intro _
      trivial
    · intro h1
      omega
    · intro _
      simp [u32, hs]

/-- C12, witness: read-chunks of 1024 and of 1025 bytes in the reading state
entered from the example start-up state. -/
theorem C12_receive_chunk_limit_witness :
    (ota_run example_env [.ota_read false] example_initial).ota_state = ota_reading ∧
    (application_function_ota_receive example_env (some 0x2000) (some 1024)
      (ota_run example_env [.ota_read false] example_initial)).action = app_action_normal ∧
    (application_function_ota_receive example_env (some 0x2000) (some 1024)
      (ota_run example_env [.ota_read false] example_initial)).vars.data_transferred = 1024 ∧
    (application_function_ota_receive example_env (some 0x2000) (some 1024)
      (ota_run example_env [.ota_read false] example_initial)).vars.ota_state = ota_reading ∧
    (application_function_ota_receive example_env (some 0x2000) (some 1025)
      (ota_run example_env [.ota_read false] example_initial)).action = app_action_error ∧
    (application_function_ota_receive example_env (some 0x2000) (some 1025)
      (ota_run example_env [.ota_read false] example_initial)).dst =
      ota_reply.receive_chunk_size_invalid :=
  have h1 := C12_receive_chunk_limit example_env
    (ota_run example_env [.ota_read false] example_initial) 0x2000 1024 (by decide) (by decide)
  have h2 := C12_receive_chunk_limit example_env
    (ota_run example_env [.ota_read false] example_initial) 0x2000 1025 (by decide) (by decide)
  ⟨by decide, h1.2.1 rfl, (h1.2.2.2 (h1.2.1 rfl)).1.trans (by decide), (h1.2.2.2 (h1.2.1 rfl)).2,
    (h2.2.2.1 rfl).1, (h2.2.2.1 rfl).2⟩

/-- C13.  For a start-write with a scratch buffer of at least 4096 bytes, no
scan in progress, a file length that parses and an explicit address `A` (an
`int` other than -1): the command succeeds if and only if `A & 0xfff` is zero,
that is if and only if `A` is a multiple of 4096; address `0x1001` fails with
the not-aligned message and `0x1000` succeeds.  On success the state is
writing, `flash_slot` is -1, `data_transferred` and both sector counters are
zero, `buffer_4k` is empty and the sector cursor is `A / 4096` (stored in an
`unsigned int`; for `A` not negative it is `A / 4096` itself). -/
theorem C13_write_explicit_address {F : Type} (env : ota_env F) (s : ota_vars F) (len : Nat)
    (A : Int) (hbuf : ¬ env.buffer_4k_size < 0x1000) (hA : A ≠ -1)
    (hlo : -2147483648 ≤ A) (hhi : A < 2147483648) :
    ((application_function_ota_write env false (some len) (some A) s).action =
      app_action_normal ↔ int_bits A &&& 0xfff = 0) ∧
    ((application_function_ota_write env false (some len) (some A) s).action =
      app_action_normal ↔ A % 4096 = 0) ∧
    (A = 0x1001 →
      (application_function_ota_write env false (some len) (some A) s).action =
        app_action_error ∧
      (application_function_ota_write env false (some len) (some A) s).dst =
        ota_reply.write_start_address_not_aligned 0x1001) ∧
    (A = 0x1000 →
      (application_function_ota_write env false (some len) (some A) s).action =
        app_action_normal) ∧
    ((application_function_ota_write env false (some len) (some A) s).action =
      app_action_normal →
      (application_function_ota_write env false (some len) (some A) s).vars.ota_state =
        ota_writing ∧
      (application_function_ota_write env false (some len) (some A) s).vars.flash_slot = -1 ∧
      (application_function_ota_write env false (some len) (some A) s).vars.data_transferred =
        0 ∧
      (application_function_ota_write env false (some len) (some A)
        s).vars.flash_sectors_written = 0 ∧
      (application_function_ota_write env false (some len) (some A)
        s).vars.flash_sectors_skipped = 0 ∧
      (application_function_ota_write env false (some len) (some A) s).vars.buffer_4k = [] ∧
      (application_function_ota_write env false (some len) (some A) s).vars.flash_sector =
        int_bits (Int.tdiv A 0x1000) ∧
      (0 ≤ A →
        ((application_function_ota_write env false (some len) (some A) s).vars.flash_sector :
          Int) = A / 4096)) := by
  have h32 : int32 A = A := int32_of_range A hlo hhi
  have hw : application_function_ota_write env false (some len) (some A) s =
      ota_write_start { s with
        remote_file_length := u32 len, flash_start_address := A, flash_slot := -1 } := by
    unfold application_function_ota_write
    simp [hbuf, h32, hA]
  rw [hw]
  unfold ota_write_start
  dsimp only
  by_cases hal : int_bits A &&& 0xfff = 0
  · have hmod : A % 4096 = 0 := (int_bits_and_fff A).mp hal
    simp only [hal, ne_eq, not_true_eq_false, ↓reduceIte, true_and, true_iff, hmod,
      forall_const]
    refine ⟨?_, ?_, ?_⟩
    · intro h
      omega
    · intro _
      trivial
    · intro h0
      obtain ⟨n, hn⟩ := Int.eq_ofNat_of_zero_le h0
      subst hn
      have hdiv : Int.tdiv (n : Int) 4096 = ((n / 4096 : Nat) : Int) := rfl
      rw [hdiv]
      unfold int_bits
      omega
  · have hmod : ¬ A % 4096 = 0 := fun h => hal ((int_bits_and_fff A).mpr h)
    simp only [hal, ne_eq, not_false_eq_true, ↓reduceIte, reduceCtorEq, false_iff, hmod,
      false_implies, and_true, true_and]
    refine ⟨?_, ?_⟩
    · intro h
      subst h
      simp
    · intro h
      omega

/-- C13, witness: start-write at `0x1000` and at `0x1001`. -/
theorem C13_write_explicit_address_witness :
    ¬ example_env.buffer_4k_size < 0x1000 ∧
    (application_function_ota_write example_env false (some 3) (some 0x1000)
      example_initial).action = app_action_normal ∧
    (application_function_ota_write example_env false (some 3) (some 0x1000)
      example_initial).vars.ota_state = ota_writing ∧
    (application_function_ota_write example_env false (some 3) (some 0x1000)
      example_initial).vars.flash_slot = -1 ∧
    (application_function_ota_write example_env false (some 3) (some 0x1000)
      example_initial).vars.flash_sector = 1 ∧
    (application_function_ota_write example_env false (some 3) (some 0x1001)
      example_initial).action = app_action_error ∧
    (application_function_ota_write example_env false (some 3) (some 0x1001)
      example_initial).dst = ota_reply.write_start_address_not_aligned 0x1001 :=
  have h1 := C13_write_explicit_address example_env example_initial 3 0x1000 (by decide)
    (by decide) (by decide) (by decide)
  have h2 := C13_write_explicit_address example_env example_initial 3 0x1001 (by decide)
    (by decide) (by decide) (by decide)
  ⟨by decide, h1.2.2.2.1 rfl, (h1.2.2.2.2 (h1.2.2.2.1 rfl)).1, (h1.2.2.2.2 (h1.2.2.2.1 rfl)).2.1,
    (h1.2.2.2.2 (h1.2.2.2.1 rfl)).2.2.2.2.2.2.1.trans (by decide),
    (h2.2.2.1 rfl).1, (h2.2.2.1 rfl).2⟩

/-- C14.  Idempotence of the sector writer.  If `flash_write_verify`, run on the
variables `s` (buffer `s.buffer_4k`, cursor `s.flash_sector`), succeeds, then
run again with the same buffer and the same cursor on the flash it left (the
variables `t`), it succeeds again, `flash_sectors_skipped` grows by one (an
`unsigned int` increment), `flash_sectors_written` is unchanged, the flash chip
is unchanged and the only driver calls are two reads.  This holds for every
buffer, hence for every 4096-byte buffer, and needs no assumption on the flash
driver beyond its reads being a function of the chip state; the first success
already implies the verify buffer is large enough. -/
theorem C14_write_verify_idempotent {F : Type} (env : ota_env F) (s t : ota_vars F)
    (hok : (flash_write_verify env s).action = app_action_normal)
    (hflash : t.flash = (flash_write_verify env s).vars.flash)
    (hbuffer : t.buffer_4k = s.buffer_4k) (hsector : t.flash_sector = s.flash_sector) :
    (flash_write_verify env t).action = app_action_normal ∧
    (flash_write_verify env t).vars.flash_sectors_skipped =
      (t.flash_sectors_skipped + 1) % 4294967296 ∧
    (t.flash_sectors_skipped < 4294967295 →
      (flash_write_verify env t).vars.flash_sectors_skipped = t.flash_sectors_skipped + 1) ∧
    (flash_write_verify env t).vars.flash_sectors_written = t.flash_sectors_written ∧
    (flash_write_verify env t).vars.flash = t.flash ∧
    (flash_write_verify env t).vars.flash_log = t.flash_log ++
      [flash_op.read (u32 (t.flash_sector * 0x1000)) t.buffer_4k.length,
        flash_op.read (u32 (t.flash_sector * 0x1000)) t.buffer_4k.length] := by
  have hread := (fwv_normal env s hok).2.2.2.2
  have h0 : ¬ env.dst_size < 4096 := by
    intro hlt
    revert hok
    unfold flash_write_verify
    simp [hlt]
  have h1 : t.buffer_4k =
      spi_flash_read env t.flash (u32 (t.flash_sector * 4096)) t.buffer_4k.length := by
    rw [hflash, hbuffer, hsector]
    exact hread.symm
  unfold flash_write_verify
  dsimp only
  simp only [h0, ← h1, ne_eq, not_true_eq_false, ↓reduceIte]
  refine ⟨trivial, rfl, ?_, trivial, trivial, ?_⟩
  · intro hlt
    show u32 (t.flash_sectors_skipped + 1) = t.flash_sectors_skipped + 1
    unfold u32
    omega
  · simp

/-- C14, witness: the three-byte sector write of the example session, run a
second time with the same buffer and cursor. -/
theorem C14_write_verify_idempotent_witness :
    (flash_write_verify example_env example_buffered).action = app_action_normal ∧
    (flash_write_verify example_env example_buffered).vars.flash_sectors_written = 1 ∧
    (flash_write_verify example_env example_buffered).vars.flash_sectors_skipped = 0 ∧
    (flash_write_verify example_env
      { (flash_write_verify example_env example_buffered).vars with
        buffer_4k := [1, 2, 3], flash_sector := 0x102 }).action = app_action_normal ∧
    (flash_write_verify example_env
      { (flash_write_verify example_env example_buffered).vars with
        buffer_4k := [1, 2, 3], flash_sector := 0x102 }).vars.flash_sectors_skipped = 1 ∧
    (flash_write_verify example_env
      { (flash_write_verify example_env example_buffered).vars with
        buffer_4k := [1, 2, 3], flash_sector := 0x102 }).vars.flash_sectors_written = 1 :=
  have h := C14_write_verify_idempotent example_env example_buffered
    { (flash_write_verify example_env example_buffered).vars with
      buffer_4k := [1, 2, 3], flash_sector := 0x102 } (by decide) rfl (by decide) (by decide)
  ⟨by decide, by decide, by decide, h.1, h.2.1.trans (by decide), h.2.2.2.1.trans (by decide)⟩

/-- C15, counterexample to the claim as stated.  With the correct flash driver
of `example_env`, the write session at start address 0 that declares a file
length of one byte and sends `2 ^ 32 + 1` zero bytes succeeds: the 32-bit
counter `data_transferred` has wrapped to 1, and its finish reports as local
digest the digest of the `2 ^ 32 + 1` bytes sent.  A read session on the state
it leaves, with one read-chunk covering the one byte at address 0, reports in
`READ_OK` one byte and the digest of that one byte, which differs.  The write
session at start address 0 that declares and sends `2 ^ 28 + 1` bytes of value
1 succeeds, no counter having wrapped, and its finish reports the digest of
the bytes sent; its last flush, at the cursor value `0x10000`, has erased
sector 0.  The read session `example_wide_reads` on the state it leaves covers
the `2 ^ 28 + 1` bytes from address 0 in chunks of at most 1024 bytes; it
reports in `READ_OK` that byte count and a digest that differs, the first byte
read being `0xff`. -/
theorem C15_long_session_digest :
    flash_correct example_env ∧
    example_long_sends.all ota_command.is_send = true ∧
    (ota_payloads example_long_sends).length = 4294967297 ∧
    ota_run_normal example_env example_long_start example_initial =
      some (ota_run example_env example_long_start example_initial) ∧
    (application_function_ota_finish example_env
      (some (example_env.md5_hex (List.replicate 4294967297 0)))
      (ota_run example_env example_long_start example_initial)).action = app_action_normal ∧
    (application_function_ota_finish example_env
      (some (example_env.md5_hex (List.replicate 4294967297 0)))
      (ota_run example_env example_long_start example_initial)).dst.local_digest =
      some (example_env.md5_hex (List.replicate 4294967297 0)) ∧
    (application_function_ota_finish example_env
      (some (example_env.md5_hex (List.replicate 4294967297 0)))
      (ota_run example_env example_long_start example_initial)).vars.flash_start_address = 0 ∧
    (application_function_ota_finish example_env
      (some (example_env.md5_hex (List.replicate 4294967297 0)))
      (ota_run example_env example_long_start example_initial)).vars.remote_file_length = 1 ∧
    ota_reads_cover 0 [.ota_receive (some 0) (some 1)] (0 + 1) = true ∧
    (∃ t1, ota_run_normal example_env [.ota_read false, .ota_receive (some 0) (some 1)]
        (application_function_ota_finish example_env
          (some (example_env.md5_hex (List.replicate 4294967297 0)))
          (ota_run example_env example_long_start example_initial)).vars = some t1 ∧
      (application_function_ota_finish example_env none t1).action = app_action_normal ∧
      (application_function_ota_finish example_env none t1).dst =
        .READ_OK (example_env.md5_hex [0]) 1 ∧
      example_env.md5_hex [0] ≠ example_env.md5_hex (List.replicate 4294967297 0)) ∧
    example_wide_sends.all ota_command.is_send = true ∧
    ota_payloads example_wide_sends = List.replicate 268435457 1 ∧
    ota_run_normal example_env example_wide_start example_initial =
      some (ota_run example_env example_wide_start example_initial) ∧
    (application_function_ota_finish example_env (some example_wide_digest)
      (ota_run example_env example_wide_start example_initial)).action = app_action_normal ∧
    (application_function_ota_finish example_env (some example_wide_digest)
      (ota_run example_env example_wide_start example_initial)).dst.local_digest =
      some example_wide_digest ∧
    (application_function_ota_finish example_env (some example_wide_digest)
      (ota_run example_env example_wide_start example_initial)).vars.flash_start_address = 0 ∧
    (application_function_ota_finish example_env (some example_wide_digest)
      (ota_run example_env example_wide_start example_initial)).vars.remote_file_length =
      268435457 ∧
    ota_reads_cover 0 example_wide_reads (0 + 268435457) = true ∧
    ∃ t1 D, ota_run_normal example_env (.ota_read false :: example_wide_reads)
        (application_function_ota_finish example_env (some example_wide_digest)
          (ota_run example_env example_wide_start example_initial)).vars = some t1 ∧
      (application_function_ota_finish example_env none t1).action = app_action_normal ∧
      (application_function_ota_finish example_env none t1).dst = .READ_OK D 268435457 ∧
      D ≠ example_wide_digest := by
  have hw : (application_function_ota_write example_env false (some 1) (some 0)
      example_initial).action = app_action_normal := by decide
  have hinv0 : zero_inv 0 (application_function_ota_write example_env false (some 1) (some 0)
      example_initial).vars := by
    refine ⟨by decide, by decide, rfl, by decide, by decide, by decide, by decide, by decide⟩
  obtain ⟨s2, hinv2, hrun2⟩ := zero_sends_run 1048576
    [.ota_send (some 1) (some 0) (some [0])] 0 _ hinv0
  obtain ⟨s1, hrun3, hfok, hdig, hfl, ha, hn⟩ :=
    zero_tail_digest (0 + 1048576) s2 hinv2 (by decide)
  have hrun : ota_run_normal example_env example_long_start example_initial = some s1 := by
    unfold example_long_start example_long_sends
    rw [ota_run_normal]
    simp only [ota_dispatch]
    rw [if_pos hw, hrun2]
    exact hrun3
  have hlen : (ota_payloads example_long_sends).length = 4294967297 := by
    unfold example_long_sends
    rw [zero_payloads]
    rfl
  have hs1 := ota_run_of_normal example_env example_long_start example_initial s1 hrun
  rw [hs1]
  obtain ⟨t1, r1, r2, r3⟩ := read_session_reply example_env
    (application_function_ota_finish example_env
      (some (example_env.md5_hex (List.replicate 4294967297 0))) s1).vars 0 1
    [.ota_receive (some 0) (some 1)] none (by decide) (by decide) (by decide) (by decide)
  refine ⟨example_flash_correct, example_long_sends_all, hlen, hrun, hfok, hdig, ha, hn,
    by decide, ⟨t1, r1, r2, ?_, ?_⟩, ?_⟩
  · rw [r3, hfl, zero_flash_read]
    rfl
  · intro h
    have hl := congrArg List.length h
    rw [example_md5_hex_length, example_md5_hex_length, List.length_replicate] at hl
    exact absurd hl (by decide)
  · obtain ⟨s1, hrun, hfok, hdig, hfl, ha, hn⟩ := wide_session_run
    have hs1 := ota_run_of_normal example_env example_wide_start example_initial s1 hrun
    rw [hs1]
    obtain ⟨t1, r1, r2, r3⟩ := read_session_reply example_env
      (application_function_ota_finish example_env (some example_wide_digest) s1).vars
      0 268435457 example_wide_reads none (by decide) (by decide) (by decide)
      example_wide_reads_cover
    refine ⟨example_wide_sends_all, example_wide_payloads, hrun, hfok, hdig, ha, hn,
      example_wide_reads_cover, t1, _, r1, r2, r3, ?_⟩
    intro hcon
    have hget := congrArg (fun l => l[0]?) hcon
    simp only at hget
    rw [example_md5_hex_head, spi_flash_read_get example_env _ _ _ 0 (by decide),
      example_flash_byte, Nat.add_zero, hfl] at hget
    have hw : example_wide_digest[0]? = some 'b' := by
      show (example_env.md5_hex (List.replicate 268435457 1))[0]? = some 'b'
      rw [example_md5_hex_head, List.getElem?_replicate]
      rfl
    rw [hw] at hget
    exact absurd hget (by decide)

/-- C15, as amended.  Digest round trip.  With a correct flash driver, take a
write session made of a start-write that returns success and leaves the
non-negative start address `A`, send-chunk commands that all return success and
whose payloads total `N` bytes, and a finish that returns success.  If `N` is
at most `2 ^ 28`, that is at most `0x10000` sectors, so that the sector index
modulo `0x10000` which the erase receives never names a sector the session has
already written, and the region of `N` bytes from `A` lies inside the 32-bit
address space, then the finish reports as local digest the digest `D` of the
payloads concatenated in order, and on any state whose flash is the flash
left by that finish, a read session (start-read, then read-chunks covering the
addresses from `A` to `A + N` contiguously in ascending order, each of length at
most 1024, then finish) succeeds at every command and its finish replies
`READ_OK` with the same digest `D` and the byte count `N`. -/
theorem C15_digest_round_trip {F : Type} (env : ota_env F) (hflash : flash_correct env)
    (s0 s1 t : ota_vars F) (wlan_scan_active : Bool) (arg1 : Option Nat) (arg2 : Option Int)
    (sends reads : List ota_command) (md5 md5_read : Option (List Char)) (A N : Nat)
    (hsends : sends.all ota_command.is_send = true)
    (hrun : ota_run_normal env (.ota_write wlan_scan_active arg1 arg2 :: sends) s0 = some s1)
    (hfin : (application_function_ota_finish env md5 s1).action = app_action_normal)
    (hA : (application_function_ota_write env wlan_scan_active arg1 arg2
      s0).vars.flash_start_address = (A : Int))
    (hN : (ota_payloads sends).length = N)
    (hfit : A + N ≤ 4294967296) (hlt : N ≤ 268435456)
    (hunmodified : t.flash = (application_function_ota_finish env md5 s1).vars.flash)
    (hcover : ota_reads_cover A reads (A + N) = true) :
    (application_function_ota_finish env md5 s1).dst.local_digest =
      some (env.md5_hex (ota_payloads sends)) ∧
    ∃ t1, ota_run_normal env (.ota_read false :: reads) t = some t1 ∧
      (application_function_ota_finish env md5_read t1).action = app_action_normal ∧
      (application_function_ota_finish env md5_read t1).dst =
        .READ_OK (env.md5_hex (ota_payloads sends)) N := by
  simp only [ota_run_normal, ota_dispatch] at hrun
  split at hrun
  · rename_i hwok
    have hbuf := ota_write_buffer_ok env wlan_scan_active arg1 arg2 s0 hwok
    obtain ⟨hAl, hinv, hdig⟩ := write_start_inv env wlan_scan_active arg1 arg2 s0 A hwok hA
    generalize (application_function_ota_write env wlan_scan_active arg1 arg2 s0).vars = w
      at hrun hinv hdig
    subst hN
    obtain ⟨s2, hinv2, hrun2⟩ := sends_keep_write_inv env hflash A w.remote_file_length hAl
      sends [] [] w s1 hinv hsends (by simpa using hfit) (by simpa using hlt)
      (by simpa using hrun)
    simp only [ota_run_normal, Option.some.injEq] at hrun2
    subst hrun2
    simp only [List.nil_append] at hinv2
    have hdig2 := sends_keep_digest_inv env sends [] w s2 hdig hsends hrun
    simp only [List.nil_append] at hdig2
    obtain ⟨_, f2, f3, f4⟩ := finish_completes_write_inv env hflash A w.remote_file_length hAl
      (ota_payloads sends) s2 hinv2 md5 hfit hlt hfin
    have hD := finish_reports_digest env (ota_payloads sends) s2 hinv2.1 hdig2 md5 hfin
    obtain ⟨t1, r1, r2, r3⟩ := read_session_reply env t A (ota_payloads sends).length reads
      md5_read hbuf hfit (by omega) hcover
    refine ⟨hD, t1, r1, r2, ?_⟩
    rw [r3, hunmodified, ← f3, f4]
  · simp at hrun

/-- C15, witness: the amended claim at `example_session`, which writes the three
bytes 1, 2, 3 at `0x102000` and reports the digest `bcd`; reading the three
bytes back in one chunk reports `bcd` and three bytes. -/
theorem C15_digest_round_trip_witness :
    flash_correct example_env ∧
    ota_run_normal example_env
      [.ota_write false (some 3) none, .ota_send (some 3) (some 6) (some [1, 2, 3])]
      example_initial = some example_buffered ∧
    (application_function_ota_finish example_env (some ['b', 'c', 'd'])
      example_buffered).dst.local_digest = some ['b', 'c', 'd'] ∧
    ∃ t1, ota_run_normal example_env
        [.ota_read false, .ota_receive (some 0x102000) (some 3)] example_successful = some t1 ∧
      (application_function_ota_finish example_env none t1).action = app_action_normal ∧
      (application_function_ota_finish example_env none t1).dst =
        .READ_OK ['b', 'c', 'd'] 3 :=
  have h := C15_digest_round_trip example_env example_flash_correct example_initial
    example_buffered example_successful false (some 3) none
    [.ota_send (some 3) (some 6) (some [1, 2, 3])] [.ota_receive (some 0x102000) (some 3)]
    (some ['b', 'c', 'd']) none 0x102000 3 (by decide)
    (ota_run_normal_eq example_env _ example_initial (by decide))
    (by decide) (by decide) (by decide) (by decide) (by decide) rfl (by decide)
  ⟨example_flash_correct, ota_run_normal_eq example_env _ example_initial (by decide),
    h.1, h.2⟩

/-- C16.  A start-read or a start-write issued while a radio scan is in
progress returns an error and leaves every variable as it was (state, byte
count, declared length, start address, slot, cursor, sector counters,
`buffer_4k`, digest context, flash chip, boot descriptor) and calls neither the
flash driver nor rboot, in every state and for all arguments. -/
theorem C16_scan_refuses_start {F : Type} (env : ota_env F) (s : ota_vars F)
    (arg1 : Option Nat) (arg2 : Option Int) :
    (application_function_ota_read env true s).action = app_action_error ∧
    (application_function_ota_read env true s).vars = s ∧
    (application_function_ota_write env true arg1 arg2 s).action = app_action_error ∧
    (application_function_ota_write env true arg1 arg2 s).vars = s := by
  unfold application_function_ota_read application_function_ota_write
  by_cases h0 : env.buffer_4k_size < 0x1000 <;> simp [h0]

/-- C17.  Pending write buffer bound.  In every state reached from start-up by
any sequence of commands, if the state is writing then `buffer_4k` holds fewer
than 4096 bytes.  A send-chunk received while writing whose payload is accepted
(declared length and CRC match) and would make the buffer longer than 4096
bytes returns the unaligned error and sets the state to inactive; one that
fills it to exactly 4096 bytes either succeeds leaving the buffer empty (it was
flushed) or returns an error with the state inactive. -/
theorem C17_buffer_bound {F : Type} (env : ota_env F) :
    (∀ (cs : List ota_command) (flash : F) (rboot : rboot_config),
      (ota_run env cs (ota_initial flash rboot)).ota_state = ota_writing →
      (ota_run env cs (ota_initial flash rboot)).buffer_4k.length < 0x1000) ∧
    (∀ (s : ota_vars F) (remote_chunk_length : Int) (remote_crc : Nat) (data : List Nat),
      s.ota_state = ota_writing → (data.length : Int) = remote_chunk_length →
      u32 (env.string_crc32 data) = u32 remote_crc →
      (s.buffer_4k ++ data).length > 0x1000 →
      (application_function_ota_send env (some remote_chunk_length) (some remote_crc)
        (some data) s).action = app_action_error ∧
      (application_function_ota_send env (some remote_chunk_length) (some remote_crc)
        (some data) s).dst = ota_reply.send_unaligned (s.buffer_4k ++ data).length ∧
      (application_function_ota_send env (some remote_chunk_length) (some remote_crc)
        (some data) s).vars.ota_state = ota_inactive) ∧
    (∀ (s : ota_vars F) (remote_chunk_length : Int) (remote_crc : Nat) (data : List Nat),
      s.ota_state = ota_writing → (data.length : Int) = remote_chunk_length →
      u32 (env.string_crc32 data) = u32 remote_crc →
      (s.buffer_4k ++ data).length = 0x1000 →
      ((application_function_ota_send env (some remote_chunk_length) (some remote_crc)
          (some data) s).action = app_action_normal ∧
        (application_function_ota_send env (some remote_chunk_length) (some remote_crc)
          (some data) s).vars.buffer_4k = []) ∨
      ((application_function_ota_send env (some remote_chunk_length) (some remote_crc)
          (some data) s).action = app_action_error ∧
        (application_function_ota_send env (some remote_chunk_length) (some remote_crc)
          (some data) s).vars.ota_state = ota_inactive)) := by
  refine ⟨?_, ?_, ?_⟩
  · intro cs flash rboot h
    exact (run_keeps_writing_inv env cs _ (initial_writing_inv flash rboot) h).1
  · intro s remote_chunk_length remote_crc data hs hl hcrc hlen
    subst hl
    unfold application_function_ota_send
    simp [hs, hcrc, string_splice]
    have hlen' : 4096 < s.buffer_4k.length + data.length := by
      simpa using hlen
    simp [hlen']
  · intro s remote_chunk_length remote_crc data hs hl hcrc hlen
    subst hl
    by_cases hok : (application_function_ota_send env (some (data.length : Int))
        (some remote_crc) (some data) s).action = app_action_normal
    · left
      refine ⟨hok, ?_⟩
      obtain ⟨_, d, hd, _, hcase⟩ := ota_send_normal env _ _ _ s hok
      simp only [Option.some.injEq] at hd
      subst hd
      rcases hcase with ⟨hlt, _⟩ | ⟨_, hfok, hv⟩
      · omega
      · rw [hv]
        exact (fwv_normal env _ hfok).2.2.1
    · right
      exact ota_send_error env _ _ _ s hok

/-- C17, witness: the buffer after one accepted chunk of three bytes; a chunk of
two bytes, and a chunk of one byte, sent when the buffer holds 4095 bytes. -/
theorem C17_buffer_bound_witness :
    example_buffered.ota_state = ota_writing ∧ example_buffered.buffer_4k.length < 0x1000 ∧
    (application_function_ota_send example_env (some 2) (some 0) (some [0, 0])
      { example_writing with buffer_4k := List.replicate 4095 0 }).action = app_action_error ∧
    (application_function_ota_send example_env (some 2) (some 0) (some [0, 0])
      { example_writing with buffer_4k := List.replicate 4095 0 }).dst =
      ota_reply.send_unaligned 4097 ∧
    (application_function_ota_send example_env (some 2) (some 0) (some [0, 0])
      { example_writing with buffer_4k := List.replicate 4095 0 }).vars.ota_state =
      ota_inactive ∧
    (((application_function_ota_send example_env (some 1) (some 0) (some [0])
          { example_writing with buffer_4k := List.replicate 4095 0 }).action =
        app_action_normal ∧
      (application_function_ota_send example_env (some 1) (some 0) (some [0])
          { example_writing with buffer_4k := List.replicate 4095 0 }).vars.buffer_4k = []) ∨
    ((application_function_ota_send example_env (some 1) (some 0) (some [0])
          { example_writing with buffer_4k := List.replicate 4095 0 }).action =
        app_action_error ∧
      (application_function_ota_send example_env (some 1) (some 0) (some [0])
          { example_writing with buffer_4k := List.replicate 4095 0 }).vars.ota_state =
        ota_inactive)) :=
  have h1 := (C17_buffer_bound example_env).1
    [.ota_write false (some 3) none, .ota_send (some 3) (some 6) (some [1, 2, 3])]
    (fun _ => 0) example_rboot (by decide)
  have h2 := (C17_buffer_bound example_env).2.1
    { example_writing with buffer_4k := List.replicate 4095 0 } 2 0 [0, 0] (by decide)
    (by decide) (by decide)
    (by simp only [List.length_append, List.length_replicate, List.length_cons,
      List.length_nil]; decide)
  ⟨by decide, h1, h2.1,
    h2.2.1.trans (by simp only [List.length_append, List.length_replicate, List.length_cons,
      List.length_nil]),
    h2.2.2,
    (C17_buffer_bound example_env).2.2
      { example_writing with buffer_4k := List.replicate 4095 0 } 1 0 [0] (by decide)
      (by decide) (by decide)
      (by simp only [List.length_append, List.length_replicate, List.length_cons,
        List.length_nil])⟩

/-- C18, counterexample to the claim as stated.  The session
`example_long_session` transfers `2 ^ 20` chunks of 4096 zero bytes and one
chunk of one zero byte over all-zero flash, declares a file length of one byte
and finishes successfully; it has skipped `2 ^ 20 + 1` sectors and written
none, while its `remote_file_length` divided by 4096 and rounded up is 1. -/
theorem C18_long_session_count :
    example_long_sends.all ota_command.is_send = true ∧
    ota_run_normal example_env example_long_session example_initial =
      some (ota_run example_env example_long_session example_initial) ∧
    (ota_run example_env example_long_session example_initial).remote_file_length = 1 ∧
    (ota_run example_env example_long_session example_initial).flash_sectors_written +
      (ota_run example_env example_long_session example_initial).flash_sectors_skipped =
      1048577 ∧
    ((ota_run example_env example_long_session example_initial).remote_file_length + 4095) /
      4096 = 1 := by
  have hw : (application_function_ota_write example_env false (some 1) (some 0)
      example_initial).action = app_action_normal := by decide
  have hinv0 : zero_count_inv 0 (application_function_ota_write example_env false (some 1)
      (some 0) example_initial).vars := by
    refine ⟨⟨by decide, by decide, rfl, by decide, by decide, by decide, by decide, by decide⟩,
      by decide, by decide⟩
  obtain ⟨s2, hinv2, hrun2⟩ := zero_sends_count 1048576
    [.ota_send (some 1) (some 0) (some [0]),
      .ota_finish (some (example_env.md5_hex (List.replicate 4294967297 0)))] 0 _ hinv0
  obtain ⟨s', hrun3, hn, hwr, hsk⟩ := zero_tail_count (0 + 1048576) s2 hinv2 (by decide)
  have hrun : ota_run_normal example_env example_long_session example_initial = some s' := by
    unfold example_long_session example_long_sends
    rw [List.cons_append, ota_run_normal]
    simp only [ota_dispatch]
    rw [if_pos hw, List.append_assoc]
    simp only [List.singleton_append]
    rw [hrun2]
    exact hrun3
  have hrun' := ota_run_of_normal example_env _ _ _ hrun
  refine ⟨?_, ?_, ?_, ?_, ?_⟩
  · rw [List.all_eq_true]
    intro c hc
    unfold example_long_sends at hc
    rw [List.mem_append] at hc
    rcases hc with hc | hc
    · rw [List.eq_of_mem_replicate hc]
      rfl
    · rw [List.mem_singleton] at hc
      rw [hc]
      rfl
  · rw [hrun']
    exact hrun
  · rw [hrun']
    exact hn
  · rw [hrun', hwr, hsk]
    decide
  · rw [hrun', hn]

/-- C18, as amended.  Sector accounting.  In every state reached from start-up
by any sequence of commands, if the state is writing then `data_transferred`
is 4096 times `flash_sectors_written + flash_sectors_skipped`, modulo `2 ^ 32`.
For every write session (a start-write, send-chunks and a finish that all
return success) whose payloads total fewer than `2 ^ 32` bytes, the two
counters add up to `remote_file_length` divided by 4096, rounded up.  A
session started with file length 4096 whose only chunk, of 4096 bytes, differs
from the content of the target sector and is accepted, and whose finish
succeeds, ends with `flash_sectors_written` 1 and `flash_sectors_skipped` 0 and
reports these in its reply. -/
theorem C18_sector_accounting {F : Type} (env : ota_env F) :
    (∀ (cs : List ota_command) (flash : F) (rboot : rboot_config),
      (ota_run env cs (ota_initial flash rboot)).ota_state = ota_writing →
      (ota_run env cs (ota_initial flash rboot)).data_transferred % 4294967296 =
        (0x1000 * ((ota_run env cs (ota_initial flash rboot)).flash_sectors_written +
          (ota_run env cs (ota_initial flash rboot)).flash_sectors_skipped)) % 4294967296) ∧
    (∀ (s0 s' : ota_vars F) (wlan_scan_active : Bool) (arg1 : Option Nat) (arg2 : Option Int)
      (sends : List ota_command) (md5 : Option (List Char)),
      sends.all ota_command.is_send = true →
      ota_run_normal env
        (.ota_write wlan_scan_active arg1 arg2 :: sends ++ [.ota_finish md5]) s0 = some s' →
      (ota_payloads sends).length < 4294967296 →
      s'.flash_sectors_written + s'.flash_sectors_skipped =
        (s'.remote_file_length + 4095) / 4096) ∧
    (∀ (s0 s1 s2 : ota_vars F) (wlan_scan_active : Bool) (arg2 : Option Int)
      (remote_crc : Nat) (data : List Nat) (md5 : Option (List Char)),
      (application_function_ota_write env wlan_scan_active (some 4096) arg2 s0).action =
        app_action_normal →
      s1 = (application_function_ota_write env wlan_scan_active (some 4096) arg2 s0).vars →
      data.length = 4096 →
      data ≠ spi_flash_read env s1.flash (u32 (s1.flash_sector * 0x1000)) 4096 →
      (application_function_ota_send env (some 4096) (some remote_crc) (some data) s1).action =
        app_action_normal →
      s2 = (application_function_ota_send env (some 4096) (some remote_crc) (some data)
        s1).vars →
      (application_function_ota_finish env md5 s2).action = app_action_normal →
      (application_function_ota_finish env md5 s2).vars.flash_sectors_written = 1 ∧
      (application_function_ota_finish env md5 s2).vars.flash_sectors_skipped = 0 ∧
      (application_function_ota_finish env md5 s2).vars.remote_file_length = 4096 ∧
      ∃ l r, (application_function_ota_finish env md5 s2).dst = ota_reply.WRITE_OK l r 1 0 ∨
        (application_function_ota_finish env md5 s2).dst =
          ota_reply.PARTIAL_WRITE_OK l r 1 0) := by
  refine ⟨?_, ?_, ?_⟩
  · intro cs flash rboot h
    rw [(run_keeps_writing_inv env cs _ (initial_writing_inv flash rboot) h).2]
    unfold u32
    omega
  · intro s0 s' scan arg1 arg2 sends md5 hsends hrun hlt
    simp only [List.cons_append, ota_run_normal, ota_dispatch] at hrun
    split at hrun
    · rename_i hwok
      obtain ⟨w1, w2, w3, _, w5, w6, _⟩ := ota_write_normal env scan arg1 arg2 s0 hwok
      have hinv : count_inv [] (application_function_ota_write env scan arg1 arg2 s0).vars := by
        refine ⟨w1, ?_, 0, ?_, ?_, ?_⟩
        · rw [w2]
          decide
        · rw [w5, w6]
        · rw [w3]
        · rw [w2]
          rfl
      obtain ⟨s3, hinv3, hrun3⟩ := sends_keep_count_inv env sends [.ota_finish md5] [] _ s'
        hinv hsends (by simpa using hlt) hrun
      simp only [ota_run_normal, ota_dispatch] at hrun3
      split at hrun3
      · rename_i hfok
        simp only [Option.some.injEq] at hrun3
        subst hrun3
        simp only [List.nil_append] at hinv3
        exact (finish_completes_count_inv env _ s3 hinv3 md5 hlt hfok).2
      · simp at hrun3
    · simp at hrun
  · intro s0 s1 s2 scan arg2 remote_crc data md5 hwok hs1 hlen hdiff hsok hs2 hfok
    obtain ⟨w1, w2, w3, _, w5, w6, _⟩ := ota_write_normal env scan (some 4096) arg2 s0 hwok
    rw [← hs1] at w1 w2 w3 w5 w6
    have wN : s1.remote_file_length = 4096 := by
      rw [hs1]
      have hframe : ∀ v : ota_vars F, (ota_write_start v).vars.remote_file_length =
          v.remote_file_length := by
        intro v
        unfold ota_write_start
        split <;> rfl
      revert hwok
      unfold application_function_ota_write
      split
      · simp
      · split
        · simp
        · dsimp only
          split
          · split
            · simp
            · split
              · simp
              · intro _
                rw [hframe]
                rfl
          · intro _
            rw [hframe]
            rfl
    obtain ⟨_, d, hd, _, hcase⟩ := ota_send_normal env _ _ _ s1 hsok
    simp only [Option.some.injEq] at hd
    subst hd
    rcases hcase with ⟨hlt, _⟩ | ⟨_, hflush, hv⟩
    · rw [w2, List.nil_append, hlen] at hlt
      omega
    · rw [← hs2] at hv
      have h0 : ¬ env.dst_size < 0x1000 := by
        intro hlt
        revert hflush
        unfold flash_write_verify
        simp [hlt]
      have hdiff' : ({ s1 with buffer_4k := s1.buffer_4k ++ data } : ota_vars F).buffer_4k ≠
          spi_flash_read env ({ s1 with buffer_4k := s1.buffer_4k ++ data } : ota_vars F).flash
            (u32 (({ s1 with buffer_4k := s1.buffer_4k ++ data } : ota_vars F).flash_sector *
              0x1000))
            ({ s1 with buffer_4k := s1.buffer_4k ++ data } : ota_vars F).buffer_4k.length := by
        show s1.buffer_4k ++ data ≠
          spi_flash_read env s1.flash (u32 (s1.flash_sector * 0x1000))
            (s1.buffer_4k ++ data).length
        rw [w2, List.nil_append, hlen]
        exact hdiff
      obtain ⟨c1, c2⟩ := (fwv_counters env _).2.2 h0 hdiff'
      obtain ⟨_, n2, n3, _, _⟩ := fwv_normal env _ hflush
      have hfr := fwv_frame env { s1 with buffer_4k := s1.buffer_4k ++ data }
      rw [← hv] at c1 c2 n2 n3 hfr
      have hst2 : s2.ota_state = ota_writing := hfr.1.trans w1
      have hw2 : s2.flash_sectors_written = 1 := by
        rw [c1]
        show u32 (s1.flash_sectors_written + 1) = 1
        rw [w5]
        rfl
      have hk2 : s2.flash_sectors_skipped = 0 := by
        rw [c2]
        exact w6
      have hff : ota_final_flush env s2 = ⟨app_action_normal, .unchanged, s2⟩ := by
        simp [ota_final_flush, n3]
      obtain ⟨_, _, _, hvf⟩ := ota_finish_normal env md5 s2 hst2 hfok
      obtain ⟨r, _, hdst⟩ := ota_finish_normal_dst env md5 s2 hst2 hfok
      rw [hff] at hvf hdst
      dsimp only at hvf hdst
      rw [hw2, hk2] at hdst
      refine ⟨by rw [hvf]; exact hw2, by rw [hvf]; exact hk2, ?_, env.md5_hex s2.md5, r, ?_⟩
      · rw [hvf]
        exact hfr.2.1.trans wN
      · rw [hdst]
        split
        · right
          rfl
        · left
          rfl

/-- C18, witness: the writing state after one buffered chunk; the example
session of three bytes (one sector written, none skipped, and
`(3 + 4095) / 4096 = 1`); and a session of one chunk of 4096 zero bytes with
file length 4096 over flash that holds the byte 1 everywhere. -/
theorem C18_sector_accounting_witness :
    example_buffered.ota_state = ota_writing ∧
    example_buffered.data_transferred % 4294967296 =
      (0x1000 * (example_buffered.flash_sectors_written +
        example_buffered.flash_sectors_skipped)) % 4294967296 ∧
    example_successful.flash_sectors_written + example_successful.flash_sectors_skipped =
      (example_successful.remote_file_length + 4095) / 4096 ∧
    example_successful.remote_file_length = 3 ∧
    (application_function_ota_send example_env (some 4096) (some 0) (some example_zero_chunk)
      example_ones_writing).action = app_action_normal ∧
    (application_function_ota_finish example_env
      (some (example_env.md5_hex example_zero_chunk))
      (application_function_ota_send example_env (some 4096) (some 0)
        (some example_zero_chunk) example_ones_writing).vars).action = app_action_normal ∧
    (application_function_ota_finish example_env
      (some (example_env.md5_hex example_zero_chunk))
      (application_function_ota_send example_env (some 4096) (some 0)
        (some example_zero_chunk) example_ones_writing).vars).vars.flash_sectors_written = 1 ∧
    (application_function_ota_finish example_env
      (some (example_env.md5_hex example_zero_chunk))
      (application_function_ota_send example_env (some 4096) (some 0)
        (some example_zero_chunk) example_ones_writing).vars).vars.flash_sectors_skipped = 0 := by
  have hlen : example_zero_chunk.length = 4096 := List.length_replicate _ _
  have hwok : (application_function_ota_write example_env false (some 4096) (some 0x3000)
      example_ones_initial).action = app_action_normal := by decide
  have hb : example_ones_writing.buffer_4k = [] := by decide
  have hdiff : example_zero_chunk ≠ spi_flash_read example_env example_ones_writing.flash
      (u32 (example_ones_writing.flash_sector * 0x1000)) 4096 := by
    have hf : example_ones_writing.flash = (fun _ => 1) := rfl
    rw [hf, const_flash_read]
    intro h
    have h2 := congrArg List.head? h
    unfold example_zero_chunk at h2
    rw [List.head?_replicate, List.head?_replicate] at h2
    simp at h2
  have hone := example_one_sector_session example_ones_writing (by decide) hb (by decide)
    (by decide) (by decide) example_zero_chunk hlen 0
    (by rw [show example_zero_chunk = List.replicate 4096 0 from rfl, zero_crc])
  have h1 := (C18_sector_accounting example_env).1
    [.ota_write false (some 3) none, .ota_send (some 3) (some 6) (some [1, 2, 3])]
    (fun _ => 0) example_rboot (by decide)
  have h2 := (C18_sector_accounting example_env).2.1 example_initial example_successful false
    (some 3) none [.ota_send (some 3) (some 6) (some [1, 2, 3])] (some ['b', 'c', 'd'])
    (by decide) (ota_run_normal_eq example_env example_session example_initial (by decide))
    (by decide)
  have h3 := (C18_sector_accounting example_env).2.2 example_ones_initial example_ones_writing
    (application_function_ota_send example_env (some 4096) (some 0)
      (some example_zero_chunk) example_ones_writing).vars false (some 0x3000) 0
    example_zero_chunk (some (example_env.md5_hex example_zero_chunk)) hwok rfl hlen hdiff
    hone.1 rfl hone.2
  exact ⟨by decide, h1, h2, by decide, hone.1, hone.2, h3.1, h3.2.1⟩

/-- C19.  Verify failure is fatal, for any flash driver.  Whenever the bytes
re-read from the sector after the write-or-skip step differ from the buffer,
`flash_write_verify` returns an error (the verify-mismatch message, the verify
buffer being large enough for the re-read to take place) without advancing the
sector cursor or `data_transferred`.  A send-chunk that fills the buffer to
4096 bytes and meets such a failure, and a finish with a non-empty buffer that
meets it, return that error with the state inactive; the finish does so
whatever its digest argument, so the state is not successful and the reply is
neither WRITE_OK nor PARTIAL_WRITE_OK. -/
theorem C19_verify_failure_fatal {F : Type} (env : ota_env F) (s : ota_vars F) :
    (fwv_reread env s ≠ s.buffer_4k →
      (flash_write_verify env s).action = app_action_error ∧
      (¬ env.dst_size < 0x1000 → (flash_write_verify env s).dst = ota_reply.verify_mismatch) ∧
      (flash_write_verify env s).vars.flash_sector = s.flash_sector ∧
      (flash_write_verify env s).vars.data_transferred = s.data_transferred) ∧
    (∀ (remote_chunk_length : Int) (remote_crc : Nat) (data : List Nat),
      s.ota_state = ota_writing → (data.length : Int) = remote_chunk_length →
      u32 (env.string_crc32 data) = u32 remote_crc →
      (s.buffer_4k ++ data).length = 0x1000 →
      fwv_reread env { s with buffer_4k := s.buffer_4k ++ data } ≠ s.buffer_4k ++ data →
      (application_function_ota_send env (some remote_chunk_length) (some remote_crc)
        (some data) s).action = app_action_error ∧
      (application_function_ota_send env (some remote_chunk_length) (some remote_crc)
        (some data) s).dst =
        (flash_write_verify env { s with buffer_4k := s.buffer_4k ++ data }).dst ∧
      (application_function_ota_send env (some remote_chunk_length) (some remote_crc)
        (some data) s).vars.ota_state = ota_inactive ∧
      (application_function_ota_send env (some remote_chunk_length) (some remote_crc)
        (some data) s).vars.flash_sector = s.flash_sector ∧
      (application_function_ota_send env (some remote_chunk_length) (some remote_crc)
        (some data) s).vars.data_transferred = s.data_transferred) ∧
    (∀ arg1 : Option (List Char),
      s.ota_state = ota_writing → s.buffer_4k.length > 0 → fwv_reread env s ≠ s.buffer_4k →
      (application_function_ota_finish env arg1 s).action = app_action_error ∧
      (application_function_ota_finish env arg1 s).vars.ota_state = ota_inactive ∧
      (∀ remote_md5_string, arg1 = some remote_md5_string →
        (application_function_ota_finish env arg1 s).dst = (flash_write_verify env s).dst) ∧
      (∀ l r w k, (application_function_ota_finish env arg1 s).dst ≠
          ota_reply.WRITE_OK l r w k ∧
        (application_function_ota_finish env arg1 s).dst ≠
          ota_reply.PARTIAL_WRITE_OK l r w k)) := by
  refine ⟨?_, ?_, ?_⟩
  · intro h
    obtain ⟨h1, h2, h3, _, h5, _⟩ := fwv_mismatch env s h
    exact ⟨h1, h5, h2, h3⟩
  · intro l crc data hs hl hcrc hlen h
    obtain ⟨h1, h2, h3, _, _, _⟩ := fwv_mismatch env _ h
    unfold application_function_ota_send
    have c1 : ¬ (s.ota_state ≠ ota_writing) := by simp [hs]
    have c2 : ¬ ((data.length : Int) ≠ l) := by simp [hl]
    have c3 : ¬ (u32 (env.string_crc32 data) ≠ u32 crc) := by simp [hcrc]
    have c6 : string_splice s.buffer_4k data = s.buffer_4k ++ data := rfl
    have c4 : ¬ ((s.buffer_4k ++ data).length > 0x1000) := by omega
    rw [if_neg c1]
    dsimp only
    rw [if_neg c2, if_neg c3, c6, if_neg c4, if_pos hlen, if_pos (by rw [h1]; decide)]
    exact ⟨h1, rfl, rfl, h2, h3⟩
  · intro arg1 hs hb h
    obtain ⟨h1, _, _, _, h5, h6⟩ := fwv_mismatch env s h
    have hff : ota_final_flush env s = flash_write_verify env s := by
      simp [ota_final_flush, hb]
    have hdst : (flash_write_verify env s).dst = ota_reply.verify_mismatch ∨
        (flash_write_verify env s).dst = ota_reply.verify_buffer_too_small env.dst_size := by
      by_cases h0 : env.dst_size < 0x1000
      · exact Or.inr (h6 h0)
      · exact Or.inl (h5 h0)
    unfold application_function_ota_finish
    cases arg1 with
    | none => simp [hs]
    | some m =>
      simp only [hs, reduceCtorEq, ↓reduceIte, hff, hb, h1, ne_eq, not_false_eq_true, and_self,
        true_and, Option.some.injEq, forall_eq']
      rcases hdst with e | e <;> simp [e]

/-- C19, witness: over a flash chip that loses writes, the flush of the three
buffered bytes 1, 2, 3 re-reads the erased sector; `flash_write_verify` and the
finish that calls it fail, and so does a send-chunk of 4093 bytes of value 1
that fills the buffer to 4096 bytes. -/
theorem C19_verify_failure_fatal_witness :
    fwv_reread example_env_faulty example_buffered = [255, 255, 255] ∧
    example_buffered.buffer_4k = [1, 2, 3] ∧
    (flash_write_verify example_env_faulty example_buffered).action = app_action_error ∧
    (flash_write_verify example_env_faulty example_buffered).dst = ota_reply.verify_mismatch ∧
    (flash_write_verify example_env_faulty example_buffered).vars.flash_sector =
      example_buffered.flash_sector ∧
    (flash_write_verify example_env_faulty example_buffered).vars.data_transferred = 0 ∧
    (application_function_ota_finish example_env_faulty (some ['b', 'c', 'd'])
      example_buffered).action = app_action_error ∧
    (application_function_ota_finish example_env_faulty (some ['b', 'c', 'd'])
      example_buffered).dst = ota_reply.verify_mismatch ∧
    (application_function_ota_finish example_env_faulty (some ['b', 'c', 'd'])
      example_buffered).vars.ota_state = ota_inactive ∧
    (example_buffered.buffer_4k ++ List.replicate 4093 1).length = 0x1000 ∧
    (application_function_ota_send example_env_faulty (some 4093)
      (some (example_env_faulty.string_crc32 (List.replicate 4093 1)))
      (some (List.replicate 4093 1)) example_buffered).action = app_action_error ∧
    (application_function_ota_send example_env_faulty (some 4093)
      (some (example_env_faulty.string_crc32 (List.replicate 4093 1)))
      (some (List.replicate 4093 1)) example_buffered).vars.ota_state = ota_inactive :=
  have h := C19_verify_failure_fatal example_env_faulty example_buffered
  have h1 := h.1 (by decide)
  have h3 := h.2.2 (some ['b', 'c', 'd']) (by decide) (by decide) (by decide)
  have hb : example_buffered.buffer_4k = [1, 2, 3] := by decide
  have hlen : (example_buffered.buffer_4k ++ List.replicate 4093 1).length = 0x1000 := by
    rw [hb]
    exact example_filled_buffer.1
  have h2 := h.2.1 4093 (example_env_faulty.string_crc32 (List.replicate 4093 1))
    (List.replicate 4093 1) (by decide)
    (by rw [List.length_replicate]; rfl) rfl hlen
    (faulty_reread_ne _ ([1, 2, 3] ++ List.replicate 4093 1) rfl (by decide)
      (congrArg (fun b => b ++ List.replicate 4093 1) hb)
      (le_of_eq example_filled_buffer.1) example_filled_buffer.2.1 example_filled_buffer.2.2)
  ⟨by decide, hb, h1.1, h1.2.1 (by decide), h1.2.2.1, h1.2.2.2.trans (by decide),
    h3.1, (h3.2.2.1 _ rfl).trans (h1.2.1 (by decide)), h3.2.1, hlen, h2.1, h2.2.2.1⟩

/-- C20, counterexample to the claim as stated.  Over the ideal flash driver,
the session `example_negative_session` starts at the aligned start address
-4096, so at the cursor value `0xffffffff`, and succeeds; its one flush writes
at the address `0xffffffff * 0x1000` taken modulo `2 ^ 32`, that is
`0xfffff000`, and the cursor wraps to 0.  The byte at `0xfffff000`, in the
sector of index `0xfffff`, which is below the starting cursor (and at or above
the final cursor), has changed from 0 to 1.  The session
`example_high_session` starts at the aligned start address `0x10000000`, so at
the cursor value `0x10000`, and succeeds; its one flush, made by the finish at
that cursor value, erases the sector `0x10000 % 0x10000`, that is sector 0, which
is not the sector at the cursor and lies below the starting cursor: the byte at
address 0 has changed from 0 to `0xff`. -/
theorem C20_negative_address_session :
    flash_correct example_env ∧
    ota_run_normal example_env example_negative_session example_initial =
      some (ota_run example_env example_negative_session example_initial) ∧
    (application_function_ota_write example_env false (some 3) (some (-4096))
      example_initial).vars.flash_sector = 0xffffffff ∧
    (ota_run example_env example_negative_session example_initial).flash_sector = 0 ∧
    (0xfffff : Nat) < 0xffffffff ∧
    example_initial.flash (0xfffff * 0x1000 + 0) = 0 ∧
    (ota_run example_env example_negative_session example_initial).flash
      (0xfffff * 0x1000 + 0) = 1 ∧
    ota_run_normal example_env example_high_session example_initial =
      some (ota_run example_env example_high_session example_initial) ∧
    (application_function_ota_write example_env false (some 3) (some 0x10000000)
      example_initial).vars.flash_sector = 0x10000 ∧
    (ota_run example_env example_high_session example_initial).flash_sector = 0x10001 ∧
    (ota_run example_env example_high_session example_initial).flash_log =
      [flash_op.read 0x10000000 3, flash_op.erase_sector 0,
        flash_op.write 0x10000000 [1, 2, 3], flash_op.read 0x10000000 3] ∧
    (0 : Nat) < 0x10000 ∧
    example_initial.flash (0 * 0x1000 + 0) = 0 ∧
    (ota_run example_env example_high_session example_initial).flash (0 * 0x1000 + 0) =
      0xff :=
  ⟨example_flash_correct,
    ota_run_normal_eq example_env example_negative_session example_initial (by decide),
    by decide, by decide, by decide, by decide, by decide,
    ota_run_normal_eq example_env example_high_session example_initial (by decide),
    by decide, by decide, by decide, by decide, by decide, by decide⟩

/-- C20, as amended.  Flash frame.  Start-read, start-write, commit and a finish
received in the reading state leave the flash chip as it was and call no flash
driver function; a read-chunk leaves the chip as it was and calls at most one
read.  A send-chunk or a finish does nothing to the chip but reads, or else,
the sector read at the cursor differing from the buffer, erases once the sector
whose index is the cursor value on entry modulo `0x10000` and writes the buffer
once, at the address cursor times 4096 modulo `2 ^ 32`.  Consequently, with a
correct flash driver, take a start-write that succeeds and leaves a start
address that is not negative, followed by any sequence of commands other than
start-write, whatever each of them returns, whose send-chunk payloads end at or
below `2 ^ 32` counted from the start address.  The cursor does not go below the value
left by start-write, and every byte of every sector with index below that value
or at or above the final cursor value is unchanged, provided the index is not
the value modulo `0x10000` of a cursor value the session has passed, which is
so for every such sector when the final cursor value is at most `0x10000`. -/
theorem C20_flash_frame {F : Type} (env : ota_env F) :
    (∀ (s : ota_vars F) (scan : Bool) (arg1 : Option Nat) (arg2 : Option Int)
      (a1 a2 : Option Nat) (md5 : Option (List Char)),
      ((application_function_ota_read env scan s).vars.flash = s.flash ∧
        (application_function_ota_read env scan s).vars.flash_log = s.flash_log) ∧
      ((application_function_ota_write env scan arg1 arg2 s).vars.flash = s.flash ∧
        (application_function_ota_write env scan arg1 arg2 s).vars.flash_log = s.flash_log) ∧
      ((application_function_ota_commit env s).vars.flash = s.flash ∧
        (application_function_ota_commit env s).vars.flash_log = s.flash_log) ∧
      (s.ota_state = ota_reading →
        (application_function_ota_finish env md5 s).vars.flash = s.flash ∧
        (application_function_ota_finish env md5 s).vars.flash_log = s.flash_log) ∧
      ((application_function_ota_receive env a1 a2 s).vars.flash = s.flash ∧
        ((application_function_ota_receive env a1 a2 s).vars.flash_log = s.flash_log ∨
          ∃ address length, (application_function_ota_receive env a1 a2 s).vars.flash_log =
            s.flash_log ++ [flash_op.read address length]))) ∧
    (∀ (s : ota_vars F) (arg1 : Option Int) (arg2 : Option Nat) (chunk : Option (List Nat))
      (md5 : Option (List Char)),
      flash_step env s (s.buffer_4k ++ chunk.getD [])
        (application_function_ota_send env arg1 arg2 chunk s).vars ∧
      flash_step env s s.buffer_4k (application_function_ota_finish env md5 s).vars) ∧
    (flash_correct env →
      ∀ (s0 : ota_vars F) (wlan_scan_active : Bool) (arg1 : Option Nat) (arg2 : Option Int)
        (cs : List ota_command),
        (application_function_ota_write env wlan_scan_active arg1 arg2 s0).action =
          app_action_normal →
        0 ≤ (application_function_ota_write env wlan_scan_active arg1 arg2
          s0).vars.flash_start_address →
        cs.all (fun c => !c.is_write) = true →
        (application_function_ota_write env wlan_scan_active arg1 arg2
          s0).vars.flash_start_address.toNat + (ota_payloads cs).length ≤ 4294967296 →
        (application_function_ota_write env wlan_scan_active arg1 arg2 s0).vars.flash_sector ≤
          (ota_run env (.ota_write wlan_scan_active arg1 arg2 :: cs) s0).flash_sector ∧
        ∀ sector i : Nat,
          sector < (application_function_ota_write env wlan_scan_active arg1 arg2
              s0).vars.flash_sector ∨
            (ota_run env (.ota_write wlan_scan_active arg1 arg2 :: cs) s0).flash_sector ≤
              sector →
          (∀ c : Nat,
              (application_function_ota_write env wlan_scan_active arg1 arg2
                s0).vars.flash_sector ≤ c →
              c < (ota_run env (.ota_write wlan_scan_active arg1 arg2 :: cs) s0).flash_sector →
              c % 0x10000 ≠ sector) ∨
            (ota_run env (.ota_write wlan_scan_active arg1 arg2 :: cs) s0).flash_sector ≤
              0x10000 →
          i < 0x1000 →
          env.flash_byte (ota_run env (.ota_write wlan_scan_active arg1 arg2 :: cs) s0).flash
              (sector * 0x1000 + i) =
            env.flash_byte s0.flash (sector * 0x1000 + i)) := by
  refine ⟨?_, ?_, ?_⟩
  · intro s scan arg1 arg2 a1 a2 md5
    refine ⟨?_, ?_, ?_, ?_, ?_⟩
    · unfold application_function_ota_read
      split
      · exact ⟨rfl, rfl⟩
      · split <;> exact ⟨rfl, rfl⟩
    · by_cases hok : (application_function_ota_write env scan arg1 arg2 s).action =
          app_action_normal
      · obtain ⟨_, _, _, _, _, _, _, _, w9, w10, _⟩ :=
          ota_write_normal env scan arg1 arg2 s hok
        exact ⟨w9, w10⟩
      · obtain ⟨_, _, _, _, _, _, _, _, e9, e10, _⟩ := ota_write_error env scan arg1 arg2 s hok
        exact ⟨e9, e10⟩
    · unfold application_function_ota_commit
      split
      · exact ⟨rfl, rfl⟩
      · split
        · exact ⟨rfl, rfl⟩
        · dsimp only
          split <;> exact ⟨rfl, rfl⟩
    · intro hs
      unfold application_function_ota_finish
      rw [if_pos hs]
      exact ⟨rfl, rfl⟩
    · unfold application_function_ota_receive
      split
      · exact ⟨rfl, Or.inl rfl⟩
      · cases a1 with
        | none => exact ⟨rfl, Or.inl rfl⟩
        | some a =>
          cases a2 with
          | none => exact ⟨rfl, Or.inl rfl⟩
          | some c =>
            dsimp only
            split
            · exact ⟨rfl, Or.inl rfl⟩
            · exact ⟨rfl, Or.inr ⟨_, _, rfl⟩⟩
  · intro s arg1 arg2 chunk md5
    exact ⟨ota_send_flash_step env arg1 arg2 chunk s, ota_finish_flash_step env md5 s⟩
  · intro hflash s0 scan arg1 arg2 cs hwok hnonneg hcs hfit
    have hrun : ota_run env (.ota_write scan arg1 arg2 :: cs) s0 =
        ota_run env cs (application_function_ota_write env scan arg1 arg2 s0).vars := rfl
    rw [hrun]
    obtain ⟨h1, h2, _⟩ := run_keeps_session_inv env hflash _ s0.flash cs _ hcs
      (write_start_session_inv env scan arg1 arg2 s0 _ hwok hnonneg hfit)
    refine ⟨h1, ?_⟩
    intro sector i hsector hmod hi
    apply h2 sector i hi hsector
    rcases hmod with hmod | hmod
    · exact hmod
    · intro c hc1 hc2
      have hc : c % 0x10000 = c := Nat.mod_eq_of_lt (by omega)
      rw [hc]
      omega

/-- C20, witness: the flush of the three buffered bytes of the example session
erases sector `0x102` and writes at `0x102000`; over the whole example session,
and over the same session finished with a wrong digest, which returns an error
after the flush, the byte just below the slot and the first byte of the next
sector keep their value. -/
theorem C20_flash_frame_witness :
    flash_step example_env example_buffered [1, 2, 3]
      (application_function_ota_finish example_env (some ['b', 'c', 'd'])
        example_buffered).vars ∧
    (application_function_ota_finish example_env (some ['b', 'c', 'd'])
      example_buffered).vars.flash_log =
      [flash_op.read 0x102000 3, flash_op.erase_sector 0x102,
        flash_op.write 0x102000 [1, 2, 3], flash_op.read 0x102000 3] ∧
    example_successful.flash_sector = 0x103 ∧
    example_env.flash_byte example_successful.flash (0x101 * 0x1000 + 0xfff) =
      example_env.flash_byte example_initial.flash (0x101 * 0x1000 + 0xfff) ∧
    example_env.flash_byte example_successful.flash (0x103 * 0x1000 + 0) =
      example_env.flash_byte example_initial.flash (0x103 * 0x1000 + 0) ∧
    (application_function_ota_finish example_env (some ['x']) example_buffered).action =
      app_action_error ∧
    example_env.flash_byte
        (ota_run example_env
          [.ota_write false (some 3) none, .ota_send (some 3) (some 6) (some [1, 2, 3]),
            .ota_finish (some ['x'])] example_initial).flash (0x103 * 0x1000 + 0) =
      example_env.flash_byte example_initial.flash (0x103 * 0x1000 + 0) :=
  have h := C20_flash_frame example_env
  have h3 := h.2.2 example_flash_correct example_initial false (some 3) none
    [.ota_send (some 3) (some 6) (some [1, 2, 3]), .ota_finish (some ['b', 'c', 'd'])]
    (by decide) (by decide) (by decide) (by decide)
  have h4 := h.2.2 example_flash_correct example_initial false (some 3) none
    [.ota_send (some 3) (some 6) (some [1, 2, 3]), .ota_finish (some ['x'])]
    (by decide) (by decide) (by decide) (by decide)
  ⟨(h.2.1 example_buffered none none none (some ['b', 'c', 'd'])).2, by decide, by decide,
    h3.2 0x101 0xfff (Or.inl (by decide)) (Or.inr (by decide)) (by decide),
    h3.2 0x103 0 (Or.inr (by decide)) (Or.inr (by decide)) (by decide),
    by decide,
    h4.2 0x103 0 (Or.inr (by decide)) (Or.inr (by decide)) (by decide)⟩

end Ota
